import Mathlib

/-!
# LokalCoin: masternode payment schedule and validation

A shallow embedding of `src/masternode/masternode-payments.cpp`, `src/generation.cpp` and of
the consensus heights set in `src/chainparams.cpp`, with `CreateChainParams`, the
assertions of the constructors it calls and the fee rates of `src/feerates.cpp`, followed by
theorems about them.

Conventions of the embedding

* `CAmount` is `int64_t`. Amounts are integers and every arithmetic operation of the source
  is followed by `wrap64`, the value of the 64-bit two's-complement result (`wrap32` for an
  `int` counter). Theorems that speak about the mathematical value of a result carry the
  hypothesis that the operation stays inside the range.
* A `std::string` is a `String`; `std::string::npos` is `none`.
* `int / int` of C++ truncates towards zero: `Int.tdiv`.
* A `std::vector` is a `List`; `v[i]` with `i` out of range has no defined result and is
  `none` in the `Option` returned by the function that reads it.
* `assert(false)` aborts the process: `none` in the `Option` returned by the function.
* Out-parameters (`std::vector<CTxOut>&`, `std::string&`) are passed in and returned.
* Functions and data that live outside the embedded files (the deterministic masternode
  list, the governance manager, the spork manager, `GetMasternodePayment`,
  `ExtractDestination`, the logging switches) are the fields of `Collaborators`.
-/

namespace LokalCoin

/-! ## Machine integers -/

/-- The type `CAmount` of the source is `int64_t`. -/
abbrev CAmount := Int

/-- Smallest `int64_t`. -/
def INT64_MIN : Int := -9223372036854775808

/-- Largest `int64_t`. -/
def INT64_MAX : Int := 9223372036854775807

/-- The value a 64-bit two's-complement register holds after an operation whose
mathematical result is `x`. -/
def wrap64 (x : Int) : Int :=
  (x + 9223372036854775808) % 18446744073709551616 - 9223372036854775808

/-- The integer `x` is the value of some `int64_t`. -/
def InInt64 (x : Int) : Prop := INT64_MIN ≤ x ∧ x ≤ INT64_MAX

instance (x : Int) : Decidable (InInt64 x) := by
  unfold InInt64; exact inferInstance

/-! ## Data model -/

/-- A `CScript` is a byte vector; `CScript()` is the empty one. -/
abbrev CScript := List (Fin 256)

/-- The class `CTxOut`: an amount and a locking script. -/
structure CTxOut where
  nValue : CAmount
  scriptPubKey : CScript
deriving DecidableEq, Repr

/-- The class `CTransaction` (and `CMutableTransaction`), reduced to its outputs, the only
part the embedded code reads or writes. -/
structure CTransaction where
  vout : List CTxOut
deriving DecidableEq, Repr

/-- The class `CBlock`: its transactions and the answer of `block.IsProofOfStake()`. -/
structure CBlock where
  vtx : List CTransaction
  IsProofOfStake : Bool
deriving DecidableEq, Repr

/-- The type `CTxDestination`, a variant whose default-constructed value is
`CNoDestination`. -/
inductive CTxDestination where
  | CNoDestination
  | CKeyID (id : Nat)
  | CScriptID (id : Nat)
deriving DecidableEq, Repr

/-- The class `CDeterministicMNState`, reduced to the two payout scripts. -/
structure CDeterministicMNState where
  scriptPayout : CScript
  scriptOperatorPayout : CScript
deriving DecidableEq, Repr

/-- The class `CDeterministicMN`: `nOperatorReward` is a `uint16_t` holding basis points. -/
structure CDeterministicMN where
  proTxHash : Nat
  nOperatorReward : Fin 65536
  pdmnState : CDeterministicMNState
deriving DecidableEq, Repr

/-- Spork identifiers used by the embedded code. -/
inductive SporkId where
  | SPORK_9_SUPERBLOCKS_ENABLED
deriving DecidableEq, Repr

/-- Log categories used by the embedded code. -/
inductive BCLog where
  | MNPAYMENTS
  | GOBJECT
deriving DecidableEq, Repr

/-! ## Consensus parameters (`chainparams.cpp`) -/

/-- The constant `NEVER32` of `chainparams.cpp`. -/
def NEVER32 : Int := 400000

/-- The heights of `Consensus::Params` that the constructors of `chainparams.cpp` set and the
payment code reads. -/
structure ConsensusParams where
  nMasternodePaymentsStartBlock : Int
  nBudgetPaymentsStartBlock : Int
  nSuperblockStartBlock : Int
  nSuperblockCycle : Int
  DIP0003Height : Int
  DIP0003EnforcementHeight : Int
  nLastPoWBlock : Int
deriving DecidableEq, Repr

/-- The class `CChainParams`, reduced to the network name, the consensus heights and the
spork addresses. -/
structure CChainParams where
  strNetworkID : String
  consensus : ConsensusParams
  vSporkAddresses : List String
deriving DecidableEq, Repr

/-- Constructor `CMainParams::CMainParams`. -/
def CMainParams : CChainParams :=
  { strNetworkID := "main"
    vSporkAddresses := ["LYUfeNSmdy5dehc8MJq2zmySt16bWjSNk3"]
    consensus :=
      { nMasternodePaymentsStartBlock := 201
        nBudgetPaymentsStartBlock := NEVER32
        nSuperblockStartBlock := NEVER32
        nSuperblockCycle := NEVER32
        DIP0003Height := 201
        DIP0003EnforcementHeight := 2000
        nLastPoWBlock := 200 } }

/-- Constructor `CTestNetParams::CTestNetParams`; `nLastPoWBlock` is assigned
`consensus.DIP0003Height`. -/
def CTestNetParams : CChainParams :=
  { strNetworkID := "test"
    vSporkAddresses := ["yTpFjxs3Rtwe7MXfC1i5XACz2K5UYi2GpL"]
    consensus :=
      { nMasternodePaymentsStartBlock := 50
        nBudgetPaymentsStartBlock := 50
        nSuperblockStartBlock := 100
        nSuperblockCycle := 24
        DIP0003Height := 75
        DIP0003EnforcementHeight := 363000
        nLastPoWBlock := 75 } }

/-- Constructor `CDevNetParams::CDevNetParams`. -/
def CDevNetParams : CChainParams :=
  { strNetworkID := "dev"
    vSporkAddresses := ["yjPtiKh2uwk3bDutTEA2q9mCtXyiZRWn55"]
    consensus :=
      { nMasternodePaymentsStartBlock := 4010
        nBudgetPaymentsStartBlock := 4100
        nSuperblockStartBlock := 4200
        nSuperblockCycle := 24
        DIP0003Height := 2
        DIP0003EnforcementHeight := 2
        nLastPoWBlock := 100 } }

/-- Constructor `CRegTestParams::CRegTestParams`. -/
def CRegTestParams : CChainParams :=
  { strNetworkID := "regtest"
    vSporkAddresses := ["yj949n1UH6fDhw6HtVE5VMj2iSTaSWBMcW"]
    consensus :=
      { nMasternodePaymentsStartBlock := 240
        nBudgetPaymentsStartBlock := 1000
        nSuperblockStartBlock := 1500
        nSuperblockCycle := 10
        DIP0003Height := 432
        DIP0003EnforcementHeight := 500
        nLastPoWBlock := 100 } }

/-- Answers of the code outside the embedded files, as seen during one call.

* `Params` is the selected `CChainParams` (`Params()`).
* `GetMasternodePayment h r` is the masternode share of the reward `r` at height `h`.
* `GetMNPayee h` is
  `deterministicMNManager->GetListForBlock(chainActive[h - 1]).GetMNPayee()`,
  `none` for a null payee.
* `ExtractDestination s` is `none` when `ExtractDestination(s, dest)` returns false (it
  then leaves `dest` as it was) and `some d` when it returns true after `dest = d`.
* `IsSporkActive`, `IsSuperblockTriggered`, `GetPaymentsLimit`, `IsValidBlockHeight`
  and `IsValid` are `sporkManager.IsSporkActive`, `CSuperblockManager::IsSuperblockTriggered`,
  `CSuperblock::GetPaymentsLimit`, `CSuperblock::IsValidBlockHeight` and
  `CSuperblockManager::IsValid(tx, height, actualReward, expectedReward)`.
* `LogAcceptCategory c` tells whether `LogPrint(c, ...)` evaluates its arguments;
  `LogPrintf` always does.
* `GetSuperblockPayments h v` is `CSuperblockManager::GetSuperblockPayments(h, vout)` called
  with `vout` holding `v`: the returned flag and the content of `vout` afterwards.
* `GetScriptForAddress a` is `GetScriptForDestination(CBitcoinAddress(a).Get())`.
* `IsDIP3Enforced` is `deterministicMNManager->IsDIP3Enforced()`.
* `GetProjectedMNPayees n` is
  `deterministicMNManager->GetListAtChainTip().GetProjectedMNPayees(n)`.
* `chainActiveHeight` is `chainActive.Height()`.
* `EncodeDestination d` is `CBitcoinAddress(d).ToString()`.
* `SuperblockRequiredPaymentsString h` is
  `CSuperblockManager::GetRequiredPaymentsString(h)`. -/
structure Collaborators where
  Params : CChainParams
  GetMasternodePayment : Int → CAmount → CAmount
  GetMNPayee : Int → Option CDeterministicMN
  ExtractDestination : CScript → Option CTxDestination
  IsSporkActive : SporkId → Bool
  IsSuperblockTriggered : Int → Bool
  GetPaymentsLimit : Int → CAmount
  IsValidBlockHeight : Int → Bool
  IsValid : CTransaction → Int → CAmount → CAmount → Bool
  LogAcceptCategory : BCLog → Bool
  GetSuperblockPayments : Int → List CTxOut → Bool × List CTxOut
  GetScriptForAddress : String → CScript
  IsDIP3Enforced : Bool
  GetProjectedMNPayees : Int → List CDeterministicMN
  chainActiveHeight : Int
  EncodeDestination : CTxDestination → String
  SuperblockRequiredPaymentsString : Int → String

/-! ## Payment schedule (`CMasternodePayments::GetBlockTxOuts`) -/

/-- The call `v.clear()` on a vector. -/
def vectorClear {α : Type} (_v : List α) : List α := []

/-- Sum of the amounts of a list of outputs. -/
def sumValues (outs : List CTxOut) : Int := (outs.map CTxOut.nValue).sum

/-- Method `CMasternodePayments::GetBlockTxOuts`. The last argument is the content of
`voutMasternodePaymentsRet` on entry; the result is the returned flag and the content of
`voutMasternodePaymentsRet` on return. -/
def GetBlockTxOuts (env : Collaborators) (nBlockHeight : Int) (expectedReward : CAmount)
    (voutMasternodePaymentsRet : List CTxOut) : Bool × List CTxOut :=
  let vout0 := vectorClear voutMasternodePaymentsRet
  let masternodeReward0 : CAmount := env.GetMasternodePayment nBlockHeight expectedReward
  match env.GetMNPayee nBlockHeight with
  | none => (false, vout0)
  | some dmnPayee =>
    let split : CAmount × CAmount :=
      if dmnPayee.nOperatorReward ≠ 0 ∧ dmnPayee.pdmnState.scriptOperatorPayout ≠ [] then
        let operatorReward :=
          (wrap64 (masternodeReward0 * (dmnPayee.nOperatorReward.val : Int))).tdiv 10000
        (operatorReward, wrap64 (masternodeReward0 - operatorReward))
      else
        (0, masternodeReward0)
    let operatorReward := split.1
    let masternodeReward := split.2
    let vout1 :=
      if masternodeReward > 0 then
        vout0 ++ [{ nValue := masternodeReward, scriptPubKey := dmnPayee.pdmnState.scriptPayout }]
      else vout0
    let vout2 :=
      if operatorReward > 0 then
        vout1 ++ [{ nValue := operatorReward,
                    scriptPubKey := dmnPayee.pdmnState.scriptOperatorPayout }]
      else vout1
    (true, vout2)

/-- Method `CMasternodePayments::GetMasternodeTxOuts`: clears the list, runs
`GetBlockTxOuts` and, on success, only logs the outputs. -/
def GetMasternodeTxOuts (env : Collaborators) (nBlockHeight : Int) (expectedReward : CAmount)
    (voutMasternodePaymentsRet : List CTxOut) : Bool × List CTxOut :=
  let vout0 := vectorClear voutMasternodePaymentsRet
  let r := GetBlockTxOuts env nBlockHeight expectedReward vout0
  if !r.1 then (false, r.2) else (true, r.2)

/-! ## Transaction validity (`CMasternodePayments::IsTransactionValid`) -/

/-- The statements `CTxDestination dest; ExtractDestination(script, dest);`: the value of
`dest` afterwards. A failed extraction leaves the default-constructed `CNoDestination`. -/
def destinationAfter (env : Collaborators) (script : CScript) : CTxDestination :=
  (env.ExtractDestination script).getD CTxDestination.CNoDestination

/-- Inner loop of `IsTransactionValid` over `txNew.vout`: the value of `found` after the
loop, which stops at the first output whose destination equals `dest0`. -/
def IsTransactionValid.findPayee (env : Collaborators) (dest0 : CTxDestination) :
    List CTxOut → Bool
  | [] => false
  | txout2 :: rest =>
    let dest1 := destinationAfter env txout2.scriptPubKey
    if dest0 = dest1 then true else IsTransactionValid.findPayee env dest0 rest

/-- Outer loop of `IsTransactionValid` over `voutMasternodePayments`. The result is `none`
when `assert(false)` is reached. -/
def IsTransactionValid.checkPayees (env : Collaborators) (txNew : CTransaction) :
    List CTxOut → Option Bool
  | [] => some true
  | txout :: rest =>
    let dest0 := destinationAfter env txout.scriptPubKey
    let found := IsTransactionValid.findPayee env dest0 txNew.vout
    if !found then
      match env.ExtractDestination txout.scriptPubKey with
      | none => none
      | some _ => some false
    else IsTransactionValid.checkPayees env txNew rest

/-- Method `CMasternodePayments::IsTransactionValid`. The result is `none` when the
process aborts on `assert(false)`. -/
def IsTransactionValid (env : Collaborators) (txNew : CTransaction) (nBlockHeight : Int)
    (expectedReward : CAmount) : Option Bool :=
  if nBlockHeight < env.Params.consensus.DIP0003Height then some true
  else
    let r := GetBlockTxOuts env nBlockHeight expectedReward []
    if !r.1 then some true
    else IsTransactionValid.checkPayees env txNew r.2

/-! ## Generation override table (`generation.cpp`) -/

/-- The type `GeneratedFunds` is `std::map<int, CAmount>`; the list holds its entries in
iteration order. -/
abbrev GeneratedFunds := List (Int × CAmount)

/-- The table `creationPoints` as shipped: it has no entry. -/
def creationPoints : GeneratedFunds := []

/-- Function `isGenerationBlock`, with the table as an argument. -/
def isGenerationBlock (table : GeneratedFunds) (nHeight : Int) : Bool :=
  match table with
  | [] => false
  | genpairs :: rest =>
    if genpairs.1 = nHeight then true else isGenerationBlock rest nHeight

/-- Function `getGenerationAmount`, with the table as an argument. -/
def getGenerationAmount (table : GeneratedFunds) (nHeight : Int) : CAmount :=
  match table with
  | [] => 0
  | genpairs :: rest =>
    if genpairs.1 = nHeight then genpairs.2 else getGenerationAmount rest nHeight

/-! ## Block value (`IsBlockValueValid`) -/

/-- The assignment `s = t` to a string variable. -/
def stringAssign (_s t : String) : String := t

/-- Reason set when the reward bound fails at a height that cannot be a superblock. -/
def errNotSuperblockHeight (nBlockHeight : Int) (actualReward nSuperblockMaxValue : CAmount) :
    String :=
  "coinbase pays too much at height " ++ toString nBlockHeight ++ " (actual=" ++
    toString actualReward ++ " vs limit=" ++ toString nSuperblockMaxValue ++
    "), exceeded block reward, only regular blocks are allowed at this height"

/-- Reason set when the superblock ceiling is exceeded. -/
def errSuperblockMaxValue (nBlockHeight : Int) (actualReward nSuperblockMaxValue : CAmount) :
    String :=
  "coinbase pays too much at height " ++ toString nBlockHeight ++ " (actual=" ++
    toString actualReward ++ " vs limit=" ++ toString nSuperblockMaxValue ++
    "), exceeded superblock max value"

/-- Reason set when the reward bound fails while superblocks are disabled. -/
def errSuperblocksDisabled (nBlockHeight : Int) (actualReward expectedReward : CAmount) :
    String :=
  "coinbase pays too much at height " ++ toString nBlockHeight ++ " (actual=" ++
    toString actualReward ++ " vs limit=" ++ toString expectedReward ++
    "), exceeded block reward, superblocks are disabled"

/-- Reason set when the reward bound fails and no superblock is triggered. -/
def errNoTriggeredSuperblock (nBlockHeight : Int) (actualReward expectedReward : CAmount) :
    String :=
  "coinbase pays too much at height " ++ toString nBlockHeight ++ " (actual=" ++
    toString actualReward ++ " vs limit=" ++ toString expectedReward ++
    "), exceeded block reward, no triggered superblock detected"

/-- Reason set when the governance manager reports the superblock invalid. -/
def errInvalidSuperblock (nBlockHeight : Int) : String :=
  "invalid superblock detected at height " ++ toString nBlockHeight

/-- Function `IsBlockValueValid`, with the generation table as an argument. The last
argument is the content of `strErrorRet` on entry. The result is `none` when the function
reads `block.vtx` out of range, and otherwise the returned flag with the content of
`strErrorRet` on return. The reads of `block.vtx` are, in order: `block.vtx[isProofOfStake]`
(bound to `coinbaseTransaction`), `block.vtx[0]` (argument of `LogPrint(BCLog::GOBJECT, ...)`),
`block.vtx[1]` (argument of `CSuperblockManager::IsValid`) and `block.vtx[10]` (argument of
`LogPrintf` in the invalid-superblock branch). -/
def IsBlockValueValid (table : GeneratedFunds) (env : Collaborators) (block : CBlock)
    (nBlockHeight : Int) (expectedReward actualReward : CAmount) (strErrorRet : String) :
    Option (Bool × String) :=
  let strErrorRet0 := stringAssign strErrorRet ""
  if isGenerationBlock table nBlockHeight then some (true, strErrorRet0)
  else
    let isProofOfStake := block.IsProofOfStake
    match block.vtx[isProofOfStake.toNat]? with
    | none => none
    | some _coinbaseTransaction =>
      let isBlockRewardValueMet : Bool := decide (actualReward ≤ expectedReward)
      let nSuperblockMaxValue : CAmount :=
        wrap64 (expectedReward + env.GetPaymentsLimit nBlockHeight)
      let isSuperblockMaxValueMet : Bool := decide (actualReward ≤ nSuperblockMaxValue)
      if env.LogAcceptCategory BCLog.GOBJECT && (block.vtx[0]?).isNone then none
      else if !env.IsValidBlockHeight nBlockHeight then
        some (isBlockRewardValueMet,
          if !isBlockRewardValueMet then
            errNotSuperblockHeight nBlockHeight actualReward nSuperblockMaxValue
          else strErrorRet0)
      else if !isSuperblockMaxValueMet then
        some (false, errSuperblockMaxValue nBlockHeight actualReward nSuperblockMaxValue)
      else if !env.IsSporkActive SporkId.SPORK_9_SUPERBLOCKS_ENABLED then
        some (isBlockRewardValueMet,
          if !isBlockRewardValueMet then
            errSuperblocksDisabled nBlockHeight actualReward expectedReward
          else strErrorRet0)
      else if !env.IsSuperblockTriggered nBlockHeight then
        some (isBlockRewardValueMet,
          if !isBlockRewardValueMet then
            errNoTriggeredSuperblock nBlockHeight actualReward expectedReward
          else strErrorRet0)
      else
        match block.vtx[1]? with
        | none => none
        | some tx1 =>
          if !env.IsValid tx1 nBlockHeight actualReward expectedReward then
            match block.vtx[10]? with
            | none => none
            | some _logged => some (false, errInvalidSuperblock nBlockHeight)
          else some (true, strErrorRet0)

/-! ## Generation recipient (`isGenerationRecipient`) -/

/-- The call `hay.find(needle)` of `std::string`, searching from the offset `pos` at which
`hay` starts: the offset of the first occurrence of `needle`, or `none` for
`std::string::npos`. -/
def stringFind (needle : List Char) : List Char → Nat → Option Nat
  | [], pos => if needle.isPrefixOf [] then some pos else none
  | c :: rest, pos =>
    if needle.isPrefixOf (c :: rest) then some pos else stringFind needle rest (pos + 1)

/-- The constant `testRecipient` of `isGenerationRecipient`. -/
def isGenerationRecipient.testRecipient : String := "5b1c713017e9e6e019264b0e6e3e8c3a5e03a3db"

/-- Function `isGenerationRecipient`. -/
def isGenerationRecipient (recipient : String) : Bool :=
  if (stringFind isGenerationRecipient.testRecipient.data recipient.data 0).isSome then true
  else false

/-- One lower-case hexadecimal digit. -/
def hexDigit (n : Nat) : Char := "0123456789abcdef".data.getD n '0'

/-- Modelled from the spec: `HexStr` (declared outside the embedded files), the hex encoding
of a script, two lower-case hexadecimal digits per byte, high digit first. -/
def HexStr (script : CScript) : String :=
  String.mk (script.foldr (fun b acc => hexDigit (b.val / 16) :: hexDigit (b.val % 16) :: acc) [])

/-! ## Block payee (`IsBlockPayeeValid`) -/

/-- Largest `int`. -/
def INT32_MAX : Int := 2147483647

/-- The value a 32-bit two's-complement register holds after an operation whose
mathematical result is `x`. -/
def wrap32 (x : Int) : Int := (x + 2147483648) % 4294967296 - 2147483648

/-- The loop of the override branch of `IsBlockPayeeValid` over `txNew.vout`: the value of
the `int correctRecipient` after the loop, from its value before. -/
def IsBlockPayeeValid.countRecipients (table : GeneratedFunds) (nBlockHeight : Int) :
    List CTxOut → Int → Int
  | [], correctRecipient => correctRecipient
  | l :: rest, correctRecipient =>
    let next : Int :=
      if isGenerationRecipient (HexStr l.scriptPubKey) then
        if getGenerationAmount table nBlockHeight = l.nValue then wrap32 (correctRecipient + 1)
        else correctRecipient
      else correctRecipient
    IsBlockPayeeValid.countRecipients table nBlockHeight rest next

/-- Function `IsBlockPayeeValid`, with the generation table and the global `fLiteMode` as
arguments. The result is `none` when `IsTransactionValid` aborts; `masternodePayment` is the
final check of the masternode payment, reached when the superblock step does not return. -/
def IsBlockPayeeValid (table : GeneratedFunds) (env : Collaborators) (fLiteMode : Bool)
    (txNew : CTransaction) (nBlockHeight : Int) (expectedReward actualReward : CAmount) :
    Option Bool :=
  if isGenerationBlock table nBlockHeight then
    let correctRecipient := IsBlockPayeeValid.countRecipients table nBlockHeight txNew.vout 0
    some (decide (correctRecipient = 1))
  else if fLiteMode then some true
  else
    let masternodePayment : Option Bool :=
      match IsTransactionValid env txNew nBlockHeight expectedReward with
      | none => none
      | some true => some true
      | some false => some false
    if env.IsSporkActive SporkId.SPORK_9_SUPERBLOCKS_ENABLED then
      if env.IsSuperblockTriggered nBlockHeight then
        if env.IsValid txNew nBlockHeight actualReward expectedReward then masternodePayment
        else some false
      else masternodePayment
    else masternodePayment

/-! ## Coinbase construction (`FillBlockPayments`) -/

/-- The last loop of `FillBlockPayments` over `voutMasternodePaymentsRet`: every step runs
`txNew.vout[1].nValue -= txout.nValue`. The second argument and the result are `txNew.vout`;
the result is `none` when index 1 is out of range. -/
def FillBlockPayments.subtractPayments : List CTxOut → List CTxOut → Option (List CTxOut)
  | [], vout => some vout
  | txout :: rest, vout =>
    match vout[1]? with
    | none => none
    | some out1 =>
      FillBlockPayments.subtractPayments rest
        (vout.set 1 { out1 with nValue := wrap64 (out1.nValue - txout.nValue) })

/-- Function `FillBlockPayments`, with the generation table as an argument. The last two
arguments are the contents of `voutMasternodePaymentsRet` and `voutSuperblockPaymentsRet` on
entry; the result holds `txNew` and the two lists on return. The result is `none` when
`Params().SporkAddresses().front()` is called on an empty vector or `txNew.vout[1]` is
read out of range. -/
def FillBlockPayments (table : GeneratedFunds) (env : Collaborators) (txNew : CTransaction)
    (nBlockHeight : Int) (expectedReward : CAmount)
    (voutMasternodePaymentsRet voutSuperblockPaymentsRet : List CTxOut) :
    Option (CTransaction × List CTxOut × List CTxOut) :=
  let voutSuperblock : List CTxOut :=
    if env.IsSporkActive SporkId.SPORK_9_SUPERBLOCKS_ENABLED
        && env.IsSuperblockTriggered nBlockHeight then
      (env.GetSuperblockPayments nBlockHeight voutSuperblockPaymentsRet).2
    else voutSuperblockPaymentsRet
  let voutMasternode : List CTxOut :=
    (GetMasternodeTxOuts env nBlockHeight expectedReward voutMasternodePaymentsRet).2
  let pushed : Option (List CTxOut) :=
    if isGenerationBlock table nBlockHeight then
      let amountGenerated := getGenerationAmount table nBlockHeight
      match env.Params.vSporkAddresses.head? with
      | none => none
      | some addressGenerated =>
        let payeeAddr := env.GetScriptForAddress addressGenerated
        some (txNew.vout ++ [{ nValue := amountGenerated, scriptPubKey := payeeAddr }])
    else some txNew.vout
  match pushed with
  | none => none
  | some vout1 =>
    let vout2 := vout1 ++ voutMasternode
    let vout3 := vout2 ++ voutSuperblock
    match FillBlockPayments.subtractPayments voutMasternode vout3 with
    | none => none
    | some vout4 => some ({ vout := vout4 }, voutMasternode, voutSuperblock)

/-! ## Schedule lookahead (`CMasternodePayments::IsScheduled`) -/

/-- The loop of `IsScheduled` over `projectedPayees`. -/
def IsScheduled.findProTxHash (dmnIn : CDeterministicMN) : List CDeterministicMN → Bool
  | [] => false
  | dmn :: rest =>
    if dmn.proTxHash = dmnIn.proTxHash then true else IsScheduled.findProTxHash dmnIn rest

/-- The value of an argument the function body never reads. -/
def unusedArgument {α : Type} (_a : α) : Unit := ()

/-- Method `CMasternodePayments::IsScheduled`; the body does not read `nNotBlockHeight`. -/
def IsScheduled (env : Collaborators) (dmnIn : CDeterministicMN) (nNotBlockHeight : Int) :
    Bool :=
  match unusedArgument nNotBlockHeight with
  | () =>
    if !env.IsDIP3Enforced then true
    else
      let projectedPayees := env.GetProjectedMNPayees 8
      IsScheduled.findProTxHash dmnIn projectedPayees

/-! ## Payment report (`GetRequiredPaymentsStrings`) -/

/-- Function `GetRequiredPaymentsString(nBlockHeight, payee)`; `none` for the payee is the
null pointer, `none` for the result is the abort on `assert(false)`. -/
def GetRequiredPaymentsString (env : Collaborators) (nBlockHeight : Int)
    (payee : Option CDeterministicMN) : Option String :=
  let named : Option String :=
    match payee with
    | none => some "Unknown"
    | some dmn =>
      match env.ExtractDestination dmn.pdmnState.scriptPayout with
      | none => none
      | some dest => some (env.EncodeDestination dest)
  match named with
  | none => none
  | some strPayee =>
    if env.IsSuperblockTriggered nBlockHeight then
      some (strPayee ++ (", " ++ env.SuperblockRequiredPaymentsString nBlockHeight))
    else some strPayee

/-- The call `m.emplace(k, v)` on a `std::map<int, std::string>` held as the list of its
entries in key order: the entry is inserted unless the key is present. -/
def mapEmplace : List (Int × String) → Int → String → List (Int × String)
  | [], k, v => [(k, v)]
  | (k0, v0) :: rest, k, v =>
    if k < k0 then (k, v) :: (k0, v0) :: rest
    else if k = k0 then (k0, v0) :: rest
    else (k0, v0) :: mapEmplace rest k v

/-- First loop of `GetRequiredPaymentsStrings`, `for (h = nStartHeight; h < nEndHeight; h++)`,
from the current `h` and map; the first argument bounds the number of iterations left. The
result is the map and `doProjection`, or `none` on an abort. -/
def GetRequiredPaymentsStrings.chainLoop (env : Collaborators)
    (nChainTipHeight nEndHeight : Int) :
    Nat → Int → List (Int × String) → Option (List (Int × String) × Bool)
  | 0, _, mapPayments => some (mapPayments, false)
  | fuel + 1, h, mapPayments =>
    if h < nEndHeight then
      if h ≤ nChainTipHeight then
        match GetRequiredPaymentsString env h (env.GetMNPayee h) with
        | none => none
        | some str =>
          GetRequiredPaymentsStrings.chainLoop env nChainTipHeight nEndHeight fuel
            (wrap32 (h + 1)) (mapEmplace mapPayments h str)
      else some (mapPayments, true)
    else some (mapPayments, false)

/-- Second loop of `GetRequiredPaymentsStrings`, over `projection` from the index `i`. -/
def GetRequiredPaymentsStrings.projectionLoop (env : Collaborators) (nChainTipHeight : Int) :
    List CDeterministicMN → Nat → List (Int × String) → Option (List (Int × String))
  | [], _, mapPayments => some mapPayments
  | payee :: rest, i, mapPayments =>
    let h := wrap32 (nChainTipHeight + 1 + (i : Int))
    match GetRequiredPaymentsString env h (some payee) with
    | none => none
    | some str =>
      GetRequiredPaymentsStrings.projectionLoop env nChainTipHeight rest (i + 1)
        (mapEmplace mapPayments h str)

/-- Function `GetRequiredPaymentsStrings`: the entries of the returned map in key order, or
`none` on an abort. The first loop runs at most `nEndHeight - nStartHeight` times. -/
def GetRequiredPaymentsStrings (env : Collaborators) (nStartHeight nEndHeight : Int) :
    Option (List (Int × String)) :=
  let nStartHeight1 := if nStartHeight < 1 then 1 else nStartHeight
  let nChainTipHeight := env.chainActiveHeight
  match GetRequiredPaymentsStrings.chainLoop env nChainTipHeight nEndHeight
      (nEndHeight - nStartHeight1).toNat nStartHeight1 [] with
  | none => none
  | some (mapPayments, doProjection) =>
    if doProjection then
      let projection := env.GetProjectedMNPayees (wrap32 (nEndHeight - nChainTipHeight))
      GetRequiredPaymentsStrings.projectionLoop env nChainTipHeight projection 0 mapPayments
    else some mapPayments

/-! ## Reads of `block.vtx` in `IsBlockValueValid` -/

/-- The indices at which `IsBlockValueValid` reads `block.vtx`, in the order of the reads, up
to the return or the first read out of range. -/
def IsBlockValueValid.vtxReads (table : GeneratedFunds) (env : Collaborators) (block : CBlock)
    (nBlockHeight : Int) (expectedReward actualReward : CAmount) : List Nat :=
  if isGenerationBlock table nBlockHeight then []
  else
    let isProofOfStake := block.IsProofOfStake
    match block.vtx[isProofOfStake.toNat]? with
    | none => [isProofOfStake.toNat]
    | some _coinbaseTransaction =>
      let nSuperblockMaxValue : CAmount :=
        wrap64 (expectedReward + env.GetPaymentsLimit nBlockHeight)
      let logged : List Nat := if env.LogAcceptCategory BCLog.GOBJECT then [0] else []
      if env.LogAcceptCategory BCLog.GOBJECT && (block.vtx[0]?).isNone then
        isProofOfStake.toNat :: logged
      else if !env.IsValidBlockHeight nBlockHeight then isProofOfStake.toNat :: logged
      else if !decide (actualReward ≤ nSuperblockMaxValue) then isProofOfStake.toNat :: logged
      else if !env.IsSporkActive SporkId.SPORK_9_SUPERBLOCKS_ENABLED then
        isProofOfStake.toNat :: logged
      else if !env.IsSuperblockTriggered nBlockHeight then isProofOfStake.toNat :: logged
      else
        match block.vtx[1]? with
        | none => isProofOfStake.toNat :: logged ++ [1]
        | some tx1 =>
          if !env.IsValid tx1 nBlockHeight actualReward expectedReward then
            isProofOfStake.toNat :: logged ++ [1, 10]
          else isProofOfStake.toNat :: logged ++ [1]

/-! ## Chain parameter selection (`CreateChainParams`) -/

/-- The constants `CBaseChainParams::MAIN`, `TESTNET`, `DEVNET` and `REGTEST`, which are
declared outside the embedded files. -/
structure CBaseChainParams where
  MAIN : String
  TESTNET : String
  DEVNET : String
  REGTEST : String
deriving DecidableEq, Repr

/-- Modelled from the spec: the values of the four base chain names, `main`, `test`, `dev` and
`regtest`; the constants themselves are declared outside the embedded files. -/
def baseChainNames : CBaseChainParams :=
  { MAIN := "main", TESTNET := "test", DEVNET := "dev", REGTEST := "regtest" }

/-- The type `uint256`, as the number it holds; `uint256S("0x...")` is the hexadecimal
literal. -/
abbrev uint256 := Nat

/-- Largest `uint32_t`. -/
def UINT32_MAX : Nat := 4294967295

/-- The single transaction of a genesis block as the code builds it: the items pushed into
the script of its input, the amount of its output and the items pushed into the script of
its output. -/
structure GenesisCoinbase where
  scriptSig : List String
  nValue : CAmount
  scriptPubKey : List String
deriving DecidableEq, Repr

/-- Class `CBlockHeader`: the header fields of a block. -/
structure CBlockHeader where
  nVersion : Int
  hashPrevBlock : uint256
  hashMerkleRoot : uint256
  nTime : Nat
  nBits : Nat
  nNonce : Nat
deriving DecidableEq, Repr

/-- Answers of the code outside the embedded files that the constructors of the parameter
sets consult: the constant `COIN`, `BlockMerkleRoot` of a block that holds one such
transaction, `CBlockHeader::GetHash`, `GetDevNetName()` and `arith_uint256::SetCompact`. -/
structure GenesisCollaborators where
  COIN : CAmount
  BlockMerkleRoot : GenesisCoinbase → uint256
  GetHash : CBlockHeader → uint256
  GetDevNetName : String
  SetCompact : Nat → uint256

/-- Function `CreateGenesisBlock` with a timestamp text and an output script (the first
overload), reduced to the header of the block it returns. -/
def CreateGenesisBlock.withScript (g : GenesisCollaborators) (pszTimestamp : String)
    (genesisOutputScript : List String) (nTime nNonce nBits : Nat) (nVersion : Int)
    (genesisReward : CAmount) : CBlockHeader :=
  { nTime := nTime
    nBits := nBits
    nNonce := nNonce
    nVersion := nVersion
    hashPrevBlock := 0
    hashMerkleRoot :=
      g.BlockMerkleRoot
        { scriptSig := ["486604799", "4", pszTimestamp]
          nValue := genesisReward
          scriptPubKey := genesisOutputScript } }

/-- Function `CreateGenesisBlock` (the second overload); it does not read `fTestnet`. -/
def CreateGenesisBlock (g : GenesisCollaborators) (nTime nNonce nBits : Nat) (nVersion : Int)
    (genesisReward : CAmount) (_fTestnet : Bool) : CBlockHeader :=
  CreateGenesisBlock.withScript g "Bitcoin performed 10 times better than gold in 2020"
    ["0411345e927d2d3abb85541e23b211f5a9019f2b240fb6bd4b1c44234993639793846cfc74154d293a3bf7ba74592f5f358127c0062a621d3b153089d0f5bb84e5",
     "OP_CHECKSIG"]
    nTime nNonce nBits nVersion genesisReward

/-- Function `CreateDevNetGenesisBlock`; `none` when `assert(!devNetName.empty())` fails. -/
def CreateDevNetGenesisBlock (g : GenesisCollaborators) (prevBlockHash : uint256)
    (devNetName : String) (nTime nNonce nBits : Nat) (genesisReward : CAmount) :
    Option CBlockHeader :=
  if devNetName = "" then none
  else
    some
      { nTime := nTime
        nBits := nBits
        nNonce := nNonce
        nVersion := 4
        hashPrevBlock := prevBlockHash
        hashMerkleRoot :=
          g.BlockMerkleRoot
            { scriptSig := ["1", devNetName]
              nValue := genesisReward
              scriptPubKey := ["OP_RETURN"] } }

/-- The conversion of `s.c_str()` back to a `std::string`: the characters before the first
zero character. -/
def cStr (s : String) : String :=
  String.mk (s.data.takeWhile (fun c => c ≠ Char.ofNat 0))

/-- The nonce loop of `FindDevNetGenesisBlock`, with the number of iterations left; `none`
when the loop ends without a block, where the code reaches `assert(false)`. -/
def FindDevNetGenesisBlock.loop (g : GenesisCollaborators) (block : CBlockHeader)
    (bnTarget : uint256) : Nat → Nat → Option CBlockHeader
  | 0, _ => none
  | remaining + 1, nNonce =>
    if g.GetHash { block with nNonce := nNonce } ≤ bnTarget then
      some { block with nNonce := nNonce }
    else FindDevNetGenesisBlock.loop g block bnTarget remaining (nNonce + 1)

/-- Function `FindDevNetGenesisBlock`; `none` when one of its assertions fails. -/
def FindDevNetGenesisBlock (g : GenesisCollaborators) (prevBlock : CBlockHeader)
    (reward : CAmount) : Option CBlockHeader :=
  let devNetName := g.GetDevNetName
  if devNetName = "" then none
  else
    match CreateDevNetGenesisBlock g (g.GetHash prevBlock) (cStr devNetName)
        ((prevBlock.nTime + 1) % 2 ^ 32) 0 prevBlock.nBits reward with
    | none => none
    | some block =>
      FindDevNetGenesisBlock.loop g block (g.SetCompact block.nBits) UINT32_MAX 0

/-- The expression `new CMainParams()`: the constructor builds the genesis block and asserts
its hash and its Merkle root; `none` when an assertion fails. -/
def newCMainParams (g : GenesisCollaborators) : Option CChainParams :=
  let genesis := CreateGenesisBlock g 1613019600 2024315 0x1e0ffff0 1 (wrap64 (0 * g.COIN)) false
  if g.GetHash genesis
      ≠ 0x00000b49f79eaf2a0a99f3d85762a63b410711953933834c9afd5e96ce805a61 then none
  else if genesis.hashMerkleRoot
      ≠ 0xbafd9ea271b5fdc00fefe68e82c3baaa5b2b9f0770c93713506fb071fe4337fa then none
  else some CMainParams

/-- The expression `new CTestNetParams()`: the constructor has no assertion. -/
def newCTestNetParams (_g : GenesisCollaborators) : Option CChainParams :=
  some CTestNetParams

/-- The expression `new CDevNetParams()`: the constructor builds the genesis block, asserts
its hash and its Merkle root and then calls `FindDevNetGenesisBlock`; `none` when an
assertion fails. -/
def newCDevNetParams (g : GenesisCollaborators) : Option CChainParams :=
  let genesis := CreateGenesisBlock g 1417713337 1096447 0x207fffff 1 (wrap64 (50 * g.COIN)) false
  if g.GetHash genesis
      ≠ 0x000008ca1832a4baf228eb1553c03d3a2c8e02399550dd6ea8d65cec3ef23d2e then none
  else if genesis.hashMerkleRoot
      ≠ 0xe0028eb9648db56b1ac77cf090b99048a8007e2bb64b68f092c03c7f56a662c7 then none
  else
    match FindDevNetGenesisBlock g genesis (wrap64 (50 * g.COIN)) with
    | none => none
    | some _devnetGenesis => some CDevNetParams

/-- The expression `new CRegTestParams()`: the two assertions of the constructor are
commented out. -/
def newCRegTestParams (_g : GenesisCollaborators) : Option CChainParams :=
  some CRegTestParams

/-- Function `CreateChainParams`, with the base chain names as an argument. The result is
`none` when the constructor called aborts on an assertion, `Except.error` with the message of
the `std::runtime_error` when the function throws. -/
def CreateChainParams (names : CBaseChainParams) (g : GenesisCollaborators) (chain : String) :
    Option (Except String CChainParams) :=
  if chain = names.MAIN then (newCMainParams g).map Except.ok
  else if chain = names.TESTNET then (newCTestNetParams g).map Except.ok
  else if chain = names.DEVNET then (newCDevNetParams g).map Except.ok
  else if chain = names.REGTEST then (newCRegTestParams g).map Except.ok
  else some (Except.error ("CreateChainParams" ++ ": Unknown chain " ++ chain ++ "."))

/-! ## Fee rates (`feerates.cpp`) -/

/-- The class `CFeeRate`, built from an amount per 1000 bytes. -/
structure CFeeRate where
  nSatoshisPerK : CAmount
deriving DecidableEq, Repr

/-- The constant `DEFAULT_FALLBACK_LEGACY = 0.0001 * COIN`; the argument `coinFraction` is
the `CAmount` value of the expression `0.0001 * COIN`, which all six constants share. -/
def DEFAULT_FALLBACK_LEGACY (coinFraction : CAmount) : CAmount := coinFraction

/-- The constant `DEFAULT_FALLBACK_FUTURE = 0.0001 * COIN`. -/
def DEFAULT_FALLBACK_FUTURE (coinFraction : CAmount) : CAmount := coinFraction

/-- The constant `DEFAULT_TX_MINFEE_LEGACY = 0.0001 * COIN`. -/
def DEFAULT_TX_MINFEE_LEGACY (coinFraction : CAmount) : CAmount := coinFraction

/-- The constant `DEFAULT_TX_MINFEE_FUTURE = 0.0001 * COIN`. -/
def DEFAULT_TX_MINFEE_FUTURE (coinFraction : CAmount) : CAmount := coinFraction

/-- The constant `DEFAULT_MIN_RELAY_FEE_LEGACY = 0.0001 * COIN`. -/
def DEFAULT_MIN_RELAY_FEE_LEGACY (coinFraction : CAmount) : CAmount := coinFraction

/-- The constant `DEFAULT_MIN_RELAY_FEE_FUTURE = 0.0001 * COIN`. -/
def DEFAULT_MIN_RELAY_FEE_FUTURE (coinFraction : CAmount) : CAmount := coinFraction

/-- Function `FallbackFee`; `fPoSTrigger` is the global flag and `isPoS` the answer of
`IsPoS()`. -/
def FallbackFee (coinFraction : CAmount) (fPoSTrigger isPoS : Bool) : CFeeRate :=
  if fPoSTrigger || isPoS then { nSatoshisPerK := DEFAULT_FALLBACK_FUTURE coinFraction }
  else { nSatoshisPerK := DEFAULT_FALLBACK_LEGACY coinFraction }

/-- Function `MinTxFee`. -/
def MinTxFee (coinFraction : CAmount) (fPoSTrigger isPoS : Bool) : CFeeRate :=
  if fPoSTrigger || isPoS then { nSatoshisPerK := DEFAULT_TX_MINFEE_FUTURE coinFraction }
  else { nSatoshisPerK := DEFAULT_TX_MINFEE_LEGACY coinFraction }

/-- Function `MinRelayFee`. -/
def MinRelayFee (coinFraction : CAmount) (fPoSTrigger isPoS : Bool) : CFeeRate :=
  if fPoSTrigger || isPoS then { nSatoshisPerK := DEFAULT_MIN_RELAY_FEE_FUTURE coinFraction }
  else { nSatoshisPerK := DEFAULT_MIN_RELAY_FEE_LEGACY coinFraction }

/-! ## Example data -/

/-- A pay-to-pubkey-hash style owner script used in examples. -/
def exOwnerScript : CScript := [0x76, 0xa9, 0x14, 0x01, 0x88, 0xac]

/-- An operator script used in examples. -/
def exOperatorScript : CScript := [0x76, 0xa9, 0x14, 0x02, 0x88, 0xac]

/-- A second script (pay-to-pubkey style) that resolves to the owner destination. -/
def exOwnerScriptAlt : CScript := [0x21, 0x01, 0xac]

/-- The script of a governance proposal payee used in examples. -/
def exProposalScript : CScript := [0x76, 0xa9, 0x14, 0x03, 0x88, 0xac]

/-- The script of the spork address used in examples. -/
def exSporkScript : CScript := [0x76, 0xa9, 0x14, 0x04, 0x88, 0xac]

/-- A script that carries the generation recipient identifier (pay-to-pubkey-hash of it). -/
def exGenerationScript : CScript :=
  [0x76, 0xa9, 0x14,
   0x5b, 0x1c, 0x71, 0x30, 0x17, 0xe9, 0xe6, 0xe0, 0x19, 0x26,
   0x4b, 0x0e, 0x6e, 0x3e, 0x8c, 0x3a, 0x5e, 0x03, 0xa3, 0xdb,
   0x88, 0xac]

/-- A transaction that pays the example proposal. -/
def exPaymentTx : CTransaction :=
  { vout := [{ nValue := 1000, scriptPubKey := exOwnerScript },
             { nValue := 400, scriptPubKey := exProposalScript }] }

/-- A transaction without outputs. -/
def exOtherTx : CTransaction := { vout := [] }

/-- A generation table with one entry: 500 at height 100. -/
def exTable : GeneratedFunds := [(100, 500)]

/-- A masternode with operator reward `bps` basis points and the given operator script. -/
def exMN (bps : Fin 65536) (operatorScript : CScript) : CDeterministicMN :=
  { proTxHash := 7
    nOperatorReward := bps
    pdmnState := { scriptPayout := exOwnerScript, scriptOperatorPayout := operatorScript } }

/-- Example resolver: both owner scripts resolve to key id 1, the operator script to key
id 2, nothing else resolves. -/
def exExtract (s : CScript) : Option CTxDestination :=
  if s = exOwnerScript then some (.CKeyID 1)
  else if s = exOwnerScriptAlt then some (.CKeyID 1)
  else if s = exOperatorScript then some (.CKeyID 2)
  else none

/-- Example address encoding. -/
def exEncode : CTxDestination → String
  | CTxDestination.CNoDestination => ""
  | CTxDestination.CKeyID n => "key" ++ toString n
  | CTxDestination.CScriptID n => "script" ++ toString n

/-- Example collaborators: the masternode share is `mnReward` at every height, the payee is
`payee` at every height, superblocks are governed by the three flags, the superblock pays 400
to one proposal and every address has the example spork script; DIP3 is enforced, the chain
tip is at height 100 and the projection of `n` payees holds `n` copies of one masternode. -/
def exEnv (params : CChainParams) (mnReward : CAmount) (payee : Option CDeterministicMN)
    (validHeight sporkActive triggered govValid : Bool) (limit : CAmount) : Collaborators :=
  { Params := params
    GetMasternodePayment := fun _ _ => mnReward
    GetMNPayee := fun _ => payee
    ExtractDestination := exExtract
    IsSporkActive := fun _ => sporkActive
    IsSuperblockTriggered := fun _ => triggered
    GetPaymentsLimit := fun _ => limit
    IsValidBlockHeight := fun _ => validHeight
    IsValid := fun _ _ _ _ => govValid
    LogAcceptCategory := fun _ => false
    GetSuperblockPayments := fun _ _ => (true, [{ nValue := 400, scriptPubKey := exProposalScript }])
    GetScriptForAddress := fun _ => exSporkScript
    IsDIP3Enforced := true
    GetProjectedMNPayees := fun n => List.replicate n.toNat (exMN 0 [])
    chainActiveHeight := 100
    EncodeDestination := exEncode
    SuperblockRequiredPaymentsString := fun _ => "proposal" }

/-- Example collaborators at a valid, triggered superblock height with limit 500, whose
governance manager reports exactly the transaction `validTx` valid. -/
def exEnvValidOnly (validTx : CTransaction) : Collaborators :=
  { exEnv CTestNetParams 0 none true true true true 500 with
    IsValid := fun tx _ _ _ => decide (tx = validTx) }

/-- Example collaborators with a payee paid 750/250 and a triggered superblock of 400, whose
governance manager reports a transaction invalid when the actual reward exceeds the expected
reward plus the superblock payments. -/
def exEnvRewardBound : Collaborators :=
  { exEnv CMainParams 1000 (some (exMN 2500 exOperatorScript)) true true true true 500 with
    IsValid := fun _ _ actualReward expectedReward => decide (actualReward ≤ expectedReward + 400) }

/-- A second masternode, with its own `proTxHash` and the payout scripts of the first. -/
def exOtherMN : CDeterministicMN :=
  { proTxHash := 8
    nOperatorReward := 0
    pdmnState := { scriptPayout := exOwnerScript, scriptOperatorPayout := [] } }

/-- Answers about the genesis blocks of the constructors as shipped. The Merkle roots are
the double SHA-256 of the serialised transaction `CreateGenesisBlock` builds, with amount 0
(main network) and with 50 coins (devnet); every header hash is taken to be the value the
constructor that builds the header asserts. -/
def exGenesis : GenesisCollaborators :=
  { COIN := 100000000
    BlockMerkleRoot := fun tx =>
      if tx.nValue = 0 then
        0xbafd9ea271b5fdc00fefe68e82c3baaa5b2b9f0770c93713506fb071fe4337fa
      else 0x5845321b0ac660014a69555718cfc6638cebec9cedf83b7301220ac1631543ba
    GetHash := fun header =>
      if header.nTime = 1613019600 then
        0x00000b49f79eaf2a0a99f3d85762a63b410711953933834c9afd5e96ce805a61
      else 0x000008ca1832a4baf228eb1553c03d3a2c8e02399550dd6ea8d65cec3ef23d2e
    GetDevNetName := "devnet"
    SetCompact := fun _ => 2 ^ 255 }

/-! ## Arithmetic lemmas -/

theorem wrap64_of_inRange (x : Int) (h : InInt64 x) : wrap64 x = x := by
  unfold InInt64 INT64_MIN INT64_MAX at h
  unfold wrap64
  omega

theorem operatorShare_le (mr : Int) (bps : Nat) (h0 : 0 ≤ mr) (hb : bps ≤ 10000) :
    0 ≤ mr * (bps : Int) / 10000 ∧ mr * (bps : Int) / 10000 ≤ mr := by
  have hb2 : (bps : Int) ≤ 10000 := by exact_mod_cast hb
  have hb0 : (0 : Int) ≤ (bps : Int) := Int.natCast_nonneg bps
  have h1 : 0 ≤ mr * (bps : Int) := Int.mul_nonneg h0 hb0
  have h2 : mr * (bps : Int) ≤ mr * 10000 := Int.mul_le_mul_of_nonneg_left hb2 h0
  constructor
  · exact Int.ediv_nonneg h1 (by decide)
  · omega

theorem splitNoOverflow (mr : Int) (bps : Nat) (hin : InInt64 mr)
    (hprod : InInt64 (mr * (bps : Int))) :
    wrap64 (mr * (bps : Int)) = mr * (bps : Int)
      ∧ wrap64 (mr - (mr * (bps : Int)).tdiv 10000) = mr - (mr * (bps : Int)).tdiv 10000 := by
  refine ⟨wrap64_of_inRange _ hprod, ?_⟩
  apply wrap64_of_inRange
  have hb0 : (0 : Int) ≤ (bps : Int) := Int.natCast_nonneg bps
  unfold InInt64 INT64_MIN INT64_MAX at *
  rcases le_or_lt 0 mr with hmr | hmr
  · have hp : 0 ≤ mr * (bps : Int) := Int.mul_nonneg hmr hb0
    rw [Int.tdiv_eq_ediv hp (by decide)]
    constructor <;> omega
  · have hp : mr * (bps : Int) ≤ 0 := Int.mul_nonpos_of_nonpos_of_nonneg (le_of_lt hmr) hb0
    have e : (mr * (bps : Int)).tdiv 10000 = -((-(mr * (bps : Int))) / 10000) := by
      have h1 : (-(mr * (bps : Int))).tdiv 10000 = (-(mr * (bps : Int))) / 10000 :=
        Int.tdiv_eq_ediv (by omega) (by decide)
      rw [← h1, Int.neg_tdiv, neg_neg]
    rw [e]
    constructor <;> omega

theorem sumValues_split (mr op : Int) (s1 s2 : CScript) (h0 : 0 ≤ op) (h1 : op ≤ mr) :
    sumValues ((if 0 < mr - op then [{ nValue := mr - op, scriptPubKey := s1 }] else [])
      ++ (if 0 < op then [{ nValue := op, scriptPubKey := s2 }] else [])) = mr := by
  by_cases ha : 0 < mr - op <;> by_cases hb : 0 < op <;>
    simp [sumValues, ha, hb] <;> omega

/-- The list `GetBlockTxOuts` returns for a payee, in mathematical terms. When the split is
computed, neither the product nor the difference may leave the 64-bit range. -/
theorem GetBlockTxOuts_of_payee (env : Collaborators) (nBlockHeight : Int)
    (expectedReward : CAmount) (vin : List CTxOut) (dmn : CDeterministicMN) (mr : Int)
    (hmr : env.GetMasternodePayment nBlockHeight expectedReward = mr)
    (hp : env.GetMNPayee nBlockHeight = some dmn)
    (harith : dmn.nOperatorReward ≠ 0 ∧ dmn.pdmnState.scriptOperatorPayout ≠ [] →
      InInt64 mr ∧ InInt64 (mr * (dmn.nOperatorReward.val : Int)))
    (op : Int)
    (hop : op = if dmn.nOperatorReward ≠ 0 ∧ dmn.pdmnState.scriptOperatorPayout ≠ [] then
        (mr * (dmn.nOperatorReward.val : Int)).tdiv 10000 else 0) :
    GetBlockTxOuts env nBlockHeight expectedReward vin =
      (true,
        (if 0 < mr - op then
            [{ nValue := mr - op, scriptPubKey := dmn.pdmnState.scriptPayout }]
          else [])
        ++ (if 0 < op then
              [{ nValue := op, scriptPubKey := dmn.pdmnState.scriptOperatorPayout }]
            else [])) := by
  unfold GetBlockTxOuts
  simp only [hp, vectorClear, hmr]
  by_cases hc : dmn.nOperatorReward ≠ 0 ∧ dmn.pdmnState.scriptOperatorPayout ≠ []
  · obtain ⟨e1, e2⟩ := splitNoOverflow mr dmn.nOperatorReward.val (harith hc).1 (harith hc).2
    rw [if_pos hc] at hop
    rw [← hop] at e2
    simp only [if_pos hc, e1, ← hop, e2]
    split <;> split <;> simp
  · rw [if_neg hc] at hop
    subst hop
    simp only [if_neg hc]
    split <;> simp

/-! ## The payment schedule -/

/-- C1 (counterexample). With an operator reward of 2500 basis points but no operator payout
script, a masternode reward of 1000 is paid to the owner alone: the owner output is 1000 and
not the remainder 750, and no output carries the operator share 250. With a negative
masternode reward nothing is emitted, and with more than 10000 basis points only the operator
output is emitted, so in both cases the emitted total differs from the masternode reward. -/
theorem GetBlockTxOuts_split_counterexample :
    (GetBlockTxOuts (exEnv CMainParams 1000 (some (exMN 2500 [])) false false false false 0)
        201 1000 []).2 = [{ nValue := 1000, scriptPubKey := exOwnerScript }]
    ∧ (1000 : Int) - 1000 * 2500 / 10000 ≠ 1000
    ∧ sumValues (GetBlockTxOuts
        (exEnv CMainParams (-5) (some (exMN 0 [])) false false false false 0) 201 1000 []).2
        ≠ (exEnv CMainParams (-5) (some (exMN 0 [])) false false false false 0).GetMasternodePayment
            201 1000
    ∧ sumValues (GetBlockTxOuts
        (exEnv CMainParams 1000 (some (exMN 20000 exOperatorScript)) false false false false 0)
        201 1000 []).2
        ≠ (exEnv CMainParams 1000 (some (exMN 20000 exOperatorScript))
            false false false false 0).GetMasternodePayment 201 1000 := by
  decide

/-- C1 (amended). When the masternode list yields a payee, the masternode reward is
non-negative, the operator reward is at most 10000 basis points and the product of the two
fits in 64 bits, the outputs of `GetBlockTxOuts` sum to the masternode reward exactly; the
operator share is `floor(masternodeReward * nOperatorReward / 10000)` when the operator reward
is non-zero and an operator payout script is set and 0 otherwise, the owner share is the
remainder, and each share is emitted when it is positive. -/
theorem GetBlockTxOuts_sum_eq_masternodeReward (env : Collaborators) (nBlockHeight : Int)
    (expectedReward : CAmount) (vin : List CTxOut) (dmn : CDeterministicMN)
    (hp : env.GetMNPayee nBlockHeight = some dmn)
    (h0 : 0 ≤ env.GetMasternodePayment nBlockHeight expectedReward)
    (hb : dmn.nOperatorReward.val ≤ 10000)
    (hov : env.GetMasternodePayment nBlockHeight expectedReward
            * (dmn.nOperatorReward.val : Int) ≤ INT64_MAX) :
    let mr := env.GetMasternodePayment nBlockHeight expectedReward
    let op : Int :=
      if dmn.nOperatorReward ≠ 0 ∧ dmn.pdmnState.scriptOperatorPayout ≠ [] then
        mr * (dmn.nOperatorReward.val : Int) / 10000
      else 0
    let owner : Int := mr - op
    GetBlockTxOuts env nBlockHeight expectedReward vin =
        (true,
          (if 0 < owner then [{ nValue := owner, scriptPubKey := dmn.pdmnState.scriptPayout }]
            else [])
          ++ (if 0 < op then
                [{ nValue := op, scriptPubKey := dmn.pdmnState.scriptOperatorPayout }]
              else []))
      ∧ sumValues (GetBlockTxOuts env nBlockHeight expectedReward vin).2 = mr := by
  intro mr op owner
  have hprod : 0 ≤ mr * (dmn.nOperatorReward.val : Int) :=
    Int.mul_nonneg h0 (Int.natCast_nonneg _)
  have hshare := operatorShare_le mr dmn.nOperatorReward.val h0 hb
  have hop : 0 ≤ op ∧ op ≤ mr := by
    by_cases hc : dmn.nOperatorReward ≠ 0 ∧ dmn.pdmnState.scriptOperatorPayout ≠ []
    · simp only [op, if_pos hc]; exact hshare
    · simp only [op, if_neg hc]; exact ⟨le_refl 0, h0⟩
  have hlist : GetBlockTxOuts env nBlockHeight expectedReward vin =
      (true,
        (if 0 < mr - op then
            [{ nValue := mr - op, scriptPubKey := dmn.pdmnState.scriptPayout }]
          else [])
        ++ (if 0 < op then
              [{ nValue := op, scriptPubKey := dmn.pdmnState.scriptOperatorPayout }]
            else [])) := by
    apply GetBlockTxOuts_of_payee env nBlockHeight expectedReward vin dmn mr rfl hp
    · intro hc
      have hpos : (1 : Int) ≤ (dmn.nOperatorReward.val : Int) := by
        have : dmn.nOperatorReward.val ≠ 0 := fun h => hc.1 (Fin.ext h)
        omega
      have hle : mr * 1 ≤ mr * (dmn.nOperatorReward.val : Int) :=
        Int.mul_le_mul_of_nonneg_left hpos h0
      rw [Int.mul_one] at hle
      have hmin : INT64_MIN ≤ 0 := by decide
      exact ⟨⟨le_trans hmin h0, le_trans hle hov⟩, ⟨le_trans hmin hprod, hov⟩⟩
    · by_cases hc : dmn.nOperatorReward ≠ 0 ∧ dmn.pdmnState.scriptOperatorPayout ≠ []
      · simp only [op, if_pos hc]
        exact (Int.tdiv_eq_ediv hprod (by decide)).symm
      · simp only [op, if_neg hc]
  refine ⟨hlist, ?_⟩
  rw [hlist]
  exact sumValues_split mr op _ _ hop.1 hop.2

/-- C1 (witness). The amended statement at reward 1000, 2500 basis points and no operator
script: the owner alone is paid 1000. -/
theorem GetBlockTxOuts_sum_eq_masternodeReward_witness :
    GetBlockTxOuts (exEnv CMainParams 1000 (some (exMN 2500 [])) false false false false 0)
        201 1000 [] = (true, [{ nValue := 1000, scriptPubKey := exOwnerScript }])
    ∧ sumValues (GetBlockTxOuts
        (exEnv CMainParams 1000 (some (exMN 2500 [])) false false false false 0)
        201 1000 []).2 = 1000 :=
  GetBlockTxOuts_sum_eq_masternodeReward
    (exEnv CMainParams 1000 (some (exMN 2500 [])) false false false false 0) 201 1000 []
    (exMN 2500 []) rfl (by decide) (by decide) (by decide)

/-- C2. When a payee exists (and, where the split is computed, the reward and its product
with the operator basis points are 64-bit values), `GetBlockTxOuts` returns true and the list
is exactly the owner output
`(masternodeReward - op, scriptPayout)` if that amount is positive, followed by the operator
output `(op, scriptOperatorPayout)` if `op` is positive, where `op` is
`masternodeReward * nOperatorReward / 10000` (C++ division) when `nOperatorReward != 0` and
the operator script is non-empty, and 0 otherwise. In particular a reward of 1000 with 2500
basis points and an operator script set gives `[(750, owner), (250, operator)]`. -/
theorem GetBlockTxOuts_outputs (env : Collaborators) (nBlockHeight : Int)
    (expectedReward : CAmount) (vin : List CTxOut) (dmn : CDeterministicMN)
    (hp : env.GetMNPayee nBlockHeight = some dmn)
    (harith : dmn.nOperatorReward ≠ 0 ∧ dmn.pdmnState.scriptOperatorPayout ≠ [] →
      InInt64 (env.GetMasternodePayment nBlockHeight expectedReward)
        ∧ InInt64 (env.GetMasternodePayment nBlockHeight expectedReward
            * (dmn.nOperatorReward.val : Int))) :
    (let mr := env.GetMasternodePayment nBlockHeight expectedReward
     let op : Int :=
       if dmn.nOperatorReward ≠ 0 ∧ dmn.pdmnState.scriptOperatorPayout ≠ [] then
         (mr * (dmn.nOperatorReward.val : Int)).tdiv 10000
       else 0
     GetBlockTxOuts env nBlockHeight expectedReward vin =
       (true,
         (if 0 < mr - op then
             [{ nValue := mr - op, scriptPubKey := dmn.pdmnState.scriptPayout }]
           else [])
         ++ (if 0 < op then
               [{ nValue := op, scriptPubKey := dmn.pdmnState.scriptOperatorPayout }]
             else [])))
    ∧ (env.GetMasternodePayment nBlockHeight expectedReward = 1000 →
        dmn.nOperatorReward = 2500 → dmn.pdmnState.scriptOperatorPayout ≠ [] →
        GetBlockTxOuts env nBlockHeight expectedReward vin =
          (true, [{ nValue := 750, scriptPubKey := dmn.pdmnState.scriptPayout },
                  { nValue := 250, scriptPubKey := dmn.pdmnState.scriptOperatorPayout }])) := by
  have key := GetBlockTxOuts_of_payee env nBlockHeight expectedReward vin dmn
    (env.GetMasternodePayment nBlockHeight expectedReward) rfl hp harith _ rfl
  refine ⟨key, ?_⟩
  intro h1000 hbps hscript
  rw [key, h1000, hbps]
  have hc : (2500 : Fin 65536) ≠ 0 ∧ dmn.pdmnState.scriptOperatorPayout ≠ [] :=
    ⟨by decide, hscript⟩
  rw [if_pos hc]
  have e : ((1000 : Int) * (((2500 : Fin 65536).val : Nat) : Int)).tdiv 10000 = 250 := by decide
  rw [e]
  simp

/-- C2 (witness). The example of the claim on concrete collaborators. -/
theorem GetBlockTxOuts_outputs_witness :
    GetBlockTxOuts
        (exEnv CMainParams 1000 (some (exMN 2500 exOperatorScript)) false false false false 0)
        201 1000 [{ nValue := 3, scriptPubKey := [] }]
      = (true, [{ nValue := 750, scriptPubKey := exOwnerScript },
                { nValue := 250, scriptPubKey := exOperatorScript }]) :=
  (GetBlockTxOuts_outputs
    (exEnv CMainParams 1000 (some (exMN 2500 exOperatorScript)) false false false false 0)
    201 1000 [{ nValue := 3, scriptPubKey := [] }] (exMN 2500 exOperatorScript)
    rfl (fun _ => by decide)).2 rfl rfl (by decide)

/-- C3. If the masternode list yields no payee for the height, `GetBlockTxOuts` and
`GetMasternodeTxOuts` return false and leave the output list empty, whatever the list held
on entry and whatever the height and the reward are. -/
theorem GetBlockTxOuts_no_payee (env : Collaborators) (nBlockHeight : Int)
    (expectedReward : CAmount) (vin : List CTxOut)
    (hp : env.GetMNPayee nBlockHeight = none) :
    GetBlockTxOuts env nBlockHeight expectedReward vin = (false, [])
      ∧ GetMasternodeTxOuts env nBlockHeight expectedReward vin = (false, []) := by
  have h1 : ∀ v, GetBlockTxOuts env nBlockHeight expectedReward v = (false, []) := by
    intro v
    unfold GetBlockTxOuts
    simp only [hp, vectorClear]
  refine ⟨h1 vin, ?_⟩
  unfold GetMasternodeTxOuts
  simp [h1]

/-- C3 (witness). No payee and a list that holds one output on entry. -/
theorem GetBlockTxOuts_no_payee_witness :
    GetBlockTxOuts (exEnv CMainParams 1000 none false false false false 0) 201 1000
        [{ nValue := 3, scriptPubKey := exOwnerScript }] = (false, [])
      ∧ GetMasternodeTxOuts (exEnv CMainParams 1000 none false false false false 0) 201 1000
        [{ nValue := 3, scriptPubKey := exOwnerScript }] = (false, []) :=
  GetBlockTxOuts_no_payee (exEnv CMainParams 1000 none false false false false 0) 201 1000
    [{ nValue := 3, scriptPubKey := exOwnerScript }] rfl

/-! ## Transaction validity -/

theorem findPayee_eq_true_iff (env : Collaborators) (dest0 : CTxDestination)
    (vout : List CTxOut) :
    IsTransactionValid.findPayee env dest0 vout = true
      ↔ ∃ o ∈ vout, destinationAfter env o.scriptPubKey = dest0 := by
  induction vout with
  | nil => simp [IsTransactionValid.findPayee]
  | cons o rest ih =>
    unfold IsTransactionValid.findPayee
    by_cases h : dest0 = destinationAfter env o.scriptPubKey
    · simp [h]
    · have h2 : ¬ destinationAfter env o.scriptPubKey = dest0 := fun e => h e.symm
      simp [h, h2, ih]

theorem checkPayees_eq_true_iff (env : Collaborators) (txNew : CTransaction)
    (expected : List CTxOut) :
    IsTransactionValid.checkPayees env txNew expected = some true
      ↔ ∀ e ∈ expected, ∃ o ∈ txNew.vout,
          destinationAfter env o.scriptPubKey = destinationAfter env e.scriptPubKey := by
  induction expected with
  | nil => simp [IsTransactionValid.checkPayees]
  | cons e rest ih =>
    unfold IsTransactionValid.checkPayees
    by_cases hf : IsTransactionValid.findPayee env
        (destinationAfter env e.scriptPubKey) txNew.vout = true
    · have hex := (findPayee_eq_true_iff env _ _).1 hf
      simp only [hf, Bool.not_true, Bool.false_eq_true, if_false, ih, List.forall_mem_cons]
      exact ⟨fun h => ⟨hex, h⟩, fun h => h.2⟩
    · have hnex : ¬ ∃ o ∈ txNew.vout,
          destinationAfter env o.scriptPubKey = destinationAfter env e.scriptPubKey :=
        fun h => hf ((findPayee_eq_true_iff env _ _).2 h)
      have hff : IsTransactionValid.findPayee env
          (destinationAfter env e.scriptPubKey) txNew.vout = false := by
        simpa using hf
      simp only [hff, Bool.not_false, if_true, List.forall_mem_cons]
      constructor
      · intro h
        cases hx : env.ExtractDestination e.scriptPubKey <;> simp [hx] at h
      · intro h
        exact absurd h.1 hnex

theorem checkPayees_resolvable (env : Collaborators) (txNew : CTransaction)
    (expected : List CTxOut)
    (hres : ∀ e ∈ expected, (env.ExtractDestination e.scriptPubKey).isSome = true) :
    IsTransactionValid.checkPayees env txNew expected = some true
      ∨ IsTransactionValid.checkPayees env txNew expected = some false := by
  induction expected with
  | nil => simp [IsTransactionValid.checkPayees]
  | cons e rest ih =>
    unfold IsTransactionValid.checkPayees
    have he := hres e (List.mem_cons_self _ _)
    have hrest := ih (fun x hx => hres x (List.mem_cons_of_mem _ hx))
    cases hf : IsTransactionValid.findPayee env
        (destinationAfter env e.scriptPubKey) txNew.vout
    · cases hx : env.ExtractDestination e.scriptPubKey
      · simp [hx] at he
      · simp [hf]
    · simpa [hf] using hrest

theorem checkPayees_congr (env : Collaborators) (tx1 tx2 : CTransaction)
    (h : ∀ d, IsTransactionValid.findPayee env d tx1.vout
            = IsTransactionValid.findPayee env d tx2.vout)
    (expected : List CTxOut) :
    IsTransactionValid.checkPayees env tx1 expected
      = IsTransactionValid.checkPayees env tx2 expected := by
  induction expected with
  | nil => simp [IsTransactionValid.checkPayees]
  | cons e rest ih =>
    unfold IsTransactionValid.checkPayees
    simp only [h, ih]

/-- C5. At every height (in particular at or above the activation threshold) at which
`GetBlockTxOuts` returns false, `IsTransactionValid` returns true for every transaction. -/
theorem IsTransactionValid_no_schedule (env : Collaborators) (txNew : CTransaction)
    (nBlockHeight : Int) (expectedReward : CAmount)
    (hfail : (GetBlockTxOuts env nBlockHeight expectedReward []).1 = false) :
    IsTransactionValid env txNew nBlockHeight expectedReward = some true := by
  unfold IsTransactionValid
  split
  · rfl
  · simp [hfail]

/-- C5 (witness). Mainnet height 300, no payee, a transaction without outputs. -/
theorem IsTransactionValid_no_schedule_witness :
    (CMainParams.consensus.DIP0003Height ≤ 300
      ∧ (GetBlockTxOuts (exEnv CMainParams 1000 none false false false false 0)
          300 1000 []).1 = false)
      ∧ IsTransactionValid (exEnv CMainParams 1000 none false false false false 0)
          { vout := [] } 300 1000 = some true :=
  ⟨by decide,
   IsTransactionValid_no_schedule (exEnv CMainParams 1000 none false false false false 0)
    { vout := [] } 300 1000 (by decide)⟩

/-- C6. At every height at or above the threshold the code tests (`DIP0003Height`) at which
`GetBlockTxOuts` succeeds and every expected output has a resolvable destination,
`IsTransactionValid` returns true if and only if for every expected output some output of the
transaction has the same destination, and returns false if an expected destination is
missing. -/
theorem IsTransactionValid_iff_all_payees_present (env : Collaborators)
    (txNew : CTransaction) (nBlockHeight : Int) (expectedReward : CAmount)
    (hh : env.Params.consensus.DIP0003Height ≤ nBlockHeight)
    (hok : (GetBlockTxOuts env nBlockHeight expectedReward []).1 = true)
    (hres : ∀ e ∈ (GetBlockTxOuts env nBlockHeight expectedReward []).2,
        (env.ExtractDestination e.scriptPubKey).isSome = true) :
    (IsTransactionValid env txNew nBlockHeight expectedReward = some true
        ↔ ∀ e ∈ (GetBlockTxOuts env nBlockHeight expectedReward []).2,
            ∃ o ∈ txNew.vout,
              destinationAfter env o.scriptPubKey = destinationAfter env e.scriptPubKey)
      ∧ ((¬ ∀ e ∈ (GetBlockTxOuts env nBlockHeight expectedReward []).2,
            ∃ o ∈ txNew.vout,
              destinationAfter env o.scriptPubKey = destinationAfter env e.scriptPubKey) →
          IsTransactionValid env txNew nBlockHeight expectedReward = some false) := by
  have hval : IsTransactionValid env txNew nBlockHeight expectedReward
      = IsTransactionValid.checkPayees env txNew
          (GetBlockTxOuts env nBlockHeight expectedReward []).2 := by
    unfold IsTransactionValid
    rw [if_neg (not_lt.mpr hh)]
    simp [hok]
  rw [hval]
  refine ⟨checkPayees_eq_true_iff env txNew _, ?_⟩
  intro hmiss
  rcases checkPayees_resolvable env txNew _ hres with h | h
  · exact absurd ((checkPayees_eq_true_iff env txNew _).1 h) hmiss
  · exact h

/-- C6 (witness). Mainnet height 201, reward 1000 split 750/250; the transaction pays the
operator script and a second encoding of the owner destination. -/
theorem IsTransactionValid_iff_all_payees_present_witness :
    IsTransactionValid
        (exEnv CMainParams 1000 (some (exMN 2500 exOperatorScript)) false false false false 0)
        { vout := [{ nValue := 1, scriptPubKey := exOperatorScript },
                   { nValue := 2, scriptPubKey := exOwnerScriptAlt }] } 201 1000 = some true :=
  ((IsTransactionValid_iff_all_payees_present
      (exEnv CMainParams 1000 (some (exMN 2500 exOperatorScript)) false false false false 0)
      { vout := [{ nValue := 1, scriptPubKey := exOperatorScript },
                 { nValue := 2, scriptPubKey := exOwnerScriptAlt }] } 201 1000
      (by decide) (by decide) (by decide)).1).2 (by decide)

/-- C7. Two transactions whose outputs resolve to the same set of destinations get the same
result from `IsTransactionValid` at the same height and reward (the same boolean, or the same
abort): the result does not depend on the order of the outputs, on their amounts, or on which
script encodes a destination. The destination of an output is the value
`ExtractDestination` leaves in a default-constructed `CTxDestination`. -/
theorem IsTransactionValid_same_destinations (env : Collaborators) (tx1 tx2 : CTransaction)
    (nBlockHeight : Int) (expectedReward : CAmount)
    (hset : ∀ d : CTxDestination,
        d ∈ tx1.vout.map (fun o => destinationAfter env o.scriptPubKey)
          ↔ d ∈ tx2.vout.map (fun o => destinationAfter env o.scriptPubKey)) :
    IsTransactionValid env tx1 nBlockHeight expectedReward
      = IsTransactionValid env tx2 nBlockHeight expectedReward := by
  have hfind : ∀ d, IsTransactionValid.findPayee env d tx1.vout
      = IsTransactionValid.findPayee env d tx2.vout := by
    intro d
    have h1 := findPayee_eq_true_iff env d tx1.vout
    have h2 := findPayee_eq_true_iff env d tx2.vout
    have h3 := hset d
    simp only [List.mem_map] at h3
    have h4 : IsTransactionValid.findPayee env d tx1.vout = true
        ↔ IsTransactionValid.findPayee env d tx2.vout = true := by
      rw [h1, h2]; exact h3
    exact Bool.eq_iff_iff.mpr h4
  unfold IsTransactionValid
  simp only [checkPayees_congr env tx1 tx2 hfind]

/-- C7 (witness). The second transaction permutes the outputs of the first, changes both
amounts and replaces the owner script by another encoding of the same destination. -/
theorem IsTransactionValid_same_destinations_witness :
    IsTransactionValid
        (exEnv CMainParams 1000 (some (exMN 2500 exOperatorScript)) false false false false 0)
        { vout := [{ nValue := 750, scriptPubKey := exOwnerScript },
                   { nValue := 250, scriptPubKey := exOperatorScript }] } 201 1000
      = IsTransactionValid
        (exEnv CMainParams 1000 (some (exMN 2500 exOperatorScript)) false false false false 0)
        { vout := [{ nValue := 1, scriptPubKey := exOperatorScript },
                   { nValue := 2, scriptPubKey := exOwnerScriptAlt }] } 201 1000 :=
  IsTransactionValid_same_destinations
    (exEnv CMainParams 1000 (some (exMN 2500 exOperatorScript)) false false false false 0)
    { vout := [{ nValue := 750, scriptPubKey := exOwnerScript },
               { nValue := 250, scriptPubKey := exOperatorScript }] }
    { vout := [{ nValue := 1, scriptPubKey := exOperatorScript },
               { nValue := 2, scriptPubKey := exOwnerScriptAlt }] } 201 1000
    (by
      intro d
      have e1 : List.map (fun o : CTxOut => destinationAfter
          (exEnv CMainParams 1000 (some (exMN 2500 exOperatorScript))
            false false false false 0) o.scriptPubKey)
          [{ nValue := 750, scriptPubKey := exOwnerScript },
           { nValue := 250, scriptPubKey := exOperatorScript }]
          = [CTxDestination.CKeyID 1, CTxDestination.CKeyID 2] := by decide
      have e2 : List.map (fun o : CTxOut => destinationAfter
          (exEnv CMainParams 1000 (some (exMN 2500 exOperatorScript))
            false false false false 0) o.scriptPubKey)
          [{ nValue := 1, scriptPubKey := exOperatorScript },
           { nValue := 2, scriptPubKey := exOwnerScriptAlt }]
          = [CTxDestination.CKeyID 2, CTxDestination.CKeyID 1] := by decide
      rw [e1, e2]
      simp only [List.mem_cons, List.mem_singleton, List.not_mem_nil, or_false]
      exact Or.comm)

/-! ## Block value -/

theorem isGenerationBlock_creationPoints (nHeight : Int) :
    isGenerationBlock creationPoints nHeight = false := rfl

/-- The part of `IsBlockValueValid` that follows the override test, for a block that holds
the transaction at index `isProofOfStake`. -/
theorem IsBlockValueValid_unfold (table : GeneratedFunds) (env : Collaborators) (block : CBlock)
    (nBlockHeight : Int) (expectedReward actualReward : CAmount) (strErrorRet : String)
    (hgen : isGenerationBlock table nBlockHeight = false)
    (hblock : block.IsProofOfStake.toNat < block.vtx.length) :
    IsBlockValueValid table env block nBlockHeight expectedReward actualReward strErrorRet =
      if !env.IsValidBlockHeight nBlockHeight then
        some (decide (actualReward ≤ expectedReward),
          if !decide (actualReward ≤ expectedReward) then
            errNotSuperblockHeight nBlockHeight actualReward
              (wrap64 (expectedReward + env.GetPaymentsLimit nBlockHeight))
          else "")
      else if !decide (actualReward ≤ wrap64 (expectedReward + env.GetPaymentsLimit nBlockHeight))
      then
        some (false, errSuperblockMaxValue nBlockHeight actualReward
          (wrap64 (expectedReward + env.GetPaymentsLimit nBlockHeight)))
      else if !env.IsSporkActive SporkId.SPORK_9_SUPERBLOCKS_ENABLED then
        some (decide (actualReward ≤ expectedReward),
          if !decide (actualReward ≤ expectedReward) then
            errSuperblocksDisabled nBlockHeight actualReward expectedReward
          else "")
      else if !env.IsSuperblockTriggered nBlockHeight then
        some (decide (actualReward ≤ expectedReward),
          if !decide (actualReward ≤ expectedReward) then
            errNoTriggeredSuperblock nBlockHeight actualReward expectedReward
          else "")
      else
        match block.vtx[1]? with
        | none => none
        | some tx1 =>
          if !env.IsValid tx1 nBlockHeight actualReward expectedReward then
            match block.vtx[10]? with
            | none => none
            | some _logged => some (false, errInvalidSuperblock nBlockHeight)
          else some (true, "") := by
  have hpos : 0 < block.vtx.length := by omega
  have h0 : (block.vtx[0]?).isNone = false := by
    rw [List.getElem?_eq_getElem hpos]; rfl
  unfold IsBlockValueValid
  simp only [hgen, Bool.false_eq_true, if_false, List.getElem?_eq_getElem hblock, h0,
    Bool.and_false, stringAssign]

/-- C8. With the generation table as shipped, for every height, every state of the superblock
flag and trigger and every non-negative payments limit, `IsBlockValueValid` returns false
whenever `actualReward > expectedReward + CSuperblock::GetPaymentsLimit(height)`; the rewards
are 64-bit values and the block holds its payment transaction. -/
theorem IsBlockValueValid_rejects_above_ceiling (env : Collaborators) (block : CBlock)
    (nBlockHeight : Int) (expectedReward actualReward : Int) (strErrorRet : String)
    (hblock : block.IsProofOfStake.toNat < block.vtx.length)
    (hexp : InInt64 expectedReward) (hact : InInt64 actualReward)
    (hlim : (0 : Int) ≤ env.GetPaymentsLimit nBlockHeight)
    (hgt : actualReward > expectedReward + (env.GetPaymentsLimit nBlockHeight : Int)) :
    ∃ reason, IsBlockValueValid creationPoints env block nBlockHeight expectedReward
        actualReward strErrorRet = some (false, reason) := by
  rw [IsBlockValueValid_unfold creationPoints env block nBlockHeight expectedReward actualReward
    strErrorRet (isGenerationBlock_creationPoints nBlockHeight) hblock]
  have hw : wrap64 (expectedReward + env.GetPaymentsLimit nBlockHeight)
      = expectedReward + env.GetPaymentsLimit nBlockHeight := by
    apply wrap64_of_inRange
    unfold InInt64 INT64_MIN INT64_MAX at *
    constructor <;> omega
  have hmet : decide (actualReward ≤ expectedReward) = false := by
    apply decide_eq_false; omega
  have hmax : decide (actualReward ≤ expectedReward + env.GetPaymentsLimit nBlockHeight)
      = false := by
    apply decide_eq_false; omega
  rw [hw, hmet, hmax]
  cases hv : env.IsValidBlockHeight nBlockHeight
  · simp only [Bool.not_false, Bool.not_true, if_true]
    exact ⟨_, rfl⟩
  · simp only [Bool.not_false, Bool.not_true, if_true, Bool.false_eq_true, if_false]
    exact ⟨_, rfl⟩

/-- C8 (witness). A valid superblock height with the flag active and a superblock triggered,
limit 500, expected reward 1000 and actual reward 1501. -/
theorem IsBlockValueValid_rejects_above_ceiling_witness :
    ∃ reason, IsBlockValueValid creationPoints
        (exEnv CTestNetParams 0 none true true true true 500)
        { vtx := [{ vout := [] }, { vout := [] }], IsProofOfStake := true }
        120 1000 1501 "" = some (false, reason) :=
  IsBlockValueValid_rejects_above_ceiling
    (exEnv CTestNetParams 0 none true true true true 500)
    { vtx := [{ vout := [] }, { vout := [] }], IsProofOfStake := true }
    120 1000 1501 "" (by decide) (by decide) (by decide) (by decide) (by decide)

/-- C9. For every height that is not an override height and every non-negative payments
limit, if the height is not a valid superblock height, or the superblock flag is inactive, or
no superblock is triggered at the height, `IsBlockValueValid` returns exactly
`actualReward <= expectedReward`; the expected reward is a 64-bit value, its sum with the
limit does not overflow and the block holds its payment transaction. -/
theorem IsBlockValueValid_regular_block (table : GeneratedFunds) (env : Collaborators)
    (block : CBlock) (nBlockHeight : Int) (expectedReward actualReward : Int)
    (strErrorRet : String)
    (hgen : isGenerationBlock table nBlockHeight = false)
    (hblock : block.IsProofOfStake.toNat < block.vtx.length)
    (hexp : InInt64 expectedReward)
    (hlim : (0 : Int) ≤ env.GetPaymentsLimit nBlockHeight)
    (hov : expectedReward + (env.GetPaymentsLimit nBlockHeight : Int) ≤ INT64_MAX)
    (hreg : env.IsValidBlockHeight nBlockHeight = false
      ∨ env.IsSporkActive SporkId.SPORK_9_SUPERBLOCKS_ENABLED = false
      ∨ env.IsSuperblockTriggered nBlockHeight = false) :
    ∃ reason, IsBlockValueValid table env block nBlockHeight expectedReward actualReward
        strErrorRet = some (decide (actualReward ≤ expectedReward), reason) := by
  rw [IsBlockValueValid_unfold table env block nBlockHeight expectedReward actualReward
    strErrorRet hgen hblock]
  have hw : wrap64 (expectedReward + env.GetPaymentsLimit nBlockHeight)
      = expectedReward + env.GetPaymentsLimit nBlockHeight := by
    apply wrap64_of_inRange
    unfold InInt64 INT64_MIN INT64_MAX at *
    constructor <;> omega
  rw [hw]
  cases hv : env.IsValidBlockHeight nBlockHeight
  · simp only [Bool.not_false, if_true]
    exact ⟨_, rfl⟩
  · simp only [Bool.not_true, Bool.false_eq_true, if_false]
    by_cases hmax : actualReward ≤ expectedReward + env.GetPaymentsLimit nBlockHeight
    · rw [decide_eq_true hmax]
      simp only [Bool.not_true, Bool.false_eq_true, if_false]
      cases hs : env.IsSporkActive SporkId.SPORK_9_SUPERBLOCKS_ENABLED
      · simp only [Bool.not_false, if_true]
        exact ⟨_, rfl⟩
      · simp only [Bool.not_true, Bool.false_eq_true, if_false]
        cases ht : env.IsSuperblockTriggered nBlockHeight
        · simp only [Bool.not_false, if_true]
          exact ⟨_, rfl⟩
        · rcases hreg with h | h | h
          · rw [hv] at h; exact absurd h (by decide)
          · rw [hs] at h; exact absurd h (by decide)
          · rw [ht] at h; exact absurd h (by decide)
    · have hmet : decide (actualReward ≤ expectedReward) = false := by
        apply decide_eq_false; omega
      rw [decide_eq_false hmax, hmet]
      simp only [Bool.not_false, if_true]
      exact ⟨_, rfl⟩

/-- C9 (witness). A valid superblock height with the flag active but no superblock
triggered, limit 500, expected reward 1000 and actual reward 1200: the block is rejected
although the ceiling 1500 is respected. -/
theorem IsBlockValueValid_regular_block_witness :
    ∃ reason, IsBlockValueValid creationPoints
        (exEnv CTestNetParams 0 none true true false true 500)
        { vtx := [{ vout := [] }, { vout := [] }], IsProofOfStake := true }
        120 1000 1200 "" = some (decide ((1200 : Int) ≤ 1000), reason) :=
  IsBlockValueValid_regular_block creationPoints
    (exEnv CTestNetParams 0 none true true false true 500)
    { vtx := [{ vout := [] }, { vout := [] }], IsProofOfStake := true }
    120 1000 1200 "" rfl (by decide) (by decide) (by decide) (by decide)
    (Or.inr (Or.inr rfl))

/-- C10 (the code at the failing input). A proof-of-stake block that holds exactly its
coinbase and coinstake, at a valid superblock height that is not an override height, with the
ceiling respected, the flag active and a superblock triggered. When the governance manager
reports the payment transaction valid the function returns true with an empty reason; when it
reports it invalid the function reads `block.vtx[10]`, which the block does not have, and
returns nothing. The reason "invalid superblock detected at height 120" is only reached for a
block of at least eleven transactions. -/
theorem IsBlockValueValid_invalid_superblock_out_of_range :
    IsBlockValueValid creationPoints (exEnv CTestNetParams 0 none true true true true 500)
        { vtx := [{ vout := [] }, { vout := [] }], IsProofOfStake := true }
        120 1000 1000 "" = some (true, "")
      ∧ IsBlockValueValid creationPoints (exEnv CTestNetParams 0 none true true true false 500)
        { vtx := [{ vout := [] }, { vout := [] }], IsProofOfStake := true }
        120 1000 1000 "" = none
      ∧ IsBlockValueValid creationPoints (exEnv CTestNetParams 0 none true true true false 500)
        { vtx := List.replicate 11 { vout := [] }, IsProofOfStake := true }
        120 1000 1000 "" = some (false, "invalid superblock detected at height 120") := by
  decide

/-! ## Generation override table -/

theorem isGenerationBlock_iff_mem (table : GeneratedFunds) (nHeight : Int) :
    isGenerationBlock table nHeight = true ↔ nHeight ∈ table.map Prod.fst := by
  induction table with
  | nil => simp [isGenerationBlock]
  | cons p rest ih =>
    unfold isGenerationBlock
    by_cases h : p.1 = nHeight
    · simp [h]
    · have h2 : ¬ nHeight = p.1 := fun e => h e.symm
      simp [h, h2, ih]

theorem getGenerationAmount_of_not_mem (table : GeneratedFunds) (nHeight : Int)
    (h : nHeight ∉ table.map Prod.fst) : getGenerationAmount table nHeight = 0 := by
  induction table with
  | nil => rfl
  | cons p rest ih =>
    unfold getGenerationAmount
    simp only [List.map_cons, List.mem_cons, not_or] at h
    have h1 : ¬ p.1 = nHeight := fun e => h.1 e.symm
    rw [if_neg h1]
    exact ih h.2

theorem getGenerationAmount_of_mem (table : GeneratedFunds) (nHeight : Int) (a : CAmount)
    (hnodup : (table.map Prod.fst).Nodup) (hmem : (nHeight, a) ∈ table) :
    getGenerationAmount table nHeight = a := by
  induction table with
  | nil => simp at hmem
  | cons p rest ih =>
    unfold getGenerationAmount
    simp only [List.map_cons, List.nodup_cons] at hnodup
    rcases List.mem_cons.1 hmem with h | h
    · subst h
      simp
    · have hk : nHeight ∈ rest.map Prod.fst := List.mem_map.2 ⟨(nHeight, a), h, rfl⟩
      have h1 : ¬ p.1 = nHeight := fun e => hnodup.1 (e ▸ hk)
      rw [if_neg h1]
      exact ih hnodup.2 h

/-- C18. For any generation table, `isGenerationBlock(h)` is true exactly when `h` is a key
of the table; `getGenerationAmount(h)` is the amount stored for `h` (keys are unique, as in a
`std::map`) and 0 when `h` is absent. For the table shipped (empty), `isGenerationBlock(h)`
is false and `getGenerationAmount(h)` is 0 for every height, so the override branch is never
taken. -/
theorem generation_table_lookup (table : GeneratedFunds) (nHeight : Int) :
    (isGenerationBlock table nHeight = true ↔ nHeight ∈ table.map Prod.fst)
      ∧ (∀ a : CAmount, (table.map Prod.fst).Nodup → (nHeight, a) ∈ table →
          getGenerationAmount table nHeight = a)
      ∧ (nHeight ∉ table.map Prod.fst → getGenerationAmount table nHeight = 0)
      ∧ isGenerationBlock creationPoints nHeight = false
      ∧ getGenerationAmount creationPoints nHeight = 0 :=
  ⟨isGenerationBlock_iff_mem table nHeight,
   fun a hn hm => getGenerationAmount_of_mem table nHeight a hn hm,
   getGenerationAmount_of_not_mem table nHeight, rfl, rfl⟩

/-- C18 (witness). The table with the single entry 500 at height 100: the amount at the
key 100 is 500 and the amount at the absent height 101 is 0. -/
theorem generation_table_lookup_witness :
    getGenerationAmount exTable 100 = 500 ∧ getGenerationAmount exTable 101 = 0 :=
  ⟨(generation_table_lookup exTable 100).2.1 500 (by decide) (by decide),
   (generation_table_lookup exTable 101).2.2.1 (by decide)⟩

/-! ## Generation recipient -/

theorem stringFind_isSome_iff (needle hay : List Char) (pos : Nat) :
    (stringFind needle hay pos).isSome = true ↔ needle <:+: hay := by
  induction hay generalizing pos with
  | nil =>
    unfold stringFind
    by_cases h : needle.isPrefixOf [] = true
    · have h2 : needle = [] := by simpa using h
      simp [h2]
    · have h2 : ¬ needle = [] := by simpa using h
      simp [h2]
  | cons c rest ih =>
    unfold stringFind
    rw [List.infix_cons_iff]
    by_cases h : needle.isPrefixOf (c :: rest) = true
    · have h2 : needle <+: c :: rest := List.isPrefixOf_iff_prefix.1 h
      simp [h, h2]
    · have h2 : ¬ needle <+: c :: rest := fun e => h (List.isPrefixOf_iff_prefix.2 e)
      simp [h, h2, ih]

/-- C19. For every string `s`, `isGenerationRecipient(s)` is true if and only if the
identifier "5b1c713017e9e6e019264b0e6e3e8c3a5e03a3db" occurs in `s` as a contiguous substring;
the identifier has exactly 40 characters, all of them lower-case hexadecimal digits. -/
theorem isGenerationRecipient_iff_substring (s : String) :
    (isGenerationRecipient s = true ↔
        ∃ pre post : String, s = pre ++ "5b1c713017e9e6e019264b0e6e3e8c3a5e03a3db" ++ post)
      ∧ ("5b1c713017e9e6e019264b0e6e3e8c3a5e03a3db" : String).length = 40
      ∧ ∀ c ∈ ("5b1c713017e9e6e019264b0e6e3e8c3a5e03a3db" : String).data,
          c ∈ ("0123456789abcdef" : String).data := by
  refine ⟨?_, by decide, by decide⟩
  have hfind := stringFind_isSome_iff isGenerationRecipient.testRecipient.data s.data 0
  have hval : isGenerationRecipient s = true ↔
      isGenerationRecipient.testRecipient.data <:+: s.data := by
    rw [← hfind]
    unfold isGenerationRecipient
    split <;> simp_all
  rw [hval]
  constructor
  · rintro ⟨a, b, hab⟩
    refine ⟨String.mk a, String.mk b, ?_⟩
    apply String.ext
    rw [String.data_append, String.data_append]
    exact hab.symm
  · rintro ⟨pre, post, hs⟩
    refine ⟨pre.data, post.data, ?_⟩
    rw [hs, String.data_append, String.data_append]
    rfl

/-! ## Block value: reasons and the override branch -/

/-- C12. With the generation table as a parameter: for every height present in the table,
`IsBlockValueValid` returns true with an empty reason for every block, `expectedReward`,
`actualReward`, content of `strErrorRet` on entry and every answer of the collaborators
(reward bound, superblock ceiling, feature flag and governance verdict are not consulted). -/
theorem IsBlockValueValid_override_height (table : GeneratedFunds) (env : Collaborators)
    (block : CBlock) (nBlockHeight : Int) (expectedReward actualReward : CAmount)
    (strErrorRet : String) (hmem : nBlockHeight ∈ table.map Prod.fst) :
    IsBlockValueValid table env block nBlockHeight expectedReward actualReward strErrorRet
      = some (true, "") := by
  have hgen := (isGenerationBlock_iff_mem table nBlockHeight).2 hmem
  unfold IsBlockValueValid
  simp only [hgen, if_true, stringAssign]

/-- C12 (witness). Height 100 of the example table, an empty block, an actual reward far
above the expected one and an invalid superblock verdict. -/
theorem IsBlockValueValid_override_height_witness :
    IsBlockValueValid exTable (exEnv CTestNetParams 0 none true true true false 0)
        { vtx := [], IsProofOfStake := false } 100 1000 999999 "old reason"
      = some (true, "") :=
  IsBlockValueValid_override_height exTable (exEnv CTestNetParams 0 none true true true false 0)
    { vtx := [], IsProofOfStake := false } 100 1000 999999 "old reason" (by decide)

/-! ## Block payee -/

theorem countRecipients_eq (table : GeneratedFunds) (nBlockHeight : Int) (outs : List CTxOut)
    (acc : Int) (h0 : 0 ≤ acc) (hlen : acc + (outs.length : Int) ≤ 2147483647) :
    IsBlockPayeeValid.countRecipients table nBlockHeight outs acc
      = acc + ((outs.countP (fun l => isGenerationRecipient (HexStr l.scriptPubKey)
          && decide (l.nValue = getGenerationAmount table nBlockHeight)) : Nat) : Int) := by
  induction outs generalizing acc with
  | nil => simp [IsBlockPayeeValid.countRecipients]
  | cons l rest ih =>
    unfold IsBlockPayeeValid.countRecipients
    simp only [List.length_cons, Nat.cast_add, Nat.cast_one] at hlen
    have hw : wrap32 (acc + 1) = acc + 1 := by unfold wrap32; omega
    rw [List.countP_cons]
    by_cases h1 : isGenerationRecipient (HexStr l.scriptPubKey) = true
    · by_cases h2 : getGenerationAmount table nBlockHeight = l.nValue
      · have hp : (isGenerationRecipient (HexStr l.scriptPubKey)
            && decide (l.nValue = getGenerationAmount table nBlockHeight)) = true := by
          simp [h1, h2]
        rw [if_pos h1, if_pos h2, hw, if_pos hp, ih (acc + 1) (by omega) (by omega)]
        push_cast
        omega
      · have h3 : ¬ l.nValue = getGenerationAmount table nBlockHeight := fun e => h2 e.symm
        have hp : ¬ (isGenerationRecipient (HexStr l.scriptPubKey)
            && decide (l.nValue = getGenerationAmount table nBlockHeight)) = true := by
          simp [h1, h3]
        rw [if_pos h1, if_neg h2, if_neg hp, ih acc h0 (by omega)]
        simp
    · have hp : ¬ (isGenerationRecipient (HexStr l.scriptPubKey)
          && decide (l.nValue = getGenerationAmount table nBlockHeight)) = true := by
        simp [h1]
      rw [if_neg h1, if_neg hp, ih acc h0 (by omega)]
      simp

theorem optionBool_match_id (x : Option Bool) :
    (match x with
      | none => none
      | some true => some true
      | some false => some false) = x := by
  cases x with
  | none => rfl
  | some b => cases b <;> rfl

/-- The part of `IsBlockPayeeValid` after the override and lite-mode tests. -/
theorem IsBlockPayeeValid_unfold (table : GeneratedFunds) (env : Collaborators)
    (txNew : CTransaction) (nBlockHeight : Int) (expectedReward actualReward : CAmount)
    (hgen : isGenerationBlock table nBlockHeight = false) :
    IsBlockPayeeValid table env false txNew nBlockHeight expectedReward actualReward =
      if env.IsSporkActive SporkId.SPORK_9_SUPERBLOCKS_ENABLED then
        if env.IsSuperblockTriggered nBlockHeight then
          if env.IsValid txNew nBlockHeight actualReward expectedReward then
            IsTransactionValid env txNew nBlockHeight expectedReward
          else some false
        else IsTransactionValid env txNew nBlockHeight expectedReward
      else IsTransactionValid env txNew nBlockHeight expectedReward := by
  unfold IsBlockPayeeValid
  simp only [hgen, Bool.false_eq_true, if_false, optionBool_match_id]

/-- C13. With the generation table as a parameter: at every override height, with `A` the
override amount, `IsBlockPayeeValid` returns true if and only if exactly one output of the
transaction both satisfies `isGenerationRecipient` on its hex-encoded script and has value
exactly `A`, for every lite-mode setting, expected and actual reward and every answer of the
collaborators (the number of outputs fits the `int` counter). -/
theorem IsBlockPayeeValid_override_height (table : GeneratedFunds) (env : Collaborators)
    (fLiteMode : Bool) (txNew : CTransaction) (nBlockHeight : Int)
    (expectedReward actualReward : CAmount)
    (hmem : nBlockHeight ∈ table.map Prod.fst)
    (hlen : (txNew.vout.length : Int) ≤ INT32_MAX) :
    IsBlockPayeeValid table env fLiteMode txNew nBlockHeight expectedReward actualReward
      = some (decide (txNew.vout.countP (fun l =>
          isGenerationRecipient (HexStr l.scriptPubKey)
            && decide (l.nValue = getGenerationAmount table nBlockHeight)) = 1)) := by
  have hgen := (isGenerationBlock_iff_mem table nBlockHeight).2 hmem
  unfold INT32_MAX at hlen
  unfold IsBlockPayeeValid
  simp only [hgen, if_true]
  rw [countRecipients_eq table nBlockHeight txNew.vout 0 (le_refl 0) (by omega)]
  congr 1
  apply decide_eq_decide.2
  constructor <;> intro h <;> omega

/-- C13 (witness). Height 100 of the example table (amount 500), lite mode on, a transaction
with one output of 500 to the recipient and one unrelated output. -/
theorem IsBlockPayeeValid_override_height_witness :
    IsBlockPayeeValid exTable (exEnv CMainParams 1000 none true true true false 0) true
        { vout := [{ nValue := 500, scriptPubKey := exGenerationScript },
                   { nValue := 7, scriptPubKey := exOwnerScript }] } 100 1000 1000
      = some (decide (List.countP (fun l : CTxOut =>
          isGenerationRecipient (HexStr l.scriptPubKey)
            && decide (l.nValue = getGenerationAmount exTable 100))
          [{ nValue := 500, scriptPubKey := exGenerationScript },
           { nValue := 7, scriptPubKey := exOwnerScript }] = 1)) :=
  IsBlockPayeeValid_override_height exTable (exEnv CMainParams 1000 none true true true false 0)
    true
    { vout := [{ nValue := 500, scriptPubKey := exGenerationScript },
               { nValue := 7, scriptPubKey := exOwnerScript }] } 100 1000 1000
    (by decide) (by decide)

/-- C14. At every height that is not an override height, in lite mode `IsBlockPayeeValid`
returns true for every transaction, expected and actual reward, whatever the feature flag, the
superblock trigger, the governance verdict and the masternode schedule are. -/
theorem IsBlockPayeeValid_liteMode_accepts (table : GeneratedFunds) (env : Collaborators)
    (txNew : CTransaction) (nBlockHeight : Int) (expectedReward actualReward : CAmount)
    (hgen : isGenerationBlock table nBlockHeight = false) :
    IsBlockPayeeValid table env true txNew nBlockHeight expectedReward actualReward
      = some true := by
  unfold IsBlockPayeeValid
  simp only [hgen, Bool.false_eq_true, if_false, if_true]

/-- C14 (witness). Mainnet height 300 with the shipped table, a triggered superblock the
governance manager reports invalid and a payee the empty transaction does not pay. -/
theorem IsBlockPayeeValid_liteMode_accepts_witness :
    IsBlockPayeeValid creationPoints
        (exEnv CMainParams 1000 (some (exMN 0 [])) true true true false 0) true
        { vout := [] } 300 1000 1000 = some true :=
  IsBlockPayeeValid_liteMode_accepts creationPoints
    (exEnv CMainParams 1000 (some (exMN 0 [])) true true true false 0)
    { vout := [] } 300 1000 1000 rfl

/-- C15. At every height that is not an override height, outside lite mode, if the superblock
flag is active, a superblock is triggered at the height and `CSuperblockManager::IsValid`
reports the transaction invalid, `IsBlockPayeeValid` returns false, whatever
`IsTransactionValid` answers for the same transaction. -/
theorem IsBlockPayeeValid_invalid_superblock (table : GeneratedFunds) (env : Collaborators)
    (txNew : CTransaction) (nBlockHeight : Int) (expectedReward actualReward : CAmount)
    (hgen : isGenerationBlock table nBlockHeight = false)
    (hspork : env.IsSporkActive SporkId.SPORK_9_SUPERBLOCKS_ENABLED = true)
    (htrig : env.IsSuperblockTriggered nBlockHeight = true)
    (hinvalid : env.IsValid txNew nBlockHeight actualReward expectedReward = false) :
    IsBlockPayeeValid table env false txNew nBlockHeight expectedReward actualReward
      = some false := by
  rw [IsBlockPayeeValid_unfold table env txNew nBlockHeight expectedReward actualReward hgen]
  simp only [hspork, htrig, hinvalid, if_true, Bool.false_eq_true, if_false]

/-- C15 (witness). Mainnet height 300: the transaction pays the scheduled masternode, so
`IsTransactionValid` accepts it, and `IsBlockPayeeValid` still returns false. -/
theorem IsBlockPayeeValid_invalid_superblock_witness :
    IsTransactionValid (exEnv CMainParams 1000 (some (exMN 0 [])) true true true false 0)
        { vout := [{ nValue := 1000, scriptPubKey := exOwnerScript }] } 300 1000 = some true
      ∧ IsBlockPayeeValid creationPoints
          (exEnv CMainParams 1000 (some (exMN 0 [])) true true true false 0) false
          { vout := [{ nValue := 1000, scriptPubKey := exOwnerScript }] } 300 1000 1000
          = some false :=
  ⟨by decide,
   IsBlockPayeeValid_invalid_superblock creationPoints
    (exEnv CMainParams 1000 (some (exMN 0 [])) true true true false 0)
    { vout := [{ nValue := 1000, scriptPubKey := exOwnerScript }] } 300 1000 1000
    rfl rfl rfl rfl⟩

/-- C16. At every height that is not an override height, outside lite mode, whenever the
superblock step does not reject (the flag is inactive, or no superblock is triggered, or the
governance manager reports the transaction valid), `IsBlockPayeeValid` returns exactly the
result of `IsTransactionValid(tx, height, expectedReward)`; with the flag inactive the result
is the same for every `actualReward`. -/
theorem IsBlockPayeeValid_eq_IsTransactionValid (table : GeneratedFunds)
    (env : Collaborators) (txNew : CTransaction) (nBlockHeight : Int)
    (expectedReward actualReward : CAmount)
    (hgen : isGenerationBlock table nBlockHeight = false)
    (hpass : env.IsSporkActive SporkId.SPORK_9_SUPERBLOCKS_ENABLED = false
      ∨ env.IsSuperblockTriggered nBlockHeight = false
      ∨ env.IsValid txNew nBlockHeight actualReward expectedReward = true) :
    IsBlockPayeeValid table env false txNew nBlockHeight expectedReward actualReward
        = IsTransactionValid env txNew nBlockHeight expectedReward
      ∧ (env.IsSporkActive SporkId.SPORK_9_SUPERBLOCKS_ENABLED = false →
          ∀ otherReward : CAmount,
            IsBlockPayeeValid table env false txNew nBlockHeight expectedReward otherReward
              = IsBlockPayeeValid table env false txNew nBlockHeight expectedReward
                  actualReward) := by
  constructor
  · rw [IsBlockPayeeValid_unfold table env txNew nBlockHeight expectedReward actualReward hgen]
    rcases hpass with h | h | h
    · simp only [h, Bool.false_eq_true, if_false]
    · simp only [h, Bool.false_eq_true, if_false, ite_self]
    · simp only [h, if_true, ite_self]
  · intro hs other
    rw [IsBlockPayeeValid_unfold table env txNew nBlockHeight expectedReward actualReward hgen,
      IsBlockPayeeValid_unfold table env txNew nBlockHeight expectedReward other hgen]
    simp only [hs, Bool.false_eq_true, if_false]

/-- C16 (witness). Mainnet height 300, superblocks disabled, a payee the empty transaction
does not pay: both functions reject. -/
theorem IsBlockPayeeValid_eq_IsTransactionValid_witness :
    IsBlockPayeeValid creationPoints
        (exEnv CMainParams 1000 (some (exMN 0 [])) true false true false 0) false
        { vout := [] } 300 1000 1000
      = IsTransactionValid (exEnv CMainParams 1000 (some (exMN 0 [])) true false true false 0)
        { vout := [] } 300 1000 :=
  (IsBlockPayeeValid_eq_IsTransactionValid creationPoints
    (exEnv CMainParams 1000 (some (exMN 0 [])) true false true false 0)
    { vout := [] } 300 1000 1000 rfl (Or.inl rfl)).1

/-- C17 (counterexample). Mainnet height 300 with the shipped table, superblocks disabled, a
payee the empty transaction does not pay: the run in lite mode returns true and the run
outside lite mode returns false. -/
theorem IsBlockPayeeValid_liteMode_counterexample :
    IsBlockPayeeValid creationPoints
        (exEnv CMainParams 1000 (some (exMN 0 [])) true false true false 0) true
        { vout := [] } 300 1000 1000 = some true
      ∧ IsBlockPayeeValid creationPoints
        (exEnv CMainParams 1000 (some (exMN 0 [])) true false true false 0) false
        { vout := [] } 300 1000 1000 = some false := by
  decide

/-- C17 (amended). Two runs of `IsBlockPayeeValid` on the same transaction, height, rewards
and collaborator answers that differ only in the lite-mode setting return the same result at
every override height; at a height that is not an override height the run in lite mode
returns true, so the two runs agree exactly when the run outside lite mode returns true. -/
theorem IsBlockPayeeValid_liteMode_dependence (table : GeneratedFunds) (env : Collaborators)
    (txNew : CTransaction) (nBlockHeight : Int) (expectedReward actualReward : CAmount) :
    (isGenerationBlock table nBlockHeight = true →
        IsBlockPayeeValid table env true txNew nBlockHeight expectedReward actualReward
          = IsBlockPayeeValid table env false txNew nBlockHeight expectedReward actualReward)
      ∧ (isGenerationBlock table nBlockHeight = false →
          IsBlockPayeeValid table env true txNew nBlockHeight expectedReward actualReward
            = some true
          ∧ (IsBlockPayeeValid table env true txNew nBlockHeight expectedReward actualReward
              = IsBlockPayeeValid table env false txNew nBlockHeight expectedReward
                  actualReward
            ↔ IsBlockPayeeValid table env false txNew nBlockHeight expectedReward
                actualReward = some true)) := by
  constructor
  · intro hgen
    unfold IsBlockPayeeValid
    simp only [hgen, if_true]
  · intro hgen
    have hlite := IsBlockPayeeValid_liteMode_accepts table env txNew nBlockHeight
      expectedReward actualReward hgen
    refine ⟨hlite, ?_⟩
    rw [hlite]
    exact ⟨fun h => h.symm, fun h => h.symm⟩

/-- C17 (witness). Height 100 of the example table (the two runs agree) and mainnet height
300 with the shipped table (the run in lite mode returns true). -/
theorem IsBlockPayeeValid_liteMode_dependence_witness :
    IsBlockPayeeValid exTable (exEnv CMainParams 1000 none true false true false 0) true
        { vout := [{ nValue := 500, scriptPubKey := exGenerationScript }] } 100 1000 1000
      = IsBlockPayeeValid exTable (exEnv CMainParams 1000 none true false true false 0) false
        { vout := [{ nValue := 500, scriptPubKey := exGenerationScript }] } 100 1000 1000
    ∧ IsBlockPayeeValid creationPoints
        (exEnv CMainParams 1000 (some (exMN 0 [])) true false true false 0) true
        { vout := [] } 300 1000 1000 = some true :=
  ⟨(IsBlockPayeeValid_liteMode_dependence exTable
      (exEnv CMainParams 1000 none true false true false 0)
      { vout := [{ nValue := 500, scriptPubKey := exGenerationScript }] } 100 1000 1000).1
      (by decide),
   ((IsBlockPayeeValid_liteMode_dependence creationPoints
      (exEnv CMainParams 1000 (some (exMN 0 [])) true false true false 0)
      { vout := [] } 300 1000 1000).2 rfl).1⟩

/-! ## Block value: the reason string -/

theorem data_reverse_take_append (a suf : String) (n : Nat) (hn : n ≤ suf.data.length) :
    (a ++ suf).data.reverse.take n = suf.data.reverse.take n := by
  rw [String.data_append, List.reverse_append]
  exact List.take_append_of_le_length (by simpa using hn)

theorem ne_empty_of_head (s : String) (c : Char) (h : s.data.head? = some c) : s ≠ "" := by
  intro e
  rw [e] at h
  have hnone : ("" : String).data.head? = none := rfl
  rw [hnone] at h
  exact Option.noConfusion h

theorem errNotSuperblockHeight_tail (h : Int) (a m : CAmount) :
    (errNotSuperblockHeight h a m).data.reverse.take 3 = ['t', 'h', 'g'] :=
  (data_reverse_take_append _ _ 3 (by decide)).trans (by decide)

theorem errSuperblockMaxValue_tail (h : Int) (a m : CAmount) :
    (errSuperblockMaxValue h a m).data.reverse.take 3 = ['e', 'u', 'l'] :=
  (data_reverse_take_append _ _ 3 (by decide)).trans (by decide)

theorem errSuperblocksDisabled_tail (h : Int) (a m : CAmount) :
    (errSuperblocksDisabled h a m).data.reverse.take 3 = ['d', 'e', 'l'] :=
  (data_reverse_take_append _ _ 3 (by decide)).trans (by decide)

theorem errNoTriggeredSuperblock_tail (h : Int) (a m : CAmount) :
    (errNoTriggeredSuperblock h a m).data.reverse.take 3 = ['d', 'e', 't'] :=
  (data_reverse_take_append _ _ 3 (by decide)).trans (by decide)

theorem errNotSuperblockHeight_head (h : Int) (a m : CAmount) :
    (errNotSuperblockHeight h a m).data.head? = some 'c' := by
  unfold errNotSuperblockHeight
  simp only [String.data_append, List.append_assoc]
  rfl

theorem errSuperblockMaxValue_head (h : Int) (a m : CAmount) :
    (errSuperblockMaxValue h a m).data.head? = some 'c' := by
  unfold errSuperblockMaxValue
  simp only [String.data_append, List.append_assoc]
  rfl

theorem errSuperblocksDisabled_head (h : Int) (a m : CAmount) :
    (errSuperblocksDisabled h a m).data.head? = some 'c' := by
  unfold errSuperblocksDisabled
  simp only [String.data_append, List.append_assoc]
  rfl

theorem errNoTriggeredSuperblock_head (h : Int) (a m : CAmount) :
    (errNoTriggeredSuperblock h a m).data.head? = some 'c' := by
  unfold errNoTriggeredSuperblock
  simp only [String.data_append, List.append_assoc]
  rfl

theorem errInvalidSuperblock_head (h : Int) :
    (errInvalidSuperblock h).data.head? = some 'i' := by
  unfold errInvalidSuperblock
  simp only [String.data_append]
  rfl

theorem ne_of_tail_ne (s t : String) (x y : List Char)
    (hs : s.data.reverse.take 3 = x) (ht : t.data.reverse.take 3 = y) (hxy : x ≠ y) :
    s ≠ t := by
  intro e
  rw [e, ht] at hs
  exact hxy hs.symm

theorem ne_of_head_ne (s t : String) (x y : Char)
    (hs : s.data.head? = some x) (ht : t.data.head? = some y) (hxy : x ≠ y) : s ≠ t := by
  intro e
  rw [e, ht] at hs
  exact hxy (Option.some.inj hs).symm

/-- Whenever `IsBlockValueValid` returns, the flag is false exactly when the reason is not
empty. -/
theorem IsBlockValueValid_false_iff_reason (table : GeneratedFunds) (env : Collaborators)
    (block : CBlock) (nBlockHeight : Int) (expectedReward actualReward : CAmount)
    (strErrorRet : String) (b : Bool) (reason : String)
    (heq : IsBlockValueValid table env block nBlockHeight expectedReward actualReward
      strErrorRet = some (b, reason)) :
    b = false ↔ reason ≠ "" := by
  have n1 := fun m => ne_empty_of_head _ _ (errNotSuperblockHeight_head nBlockHeight actualReward m)
  have n2 := fun m => ne_empty_of_head _ _ (errSuperblockMaxValue_head nBlockHeight actualReward m)
  have n3 := ne_empty_of_head _ _
    (errSuperblocksDisabled_head nBlockHeight actualReward expectedReward)
  have n4 := ne_empty_of_head _ _
    (errNoTriggeredSuperblock_head nBlockHeight actualReward expectedReward)
  have n5 := ne_empty_of_head _ _ (errInvalidSuperblock_head nBlockHeight)
  unfold IsBlockValueValid at heq
  simp only [stringAssign] at heq
  repeat' split at heq
  all_goals (try (simp at heq))
  all_goals
    obtain ⟨hb, hr⟩ := heq
    subst hb
    subst hr
    simp_all

/-- A block with at least eleven transactions lets `IsBlockValueValid` return on every
path. -/
theorem IsBlockValueValid_returns (table : GeneratedFunds) (env : Collaborators)
    (block : CBlock) (nBlockHeight : Int) (expectedReward actualReward : CAmount)
    (strErrorRet : String) (hlen : 11 ≤ block.vtx.length) :
    ∃ b reason, IsBlockValueValid table env block nBlockHeight expectedReward actualReward
      strErrorRet = some (b, reason) := by
  have hpos : block.IsProofOfStake.toNat < block.vtx.length := by
    have : block.IsProofOfStake.toNat ≤ 1 := Bool.toNat_le block.IsProofOfStake
    omega
  by_cases hgen : isGenerationBlock table nBlockHeight = true
  · refine ⟨true, "", ?_⟩
    unfold IsBlockValueValid
    simp only [hgen, if_true, stringAssign]
  · have hgen2 : isGenerationBlock table nBlockHeight = false := by simpa using hgen
    rw [IsBlockValueValid_unfold table env block nBlockHeight expectedReward actualReward
      strErrorRet hgen2 hpos]
    have h1 : block.vtx[1]? = some (block.vtx[1]) := List.getElem?_eq_getElem (by omega)
    have h10 : block.vtx[10]? = some (block.vtx[10]) := List.getElem?_eq_getElem (by omega)
    rw [h1, h10]
    simp only []
    repeat' split
    all_goals exact ⟨_, _, rfl⟩

/-- C11. Whenever `IsBlockValueValid` returns, it returns false if and only if it leaves a
non-empty reason in `strErrorRet`, whatever the string held on entry (it returns on every
path for a block of at least eleven transactions); and the reasons of the five rejection
branches are pairwise different strings, whatever heights and amounts they are built from. -/
theorem IsBlockValueValid_reason (table : GeneratedFunds) (env : Collaborators)
    (block : CBlock) (nBlockHeight : Int) (expectedReward actualReward : CAmount)
    (strErrorRet : String) :
    (∀ b reason, IsBlockValueValid table env block nBlockHeight expectedReward actualReward
        strErrorRet = some (b, reason) → (b = false ↔ reason ≠ ""))
      ∧ (11 ≤ block.vtx.length →
          ∃ b reason, IsBlockValueValid table env block nBlockHeight expectedReward
            actualReward strErrorRet = some (b, reason))
      ∧ (∀ (h1 h2 h3 h4 h5 : Int) (a1 m1 a2 m2 a3 e3 a4 e4 : CAmount),
          List.Pairwise (fun s t : String => s ≠ t)
            [errNotSuperblockHeight h1 a1 m1, errSuperblockMaxValue h2 a2 m2,
             errSuperblocksDisabled h3 a3 e3, errNoTriggeredSuperblock h4 a4 e4,
             errInvalidSuperblock h5]) := by
  refine ⟨fun b reason heq => IsBlockValueValid_false_iff_reason table env block nBlockHeight
      expectedReward actualReward strErrorRet b reason heq,
    IsBlockValueValid_returns table env block nBlockHeight expectedReward actualReward
      strErrorRet, ?_⟩
  intro h1 h2 h3 h4 h5 a1 m1 a2 m2 a3 e3 a4 e4
  have t1 := errNotSuperblockHeight_tail h1 a1 m1
  have t2 := errSuperblockMaxValue_tail h2 a2 m2
  have t3 := errSuperblocksDisabled_tail h3 a3 e3
  have t4 := errNoTriggeredSuperblock_tail h4 a4 e4
  have c1 := errNotSuperblockHeight_head h1 a1 m1
  have c2 := errSuperblockMaxValue_head h2 a2 m2
  have c3 := errSuperblocksDisabled_head h3 a3 e3
  have c4 := errNoTriggeredSuperblock_head h4 a4 e4
  have c5 := errInvalidSuperblock_head h5
  simp only [List.pairwise_cons, List.mem_cons, List.mem_singleton, List.not_mem_nil,
    forall_eq_or_imp, forall_eq, List.Pairwise.nil, and_true, or_false, IsEmpty.forall_iff,
    implies_true]
  refine ⟨⟨?_, ?_, ?_, ?_⟩, ⟨?_, ?_, ?_⟩, ⟨?_, ?_⟩, ?_⟩
  · exact ne_of_tail_ne _ _ _ _ t1 t2 (by decide)
  · exact ne_of_tail_ne _ _ _ _ t1 t3 (by decide)
  · exact ne_of_tail_ne _ _ _ _ t1 t4 (by decide)
  · exact ne_of_head_ne _ _ _ _ c1 c5 (by decide)
  · exact ne_of_tail_ne _ _ _ _ t2 t3 (by decide)
  · exact ne_of_tail_ne _ _ _ _ t2 t4 (by decide)
  · exact ne_of_head_ne _ _ _ _ c2 c5 (by decide)
  · exact ne_of_tail_ne _ _ _ _ t3 t4 (by decide)
  · exact ne_of_head_ne _ _ _ _ c3 c5 (by decide)
  · exact ne_of_head_ne _ _ _ _ c4 c5 (by decide)

/-- C11 (witness). A block of eleven transactions at a valid superblock height with an
invalid superblock: the function returns, with a false flag and a non-empty reason. -/
theorem IsBlockValueValid_reason_witness :
    (∃ b reason, IsBlockValueValid creationPoints
        (exEnv CTestNetParams 0 none true true true false 500)
        { vtx := List.replicate 11 { vout := [] }, IsProofOfStake := true }
        120 1000 1000 "old reason" = some (b, reason))
      ∧ ((false = false) ↔ "invalid superblock detected at height 120" ≠ "") :=
  ⟨(IsBlockValueValid_reason creationPoints
      (exEnv CTestNetParams 0 none true true true false 500)
      { vtx := List.replicate 11 { vout := [] }, IsProofOfStake := true }
      120 1000 1000 "old reason").2.1 (by decide),
   (IsBlockValueValid_reason creationPoints
      (exEnv CTestNetParams 0 none true true true false 500)
      { vtx := List.replicate 11 { vout := [] }, IsProofOfStake := true }
      120 1000 1000 "old reason").1 false "invalid superblock detected at height 120"
      (by decide)⟩

/-! ## Coinbase construction -/

theorem subtractPayments_cons_cons (payments : List CTxOut) (o0 o1 : CTxOut)
    (rest : List CTxOut) :
    FillBlockPayments.subtractPayments payments (o0 :: o1 :: rest)
      = some (o0 ::
          { nValue := payments.foldl (fun acc txout => wrap64 (acc - txout.nValue)) o1.nValue,
            scriptPubKey := o1.scriptPubKey } :: rest) := by
  induction payments generalizing o1 with
  | nil => simp [FillBlockPayments.subtractPayments]
  | cons txout more ih =>
    unfold FillBlockPayments.subtractPayments
    simp only [List.getElem?_cons_succ, List.getElem?_cons_zero, List.set_cons_succ,
      List.set_cons_zero, List.foldl_cons]
    rw [ih]

/-- The result of `FillBlockPayments` on a transaction with at least two outputs, when the
first spork address exists at an override height. -/
theorem FillBlockPayments_eq (table : GeneratedFunds) (env : Collaborators)
    (txNew : CTransaction) (nBlockHeight : Int) (expectedReward : CAmount)
    (voutMN voutSB : List CTxOut) (o0 o1 : CTxOut) (rest : List CTxOut)
    (hvout : txNew.vout = o0 :: o1 :: rest)
    (haddr : isGenerationBlock table nBlockHeight = true → env.Params.vSporkAddresses ≠ []) :
    FillBlockPayments table env txNew nBlockHeight expectedReward voutMN voutSB =
      some
        ({ vout :=
            (o0 ::
              { nValue :=
                  (GetMasternodeTxOuts env nBlockHeight expectedReward voutMN).2.foldl
                    (fun acc txout => wrap64 (acc - txout.nValue)) o1.nValue,
                scriptPubKey := o1.scriptPubKey } :: rest)
            ++ (if isGenerationBlock table nBlockHeight then
                  [{ nValue := getGenerationAmount table nBlockHeight,
                     scriptPubKey :=
                       env.GetScriptForAddress (env.Params.vSporkAddresses.headD "") }]
                else [])
            ++ (GetMasternodeTxOuts env nBlockHeight expectedReward voutMN).2
            ++ (if env.IsSporkActive SporkId.SPORK_9_SUPERBLOCKS_ENABLED
                    && env.IsSuperblockTriggered nBlockHeight then
                  (env.GetSuperblockPayments nBlockHeight voutSB).2
                else voutSB) },
          (GetMasternodeTxOuts env nBlockHeight expectedReward voutMN).2,
          (if env.IsSporkActive SporkId.SPORK_9_SUPERBLOCKS_ENABLED
                && env.IsSuperblockTriggered nBlockHeight then
              (env.GetSuperblockPayments nBlockHeight voutSB).2
            else voutSB)) := by
  unfold FillBlockPayments
  by_cases hgen : isGenerationBlock table nBlockHeight = true
  · obtain ⟨addr, more, hlist⟩ := List.exists_cons_of_ne_nil (haddr hgen)
    simp only [hgen, if_true, hlist, List.head?_cons, List.headD_cons, hvout,
      List.cons_append, subtractPayments_cons_cons]
  · simp only [hgen, Bool.false_eq_true, if_false, hvout, List.cons_append,
      subtractPayments_cons_cons, List.append_nil]

/-- C20. For every transaction with at least two outputs (and a first spork address at an
override height), after `FillBlockPayments` the output list is: the original outputs in their
original order, only the value at index 1 possibly changed; then one output (override amount,
script of the first spork address) if and only if the height is an override height; then the
returned masternode outputs in order; then the returned superblock outputs in order. -/
theorem FillBlockPayments_output_layout (table : GeneratedFunds) (env : Collaborators)
    (txNew : CTransaction) (nBlockHeight : Int) (expectedReward : CAmount)
    (voutMN voutSB : List CTxOut)
    (hlen : 2 ≤ txNew.vout.length)
    (haddr : isGenerationBlock table nBlockHeight = true → env.Params.vSporkAddresses ≠ []) :
    ∃ (txRet : CTransaction) (mnRet sbRet : List CTxOut) (o0 o1 : CTxOut)
        (rest : List CTxOut) (v : CAmount),
      FillBlockPayments table env txNew nBlockHeight expectedReward voutMN voutSB
          = some (txRet, mnRet, sbRet)
        ∧ txNew.vout = o0 :: o1 :: rest
        ∧ txRet.vout =
            (o0 :: { nValue := v, scriptPubKey := o1.scriptPubKey } :: rest)
            ++ (if isGenerationBlock table nBlockHeight then
                  [{ nValue := getGenerationAmount table nBlockHeight,
                     scriptPubKey :=
                       env.GetScriptForAddress (env.Params.vSporkAddresses.headD "") }]
                else [])
            ++ mnRet ++ sbRet := by
  obtain ⟨o0, o1, rest, hvout⟩ : ∃ o0 o1 rest, txNew.vout = o0 :: o1 :: rest := by
    match hv : txNew.vout with
    | [] => rw [hv] at hlen; simp at hlen
    | [_] => rw [hv] at hlen; simp at hlen
    | a :: b :: r => exact ⟨a, b, r, rfl⟩
  exact ⟨_, _, _, o0, o1, rest, _,
    FillBlockPayments_eq table env txNew nBlockHeight expectedReward voutMN voutSB o0 o1 rest
      hvout haddr, hvout, rfl⟩

/-- C20 (witness). Height 100 of the example table on mainnet, a triggered superblock, a
payee with a 750/250 split and a transaction with three outputs. -/
theorem FillBlockPayments_output_layout_witness :
    ∃ (txRet : CTransaction) (mnRet sbRet : List CTxOut) (o0 o1 : CTxOut)
        (rest : List CTxOut) (v : CAmount),
      FillBlockPayments exTable
          (exEnv CMainParams 1000 (some (exMN 2500 exOperatorScript)) true true true true 0)
          { vout := [{ nValue := 0, scriptPubKey := [] },
                     { nValue := 5000, scriptPubKey := exOwnerScriptAlt },
                     { nValue := 7, scriptPubKey := [] }] } 100 5000 [] []
          = some (txRet, mnRet, sbRet)
        ∧ [{ nValue := 0, scriptPubKey := [] },
           { nValue := 5000, scriptPubKey := exOwnerScriptAlt },
           { nValue := 7, scriptPubKey := [] }] = o0 :: o1 :: rest
        ∧ txRet.vout =
            (o0 :: { nValue := v, scriptPubKey := o1.scriptPubKey } :: rest)
            ++ (if isGenerationBlock exTable 100 then
                  [{ nValue := getGenerationAmount exTable 100,
                     scriptPubKey :=
                       (exEnv CMainParams 1000 (some (exMN 2500 exOperatorScript))
                          true true true true 0).GetScriptForAddress
                         ((exEnv CMainParams 1000 (some (exMN 2500 exOperatorScript))
                            true true true true 0).Params.vSporkAddresses.headD "") }]
                else [])
            ++ mnRet ++ sbRet :=
  FillBlockPayments_output_layout exTable
    (exEnv CMainParams 1000 (some (exMN 2500 exOperatorScript)) true true true true 0)
    { vout := [{ nValue := 0, scriptPubKey := [] },
               { nValue := 5000, scriptPubKey := exOwnerScriptAlt },
               { nValue := 7, scriptPubKey := [] }] } 100 5000 [] []
    (by decide) (fun _ => by decide)

/-! ## Coinbase construction: the miner output and the totals -/

theorem wrap64_inRange (x : Int) : InInt64 (wrap64 x) := by
  unfold InInt64 INT64_MIN INT64_MAX wrap64
  constructor <;> omega

theorem wrap64_sub_wrap64 (a b : Int) : wrap64 (wrap64 a - b) = wrap64 (a - b) := by
  unfold wrap64
  omega

theorem sumValues_cons (x : CTxOut) (l : List CTxOut) :
    sumValues (x :: l) = x.nValue + sumValues l := by
  simp [sumValues]

theorem sumValues_append (a b : List CTxOut) :
    sumValues (a ++ b) = sumValues a + sumValues b := by
  simp [sumValues]

theorem foldl_subtract_eq (payments : List CTxOut) (a : Int) (ha : InInt64 a) :
    payments.foldl (fun acc txout => wrap64 (acc - txout.nValue)) a
      = wrap64 (a - sumValues payments) := by
  induction payments generalizing a with
  | nil =>
    have h0 : sumValues [] = 0 := rfl
    rw [List.foldl_nil, h0, Int.sub_zero, wrap64_of_inRange a ha]
  | cons x rest ih =>
    rw [List.foldl_cons, ih _ (wrap64_inRange _), wrap64_sub_wrap64, sumValues_cons]
    congr 1
    omega

theorem GetMasternodeTxOuts_eq (env : Collaborators) (nBlockHeight : Int)
    (expectedReward : CAmount) (vin : List CTxOut) :
    GetMasternodeTxOuts env nBlockHeight expectedReward vin
      = GetBlockTxOuts env nBlockHeight expectedReward [] := by
  unfold GetMasternodeTxOuts
  simp only [vectorClear]
  cases h : (GetBlockTxOuts env nBlockHeight expectedReward []).1 <;>
    simp [h, Prod.ext_iff]

theorem GetMasternodeTxOuts_no_payee (env : Collaborators) (nBlockHeight : Int)
    (expectedReward : CAmount) (vin : List CTxOut)
    (hp : env.GetMNPayee nBlockHeight = none) :
    GetMasternodeTxOuts env nBlockHeight expectedReward vin = (false, []) := by
  rw [GetMasternodeTxOuts_eq]
  unfold GetBlockTxOuts
  simp only [hp, vectorClear]

theorem vout_decompose (vout : List CTxOut) (o1 : CTxOut) (h1 : vout[1]? = some o1) :
    ∃ o0 rest, vout = o0 :: o1 :: rest := by
  match vout, h1 with
  | [], h => simp at h
  | [_], h => simp at h
  | a :: b :: r, h =>
    simp only [List.getElem?_cons_succ, List.getElem?_cons_zero, Option.some.injEq] at h
    exact ⟨a, r, by rw [h]⟩

/-- C21. For every transaction with at least two outputs, after `FillBlockPayments` the value
of output index 1 equals its value before the call minus the sum of the returned masternode
outputs' values, and the value and script of every other original output and the script of
output 1 are unchanged (the value before the call and the difference are 64-bit values; at an
override height the first spork address exists). -/
theorem FillBlockPayments_miner_output (table : GeneratedFunds) (env : Collaborators)
    (txNew : CTransaction) (nBlockHeight : Int) (expectedReward : CAmount)
    (voutMN voutSB : List CTxOut) (o1 : CTxOut)
    (h1 : txNew.vout[1]? = some o1)
    (haddr : isGenerationBlock table nBlockHeight = true → env.Params.vSporkAddresses ≠ [])
    (hin : InInt64 o1.nValue)
    (hdiff : InInt64 (o1.nValue
      - sumValues (GetMasternodeTxOuts env nBlockHeight expectedReward voutMN).2)) :
    ∃ (txRet : CTransaction) (mnRet sbRet : List CTxOut),
      FillBlockPayments table env txNew nBlockHeight expectedReward voutMN voutSB
          = some (txRet, mnRet, sbRet)
        ∧ txRet.vout.take txNew.vout.length
            = txNew.vout.set 1
                { nValue := o1.nValue - sumValues mnRet, scriptPubKey := o1.scriptPubKey } := by
  obtain ⟨o0, rest, hvout⟩ := vout_decompose txNew.vout o1 h1
  refine ⟨_, _, _, FillBlockPayments_eq table env txNew nBlockHeight expectedReward voutMN
    voutSB o0 o1 rest hvout haddr, ?_⟩
  rw [foldl_subtract_eq _ _ hin, wrap64_of_inRange _ hdiff, hvout]
  simp only [List.append_assoc, List.set_cons_succ, List.set_cons_zero]
  exact List.take_left' rfl

/-- C21 (witness). A payee with a 750/250 split and a transaction whose second output holds
5000: the second output becomes 4000. -/
theorem FillBlockPayments_miner_output_witness :
    ∃ (txRet : CTransaction) (mnRet sbRet : List CTxOut),
      FillBlockPayments creationPoints
          (exEnv CMainParams 1000 (some (exMN 2500 exOperatorScript)) true true true true 0)
          { vout := [{ nValue := 0, scriptPubKey := [] },
                     { nValue := 5000, scriptPubKey := exOwnerScriptAlt },
                     { nValue := 7, scriptPubKey := [] }] } 300 5000 [] []
          = some (txRet, mnRet, sbRet)
        ∧ txRet.vout.take
            ([{ nValue := 0, scriptPubKey := [] },
              { nValue := 5000, scriptPubKey := exOwnerScriptAlt },
              { nValue := 7, scriptPubKey := [] }] : List CTxOut).length
            = List.set [{ nValue := 0, scriptPubKey := [] },
                { nValue := 5000, scriptPubKey := exOwnerScriptAlt },
                { nValue := 7, scriptPubKey := [] }] 1
                { nValue := 5000 - sumValues mnRet, scriptPubKey := exOwnerScriptAlt } :=
  FillBlockPayments_miner_output creationPoints
    (exEnv CMainParams 1000 (some (exMN 2500 exOperatorScript)) true true true true 0)
    { vout := [{ nValue := 0, scriptPubKey := [] },
               { nValue := 5000, scriptPubKey := exOwnerScriptAlt },
               { nValue := 7, scriptPubKey := [] }] } 300 5000 [] []
    { nValue := 5000, scriptPubKey := exOwnerScriptAlt }
    rfl (fun h => absurd h (by decide)) (by decide) (by decide)

/-- C23. If the masternode list yields no payee, `FillBlockPayments` returns an empty
masternode output list whatever the list held on entry, appends no masternode output and
leaves every original output (the value of output index 1 included) unchanged; the override
output and the superblock outputs are appended as in the successful case. -/
theorem FillBlockPayments_no_payee (table : GeneratedFunds) (env : Collaborators)
    (txNew : CTransaction) (nBlockHeight : Int) (expectedReward : CAmount)
    (voutMN voutSB : List CTxOut)
    (hp : env.GetMNPayee nBlockHeight = none)
    (haddr : isGenerationBlock table nBlockHeight = true → env.Params.vSporkAddresses ≠ []) :
    ∃ (txRet : CTransaction) (sbRet : List CTxOut),
      FillBlockPayments table env txNew nBlockHeight expectedReward voutMN voutSB
          = some (txRet, [], sbRet)
        ∧ sbRet = (if env.IsSporkActive SporkId.SPORK_9_SUPERBLOCKS_ENABLED
                      && env.IsSuperblockTriggered nBlockHeight then
                    (env.GetSuperblockPayments nBlockHeight voutSB).2
                  else voutSB)
        ∧ txRet.vout =
            txNew.vout
            ++ (if isGenerationBlock table nBlockHeight then
                  [{ nValue := getGenerationAmount table nBlockHeight,
                     scriptPubKey :=
                       env.GetScriptForAddress (env.Params.vSporkAddresses.headD "") }]
                else [])
            ++ sbRet := by
  have hmn := GetMasternodeTxOuts_no_payee env nBlockHeight expectedReward voutMN hp
  unfold FillBlockPayments
  by_cases hgen : isGenerationBlock table nBlockHeight = true
  · obtain ⟨addr, more, hlist⟩ := List.exists_cons_of_ne_nil (haddr hgen)
    simp only [hgen, if_true, hlist, List.head?_cons, List.headD_cons, hmn,
      FillBlockPayments.subtractPayments, List.append_nil]
    exact ⟨_, _, rfl, rfl, rfl⟩
  · simp only [hgen, Bool.false_eq_true, if_false, hmn,
      FillBlockPayments.subtractPayments, List.append_nil]
    exact ⟨_, _, rfl, rfl, rfl⟩

/-- C23 (witness). Height 100 of the example table, no payee, a triggered superblock, a
transaction with a single output and a masternode list that holds one output on entry. -/
theorem FillBlockPayments_no_payee_witness :
    ∃ (txRet : CTransaction) (sbRet : List CTxOut),
      FillBlockPayments exTable (exEnv CMainParams 1000 none true true true true 0)
          { vout := [{ nValue := 5000, scriptPubKey := exOwnerScriptAlt }] } 100 5000
          [{ nValue := 9, scriptPubKey := [] }] []
          = some (txRet, [], sbRet)
        ∧ sbRet =
            (if (exEnv CMainParams 1000 none true true true true 0).IsSporkActive
                  SporkId.SPORK_9_SUPERBLOCKS_ENABLED
                && (exEnv CMainParams 1000 none true true true true 0).IsSuperblockTriggered 100
              then ((exEnv CMainParams 1000 none true true true true 0).GetSuperblockPayments
                      100 []).2
              else [])
        ∧ txRet.vout =
            [{ nValue := 5000, scriptPubKey := exOwnerScriptAlt }]
            ++ (if isGenerationBlock exTable 100 then
                  [{ nValue := getGenerationAmount exTable 100,
                     scriptPubKey :=
                       (exEnv CMainParams 1000 none true true true true 0).GetScriptForAddress
                         ((exEnv CMainParams 1000 none true true true true
                            0).Params.vSporkAddresses.headD "") }]
                else [])
            ++ sbRet :=
  FillBlockPayments_no_payee exTable (exEnv CMainParams 1000 none true true true true 0)
    { vout := [{ nValue := 5000, scriptPubKey := exOwnerScriptAlt }] } 100 5000
    [{ nValue := 9, scriptPubKey := [] }] [] rfl (fun _ => by decide)

/-- C25. For every transaction with at least two outputs, after `FillBlockPayments` the sum
of all output values equals minerShare + (sum of masternode outputs) + (sum of superblock
outputs) + (override amount at an override height), where minerShare is the sum of the
original outputs minus the sum of the masternode outputs; so the total grows by exactly the
superblock and override amounts (the value of output 1 before the call and its difference
with the masternode sum are 64-bit values; at an override height the first spork address
exists). -/
theorem FillBlockPayments_total (table : GeneratedFunds) (env : Collaborators)
    (txNew : CTransaction) (nBlockHeight : Int) (expectedReward : CAmount)
    (voutMN voutSB : List CTxOut) (o1 : CTxOut)
    (h1 : txNew.vout[1]? = some o1)
    (haddr : isGenerationBlock table nBlockHeight = true → env.Params.vSporkAddresses ≠ [])
    (hin : InInt64 o1.nValue)
    (hdiff : InInt64 (o1.nValue
      - sumValues (GetMasternodeTxOuts env nBlockHeight expectedReward voutMN).2)) :
    ∃ (txRet : CTransaction) (mnRet sbRet : List CTxOut),
      FillBlockPayments table env txNew nBlockHeight expectedReward voutMN voutSB
          = some (txRet, mnRet, sbRet)
        ∧ sumValues txRet.vout
            = (sumValues txNew.vout - sumValues mnRet) + sumValues mnRet + sumValues sbRet
              + (if isGenerationBlock table nBlockHeight then
                  getGenerationAmount table nBlockHeight else 0)
        ∧ sumValues txRet.vout
            = sumValues txNew.vout + sumValues sbRet
              + (if isGenerationBlock table nBlockHeight then
                  getGenerationAmount table nBlockHeight else 0) := by
  obtain ⟨o0, rest, hvout⟩ := vout_decompose txNew.vout o1 h1
  refine ⟨_, _, _, FillBlockPayments_eq table env txNew nBlockHeight expectedReward voutMN
    voutSB o0 o1 rest hvout haddr, ?_⟩
  rw [foldl_subtract_eq _ _ hin, wrap64_of_inRange _ hdiff, hvout]
  have hgenSum : sumValues (if isGenerationBlock table nBlockHeight then
        [({ nValue := getGenerationAmount table nBlockHeight,
            scriptPubKey :=
              env.GetScriptForAddress (env.Params.vSporkAddresses.headD "") } : CTxOut)]
      else [])
      = (if isGenerationBlock table nBlockHeight then
          getGenerationAmount table nBlockHeight else 0) := by
    split <;> simp [sumValues]
  simp only [sumValues_append, sumValues_cons, hgenSum]
  constructor <;> omega

/-- C25 (witness). Height 100 of the example table (override amount 500), a payee with a
750/250 split, a triggered superblock of 400 and a transaction worth 5007. -/
theorem FillBlockPayments_total_witness :
    ∃ (txRet : CTransaction) (mnRet sbRet : List CTxOut),
      FillBlockPayments exTable
          (exEnv CMainParams 1000 (some (exMN 2500 exOperatorScript)) true true true true 0)
          { vout := [{ nValue := 0, scriptPubKey := [] },
                     { nValue := 5000, scriptPubKey := exOwnerScriptAlt },
                     { nValue := 7, scriptPubKey := [] }] } 100 5000 [] []
          = some (txRet, mnRet, sbRet)
        ∧ sumValues txRet.vout
            = (sumValues [{ nValue := 0, scriptPubKey := [] },
                          { nValue := 5000, scriptPubKey := exOwnerScriptAlt },
                          { nValue := 7, scriptPubKey := [] }] - sumValues mnRet)
              + sumValues mnRet + sumValues sbRet
              + (if isGenerationBlock exTable 100 then getGenerationAmount exTable 100 else 0)
        ∧ sumValues txRet.vout
            = sumValues [{ nValue := 0, scriptPubKey := [] },
                         { nValue := 5000, scriptPubKey := exOwnerScriptAlt },
                         { nValue := 7, scriptPubKey := [] }] + sumValues sbRet
              + (if isGenerationBlock exTable 100 then getGenerationAmount exTable 100 else 0) :=
  FillBlockPayments_total exTable
    (exEnv CMainParams 1000 (some (exMN 2500 exOperatorScript)) true true true true 0)
    { vout := [{ nValue := 0, scriptPubKey := [] },
               { nValue := 5000, scriptPubKey := exOwnerScriptAlt },
               { nValue := 7, scriptPubKey := [] }] } 100 5000 [] []
    { nValue := 5000, scriptPubKey := exOwnerScriptAlt }
    rfl (fun _ => by decide) (by decide) (by decide)

/-- C22 (the code at the failing input). Mainnet height 300 with superblocks disabled: the
superblock list the caller passes holds one stale output of 2; `FillBlockPayments` returns it
unchanged as the superblock list and appends it to the transaction. With an empty list on
entry the returned list is empty, and with a triggered superblock it is the governance
manager's list whatever the list held on entry. -/
theorem FillBlockPayments_stale_superblock_list :
    FillBlockPayments creationPoints
        (exEnv CMainParams 1000 (some (exMN 2500 exOperatorScript)) true false true true 0)
        { vout := [{ nValue := 0, scriptPubKey := [] },
                   { nValue := 5000, scriptPubKey := exOwnerScriptAlt }] } 300 5000 []
        [{ nValue := 2, scriptPubKey := exProposalScript }]
      = some
          ({ vout := [{ nValue := 0, scriptPubKey := [] },
                      { nValue := 4000, scriptPubKey := exOwnerScriptAlt },
                      { nValue := 750, scriptPubKey := exOwnerScript },
                      { nValue := 250, scriptPubKey := exOperatorScript },
                      { nValue := 2, scriptPubKey := exProposalScript }] },
           [{ nValue := 750, scriptPubKey := exOwnerScript },
            { nValue := 250, scriptPubKey := exOperatorScript }],
           [{ nValue := 2, scriptPubKey := exProposalScript }])
    ∧ (FillBlockPayments creationPoints
        (exEnv CMainParams 1000 (some (exMN 2500 exOperatorScript)) true false true true 0)
        { vout := [{ nValue := 0, scriptPubKey := [] },
                   { nValue := 5000, scriptPubKey := exOwnerScriptAlt }] } 300 5000 []
        []).map (fun r => r.2.2) = some []
    ∧ (FillBlockPayments creationPoints
        (exEnv CMainParams 1000 (some (exMN 2500 exOperatorScript)) true true true true 0)
        { vout := [{ nValue := 0, scriptPubKey := [] },
                   { nValue := 5000, scriptPubKey := exOwnerScriptAlt }] } 300 5000 []
        [{ nValue := 2, scriptPubKey := exProposalScript }]).map (fun r => r.2.2)
      = some [{ nValue := 400, scriptPubKey := exProposalScript }] := by
  decide

/-! ## Round trip -/

theorem IsTransactionValid_of_outputs_present (env : Collaborators) (txNew : CTransaction)
    (nBlockHeight : Int) (expectedReward : CAmount)
    (hsub : ∀ e ∈ (GetBlockTxOuts env nBlockHeight expectedReward []).2, e ∈ txNew.vout) :
    IsTransactionValid env txNew nBlockHeight expectedReward = some true := by
  have hcheck := (checkPayees_eq_true_iff env txNew
    (GetBlockTxOuts env nBlockHeight expectedReward []).2).2 (fun e he => ⟨e, hsub e he, rfl⟩)
  unfold IsTransactionValid
  split
  · rfl
  · simp only [hcheck, ite_self]

/-- C24 (counterexample). Mainnet height 300 with the shipped table, outside lite mode, a
triggered superblock and a governance manager that rejects an actual reward above the
expected reward plus the superblock payments: the transaction `FillBlockPayments` builds is
rejected by `IsBlockPayeeValid` for the actual reward 999999 (and accepted for 5000). At
height 100 of the example table the built transaction pays the override amount to the spork
address, which the override branch of `IsBlockPayeeValid` does not recognise. -/
theorem FillBlockPayments_roundtrip_counterexample :
    (FillBlockPayments creationPoints exEnvRewardBound
        { vout := [{ nValue := 0, scriptPubKey := [] },
                   { nValue := 5000, scriptPubKey := exOwnerScriptAlt }] } 300 5000 [] []).map
        (fun r => IsBlockPayeeValid creationPoints exEnvRewardBound false r.1 300 5000 999999)
      = some (some false)
    ∧ (FillBlockPayments creationPoints exEnvRewardBound
        { vout := [{ nValue := 0, scriptPubKey := [] },
                   { nValue := 5000, scriptPubKey := exOwnerScriptAlt }] } 300 5000 [] []).map
        (fun r => IsBlockPayeeValid creationPoints exEnvRewardBound false r.1 300 5000 5000)
      = some (some true)
    ∧ (FillBlockPayments exTable exEnvRewardBound
        { vout := [{ nValue := 0, scriptPubKey := [] },
                   { nValue := 5000, scriptPubKey := exOwnerScriptAlt }] } 100 5000 [] []).map
        (fun r => IsBlockPayeeValid exTable exEnvRewardBound false r.1 100 5000 5000)
      = some (some false) := by
  decide

/-- C24 (amended). For every height that is not an override height (every height, with the
table as shipped), every expected and actual reward and every starting transaction with at
least two outputs, `FillBlockPayments` produces a transaction, and `IsBlockPayeeValid` at the
same height and expected reward accepts it exactly when the superblock step does not reject
it: in lite mode, or with the superblock flag inactive, or with no superblock triggered, or
when the governance manager reports the produced transaction valid. -/
theorem FillBlockPayments_roundtrip (table : GeneratedFunds) (env : Collaborators)
    (fLiteMode : Bool) (txNew : CTransaction) (nBlockHeight : Int)
    (expectedReward actualReward : CAmount) (voutMN voutSB : List CTxOut)
    (hgen : isGenerationBlock table nBlockHeight = false)
    (hlen : 2 ≤ txNew.vout.length) :
    ∃ (txRet : CTransaction) (mnRet sbRet : List CTxOut),
      FillBlockPayments table env txNew nBlockHeight expectedReward voutMN voutSB
          = some (txRet, mnRet, sbRet)
        ∧ IsBlockPayeeValid table env fLiteMode txRet nBlockHeight expectedReward actualReward
            = some (fLiteMode
                || !env.IsSporkActive SporkId.SPORK_9_SUPERBLOCKS_ENABLED
                || !env.IsSuperblockTriggered nBlockHeight
                || env.IsValid txRet nBlockHeight actualReward expectedReward) := by
  obtain ⟨o0, o1, rest, hvout⟩ : ∃ o0 o1 rest, txNew.vout = o0 :: o1 :: rest := by
    match hv : txNew.vout with
    | [] => rw [hv] at hlen; simp at hlen
    | [_] => rw [hv] at hlen; simp at hlen
    | a :: b :: r => exact ⟨a, b, r, rfl⟩
  have haddr : isGenerationBlock table nBlockHeight = true → env.Params.vSporkAddresses ≠ [] := by
    intro h; rw [hgen] at h; exact absurd h (by decide)
  refine ⟨_, _, _, FillBlockPayments_eq table env txNew nBlockHeight expectedReward voutMN
    voutSB o0 o1 rest hvout haddr, ?_⟩
  generalize htx : ({ vout := _ } : CTransaction) = txRet
  have hvalid : IsTransactionValid env txRet nBlockHeight expectedReward = some true := by
    apply IsTransactionValid_of_outputs_present
    intro e he
    rw [← GetMasternodeTxOuts_eq env nBlockHeight expectedReward voutMN] at he
    rw [← htx]
    simp only [List.mem_append]
    exact Or.inl (Or.inr he)
  cases fLiteMode with
  | true =>
    unfold IsBlockPayeeValid
    simp only [hgen, Bool.false_eq_true, if_false, if_true, Bool.true_or]
  | false =>
    rw [IsBlockPayeeValid_unfold table env txRet nBlockHeight expectedReward actualReward hgen,
      hvalid]
    cases env.IsSporkActive SporkId.SPORK_9_SUPERBLOCKS_ENABLED <;>
      cases env.IsSuperblockTriggered nBlockHeight <;>
      cases env.IsValid txRet nBlockHeight actualReward expectedReward <;> rfl

/-- C24 (witness). Mainnet height 300 with the shipped table, outside lite mode, the
governance manager of the counterexample and the actual reward 5000. -/
theorem FillBlockPayments_roundtrip_witness :
    ∃ (txRet : CTransaction) (mnRet sbRet : List CTxOut),
      FillBlockPayments creationPoints exEnvRewardBound
          { vout := [{ nValue := 0, scriptPubKey := [] },
                     { nValue := 5000, scriptPubKey := exOwnerScriptAlt }] } 300 5000 [] []
          = some (txRet, mnRet, sbRet)
        ∧ IsBlockPayeeValid creationPoints exEnvRewardBound false txRet 300 5000 5000
            = some (false
                || !exEnvRewardBound.IsSporkActive SporkId.SPORK_9_SUPERBLOCKS_ENABLED
                || !exEnvRewardBound.IsSuperblockTriggered 300
                || exEnvRewardBound.IsValid txRet 300 5000 5000) :=
  FillBlockPayments_roundtrip creationPoints exEnvRewardBound false
    { vout := [{ nValue := 0, scriptPubKey := [] },
               { nValue := 5000, scriptPubKey := exOwnerScriptAlt }] } 300 5000 5000 [] []
    rfl (by decide)

/-! ## Schedule lookahead -/

theorem findProTxHash_eq_true_iff (dmnIn : CDeterministicMN)
    (projectedPayees : List CDeterministicMN) :
    IsScheduled.findProTxHash dmnIn projectedPayees = true
      ↔ ∃ dmn ∈ projectedPayees, dmn.proTxHash = dmnIn.proTxHash := by
  induction projectedPayees with
  | nil => simp [IsScheduled.findProTxHash]
  | cons dmn rest ih =>
    unfold IsScheduled.findProTxHash
    by_cases h : dmn.proTxHash = dmnIn.proTxHash
    · simp [h]
    · simp [h, ih]

/-- C26. `IsScheduled` returns true for every masternode when DIP3 is not enforced; when it is
enforced it returns true if and only if the masternode's `proTxHash` equals the `proTxHash` of
one of the payees of `GetProjectedMNPayees(8)`; a masternode with the same `proTxHash` and
other payout scripts gets the same answer. -/
theorem IsScheduled_iff (env : Collaborators) (dmnIn : CDeterministicMN)
    (nNotBlockHeight : Int) :
    (env.IsDIP3Enforced = false → IsScheduled env dmnIn nNotBlockHeight = true)
      ∧ (env.IsDIP3Enforced = true →
          (IsScheduled env dmnIn nNotBlockHeight = true
            ↔ ∃ dmn ∈ env.GetProjectedMNPayees 8, dmn.proTxHash = dmnIn.proTxHash))
      ∧ (∀ other : CDeterministicMN, other.proTxHash = dmnIn.proTxHash →
          IsScheduled env other nNotBlockHeight = IsScheduled env dmnIn nNotBlockHeight) := by
  refine ⟨?_, ?_, ?_⟩
  · intro h
    unfold IsScheduled
    simp [h]
  · intro h
    unfold IsScheduled
    simp only [h, Bool.not_true, Bool.false_eq_true, if_false]
    exact findProTxHash_eq_true_iff dmnIn _
  · intro other ho
    unfold IsScheduled
    cases env.IsDIP3Enforced
    · rfl
    · simp only [Bool.not_true, Bool.false_eq_true, if_false]
      apply Bool.eq_iff_iff.mpr
      rw [findProTxHash_eq_true_iff, findProTxHash_eq_true_iff, ho]

/-- C26 (witness). DIP3 enforced, a projection of eight copies of the masternode with
`proTxHash` 7: a masternode with that hash and other scripts is scheduled. -/
theorem IsScheduled_iff_witness :
    IsScheduled (exEnv CMainParams 1000 none false false false false 0)
        (exMN 2500 exOperatorScript) 300 = true :=
  ((IsScheduled_iff (exEnv CMainParams 1000 none false false false false 0)
      (exMN 2500 exOperatorScript) 300).2.1 rfl).2 ⟨exMN 0 [], by decide, rfl⟩

/-! ## Block value: the transaction handed to the governance check -/

/-- C27 (the code at the failing input). A proof-of-work block of eleven transactions at a
valid, triggered superblock height: the payment transaction is the coinbase `block.vtx[0]`.
When the governance manager reports only the coinbase valid, `IsBlockValueValid` rejects the
block as an invalid superblock; when it reports the coinbase invalid and `block.vtx[1]` valid,
`IsBlockValueValid` accepts the block: the verdict is asked about `block.vtx[1]`. -/
theorem IsBlockValueValid_checks_second_transaction :
    IsBlockValueValid creationPoints (exEnvValidOnly exPaymentTx)
        { vtx := exPaymentTx :: List.replicate 10 exOtherTx, IsProofOfStake := false }
        120 1000 1000 "" = some (false, "invalid superblock detected at height 120")
      ∧ IsBlockValueValid creationPoints (exEnvValidOnly exOtherTx)
        { vtx := exPaymentTx :: List.replicate 10 exOtherTx, IsProofOfStake := false }
        120 1000 1000 "" = some (true, "") := by
  decide

/-! ## Transaction validity: unresolvable payout scripts -/

theorem checkPayees_first_unmatched (env : Collaborators) (txNew : CTransaction)
    (pre : List CTxOut) (e : CTxOut) (post : List CTxOut)
    (hpre : ∀ x ∈ pre, IsTransactionValid.findPayee env
      (destinationAfter env x.scriptPubKey) txNew.vout = true)
    (he : IsTransactionValid.findPayee env
      (destinationAfter env e.scriptPubKey) txNew.vout = false) :
    IsTransactionValid.checkPayees env txNew (pre ++ e :: post)
      = match env.ExtractDestination e.scriptPubKey with
        | none => none
        | some _ => some false := by
  induction pre with
  | nil =>
    rw [List.nil_append]
    unfold IsTransactionValid.checkPayees
    simp only [he, Bool.not_false, if_true]
  | cons a rest ih =>
    rw [List.cons_append]
    unfold IsTransactionValid.checkPayees
    have ha := hpre a (List.mem_cons_self _ _)
    simp only [ha, Bool.not_true, Bool.false_eq_true, if_false]
    exact ih (fun x hx => hpre x (List.mem_cons_of_mem _ hx))

theorem checkPayees_decompose (env : Collaborators) (txNew : CTransaction)
    (expected : List CTxOut)
    (hne : IsTransactionValid.checkPayees env txNew expected ≠ some true) :
    ∃ pre e post, expected = pre ++ e :: post
      ∧ (∀ x ∈ pre, IsTransactionValid.findPayee env
          (destinationAfter env x.scriptPubKey) txNew.vout = true)
      ∧ IsTransactionValid.findPayee env
          (destinationAfter env e.scriptPubKey) txNew.vout = false := by
  induction expected with
  | nil => exact absurd rfl hne
  | cons a rest ih =>
    cases hf : IsTransactionValid.findPayee env (destinationAfter env a.scriptPubKey) txNew.vout
    · exact ⟨[], a, rest, rfl, fun x hx => absurd hx (List.not_mem_nil x), hf⟩
    · have hrest : IsTransactionValid.checkPayees env txNew rest ≠ some true := by
        intro h
        apply hne
        unfold IsTransactionValid.checkPayees
        simp only [hf, Bool.not_true, Bool.false_eq_true, if_false]
        exact h
      obtain ⟨pre, e, post, heq, hpre, he⟩ := ih hrest
      refine ⟨a :: pre, e, post, by rw [heq, List.cons_append], ?_, he⟩
      intro x hx
      rcases List.mem_cons.1 hx with h | h
      · rw [h]; exact hf
      · exact hpre x h

theorem IsTransactionValid_eq_checkPayees_of_ne (env : Collaborators) (txNew : CTransaction)
    (nBlockHeight : Int) (expectedReward : CAmount)
    (hne : IsTransactionValid env txNew nBlockHeight expectedReward ≠ some true) :
    env.Params.consensus.DIP0003Height ≤ nBlockHeight
      ∧ (GetBlockTxOuts env nBlockHeight expectedReward []).1 = true
      ∧ IsTransactionValid env txNew nBlockHeight expectedReward
          = IsTransactionValid.checkPayees env txNew
              (GetBlockTxOuts env nBlockHeight expectedReward []).2 := by
  unfold IsTransactionValid at hne ⊢
  by_cases hh : nBlockHeight < env.Params.consensus.DIP0003Height
  · rw [if_pos hh] at hne
    exact absurd rfl hne
  · rw [if_neg hh] at hne ⊢
    cases hok : (GetBlockTxOuts env nBlockHeight expectedReward []).1
    · simp [hok] at hne
    · refine ⟨not_lt.mp hh, rfl, ?_⟩
      simp [hok]

/-- C28. `IsTransactionValid` aborts exactly when, at a height at or above `DIP0003Height`
with a computed schedule, the first expected output that no output of the transaction matches
has an unresolvable script; when it returns false, that first unmatched expected output is
resolvable, so an unresolvable payout script never makes it return false; and an unresolvable
expected output is matched exactly when the transaction has an output whose script is
unresolvable too (a successful `ExtractDestination` never yields `CNoDestination`). -/
theorem IsTransactionValid_unresolvable_payee (env : Collaborators) (txNew : CTransaction)
    (nBlockHeight : Int) (expectedReward : CAmount) :
    (IsTransactionValid env txNew nBlockHeight expectedReward = none
        ↔ env.Params.consensus.DIP0003Height ≤ nBlockHeight
          ∧ (GetBlockTxOuts env nBlockHeight expectedReward []).1 = true
          ∧ ∃ pre e post,
              (GetBlockTxOuts env nBlockHeight expectedReward []).2 = pre ++ e :: post
              ∧ (∀ x ∈ pre, IsTransactionValid.findPayee env
                  (destinationAfter env x.scriptPubKey) txNew.vout = true)
              ∧ IsTransactionValid.findPayee env
                  (destinationAfter env e.scriptPubKey) txNew.vout = false
              ∧ env.ExtractDestination e.scriptPubKey = none)
      ∧ (IsTransactionValid env txNew nBlockHeight expectedReward = some false →
          ∃ pre e post,
            (GetBlockTxOuts env nBlockHeight expectedReward []).2 = pre ++ e :: post
            ∧ (∀ x ∈ pre, IsTransactionValid.findPayee env
                (destinationAfter env x.scriptPubKey) txNew.vout = true)
            ∧ IsTransactionValid.findPayee env
                (destinationAfter env e.scriptPubKey) txNew.vout = false
            ∧ (env.ExtractDestination e.scriptPubKey).isSome = true)
      ∧ ((∀ s d, env.ExtractDestination s = some d → d ≠ CTxDestination.CNoDestination) →
          ∀ e : CTxOut, env.ExtractDestination e.scriptPubKey = none →
            (IsTransactionValid.findPayee env
                (destinationAfter env e.scriptPubKey) txNew.vout = true
              ↔ ∃ o ∈ txNew.vout, env.ExtractDestination o.scriptPubKey = none)) := by
  refine ⟨⟨?_, ?_⟩, ?_, ?_⟩
  · intro hnone
    have hne : IsTransactionValid env txNew nBlockHeight expectedReward ≠ some true := by
      rw [hnone]; exact fun h => Option.noConfusion h
    obtain ⟨hh, hok, heq⟩ := IsTransactionValid_eq_checkPayees_of_ne env txNew nBlockHeight
      expectedReward hne
    rw [heq] at hne hnone
    obtain ⟨pre, e, post, hdec, hpre, he⟩ := checkPayees_decompose env txNew _ hne
    refine ⟨hh, hok, pre, e, post, hdec, hpre, he, ?_⟩
    rw [hdec, checkPayees_first_unmatched env txNew pre e post hpre he] at hnone
    cases hx : env.ExtractDestination e.scriptPubKey
    · rfl
    · rw [hx] at hnone; exact Option.noConfusion hnone
  · rintro ⟨hh, hok, pre, e, post, hdec, hpre, he, hx⟩
    unfold IsTransactionValid
    rw [if_neg (not_lt.mpr hh)]
    simp only [hok, Bool.not_true, Bool.false_eq_true, if_false]
    rw [hdec, checkPayees_first_unmatched env txNew pre e post hpre he, hx]
  · intro hfalse
    have hne : IsTransactionValid env txNew nBlockHeight expectedReward ≠ some true := by
      rw [hfalse]; exact fun h => Bool.noConfusion (Option.some.inj h)
    obtain ⟨_, _, heq⟩ := IsTransactionValid_eq_checkPayees_of_ne env txNew nBlockHeight
      expectedReward hne
    rw [heq] at hne hfalse
    obtain ⟨pre, e, post, hdec, hpre, he⟩ := checkPayees_decompose env txNew _ hne
    refine ⟨pre, e, post, hdec, hpre, he, ?_⟩
    rw [hdec, checkPayees_first_unmatched env txNew pre e post hpre he] at hfalse
    cases hx : env.ExtractDestination e.scriptPubKey
    · rw [hx] at hfalse; exact Option.noConfusion hfalse
    · rfl
  · intro hres e hx
    have hd : destinationAfter env e.scriptPubKey = CTxDestination.CNoDestination := by
      unfold destinationAfter; rw [hx]; rfl
    rw [findPayee_eq_true_iff, hd]
    constructor
    · rintro ⟨o, ho, hdo⟩
      refine ⟨o, ho, ?_⟩
      cases hxo : env.ExtractDestination o.scriptPubKey with
      | none => rfl
      | some d =>
        unfold destinationAfter at hdo
        rw [hxo] at hdo
        exact absurd hdo (hres _ _ hxo)
    · rintro ⟨o, ho, hxo⟩
      refine ⟨o, ho, ?_⟩
      unfold destinationAfter; rw [hxo]; rfl

/-- C28 (witness). The example resolver and an expected operator output with the unresolvable
script `[0x6a]`: a transaction holds a matching output exactly when one of its scripts is
unresolvable. -/
theorem IsTransactionValid_unresolvable_payee_witness :
    IsTransactionValid.findPayee
        (exEnv CMainParams 1000 (some (exMN 2500 [0x6a])) false false false false 0)
        (destinationAfter
          (exEnv CMainParams 1000 (some (exMN 2500 [0x6a])) false false false false 0) [0x6a])
        [{ nValue := 750, scriptPubKey := exOwnerScript }, { nValue := 1, scriptPubKey := [0x51] }]
        = true
      ↔ ∃ o ∈ ([{ nValue := 750, scriptPubKey := exOwnerScript },
                { nValue := 1, scriptPubKey := [0x51] }] : List CTxOut),
          (exEnv CMainParams 1000 (some (exMN 2500 [0x6a])) false false false false
            0).ExtractDestination o.scriptPubKey = none :=
  (IsTransactionValid_unresolvable_payee
    (exEnv CMainParams 1000 (some (exMN 2500 [0x6a])) false false false false 0)
    { vout := [{ nValue := 750, scriptPubKey := exOwnerScript },
               { nValue := 1, scriptPubKey := [0x51] }] } 300 1000).2.2
    (by
      intro s d h
      have h2 : exExtract s = some d := h
      unfold exExtract at h2
      split at h2
      · cases h2; exact fun e => CTxDestination.noConfusion e
      · split at h2
        · cases h2; exact fun e => CTxDestination.noConfusion e
        · split at h2
          · cases h2; exact fun e => CTxDestination.noConfusion e
          · exact Option.noConfusion h2)
    { nValue := 250, scriptPubKey := [0x6a] } (by decide)

/-! ## Payment report -/

/-- C29 (the code at the failing input). Chain tip at height 100 and a masternode list that
projects as many payees as asked for. The range 98..101 inside the chain gives the keys 98,
99, 100. The range 99..103 runs past the tip: the projection is asked for 103 - 100 = 3 payees
and keyed from 101, so the map also holds the key 103, which is not below `nEndHeight`. The
range 105..110 starts past the tip: the keys are 101..110, four of them below `nStartHeight`
and one equal to `nEndHeight`. -/
theorem GetRequiredPaymentsStrings_keys_past_tip :
    (GetRequiredPaymentsStrings
        (exEnv CMainParams 1000 (some (exMN 0 [])) false false false false 0) 98 101).map
        (fun m => m.map Prod.fst) = some [98, 99, 100]
      ∧ (GetRequiredPaymentsStrings
          (exEnv CMainParams 1000 (some (exMN 0 [])) false false false false 0) 99 103).map
          (fun m => m.map Prod.fst) = some [99, 100, 101, 102, 103]
      ∧ (GetRequiredPaymentsStrings
          (exEnv CMainParams 1000 (some (exMN 0 [])) false false false false 0) 105 110).map
          (fun m => m.map Prod.fst) = some [101, 102, 103, 104, 105, 106, 107, 108, 109, 110] := by
  decide

/-! ## Block value: reads of the transaction list -/

/-- `IsBlockValueValid` returns nothing exactly when one of the indices it reads is out of
range. -/
theorem IsBlockValueValid_none_iff (table : GeneratedFunds) (env : Collaborators)
    (block : CBlock) (nBlockHeight : Int) (expectedReward actualReward : CAmount)
    (strErrorRet : String) :
    IsBlockValueValid table env block nBlockHeight expectedReward actualReward strErrorRet
        = none
      ↔ ∃ i ∈ IsBlockValueValid.vtxReads table env block nBlockHeight expectedReward
          actualReward, block.vtx.length ≤ i := by
  by_cases hgen : isGenerationBlock table nBlockHeight = true
  · simp [IsBlockValueValid, IsBlockValueValid.vtxReads, hgen]
  · have hgen2 : isGenerationBlock table nBlockHeight = false := by simpa using hgen
    cases h0 : block.vtx[block.IsProofOfStake.toNat]? with
    | none =>
      have hle := List.getElem?_eq_none_iff.1 h0
      simp [IsBlockValueValid, IsBlockValueValid.vtxReads, hgen2, h0, hle]
    | some c =>
      obtain ⟨hlt, _⟩ := List.getElem?_eq_some_iff.1 h0
      have hpos : 0 < block.vtx.length := by omega
      have hlog0 : (block.vtx[0]?).isNone = false := by
        rw [List.getElem?_eq_getElem hpos]; rfl
      have hearly : ¬ ∃ i ∈ block.IsProofOfStake.toNat ::
          (if env.LogAcceptCategory BCLog.GOBJECT = true then [0] else []),
          block.vtx.length ≤ i := by
        rintro ⟨i, hi, hle⟩
        rcases List.mem_cons.1 hi with h | h
        · omega
        · split at h
          · simp at h; omega
          · simp at h
      rw [IsBlockValueValid_unfold table env block nBlockHeight expectedReward actualReward
        strErrorRet hgen2 hlt]
      unfold IsBlockValueValid.vtxReads
      simp only [hgen2, Bool.false_eq_true, if_false, h0, hlog0, Bool.and_false]
      by_cases c1 : (!env.IsValidBlockHeight nBlockHeight) = true
      · simp only [c1, if_true]
        exact ⟨fun h => Option.noConfusion h, fun h => absurd h hearly⟩
      · simp only [c1, Bool.false_eq_true, if_false]
        by_cases c2 : (!decide (actualReward ≤
            wrap64 (expectedReward + env.GetPaymentsLimit nBlockHeight))) = true
        · simp only [c2, if_true]
          exact ⟨fun h => Option.noConfusion h, fun h => absurd h hearly⟩
        · simp only [c2, Bool.false_eq_true, if_false]
          by_cases c3 : (!env.IsSporkActive SporkId.SPORK_9_SUPERBLOCKS_ENABLED) = true
          · simp only [c3, if_true]
            exact ⟨fun h => Option.noConfusion h, fun h => absurd h hearly⟩
          · simp only [c3, Bool.false_eq_true, if_false]
            by_cases c4 : (!env.IsSuperblockTriggered nBlockHeight) = true
            · simp only [c4, if_true]
              exact ⟨fun h => Option.noConfusion h, fun h => absurd h hearly⟩
            · simp only [c4, Bool.false_eq_true, if_false]
              cases h1 : block.vtx[1]? with
              | none =>
                have hle1 := List.getElem?_eq_none_iff.1 h1
                exact ⟨fun _ => ⟨1, by simp, hle1⟩, fun _ => rfl⟩
              | some tx1 =>
                obtain ⟨hlt1, _⟩ := List.getElem?_eq_some_iff.1 h1
                by_cases c5 : (!env.IsValid tx1 nBlockHeight actualReward expectedReward) = true
                · simp only [c5, if_true]
                  cases h10 : block.vtx[10]? with
                  | none =>
                    have hle10 := List.getElem?_eq_none_iff.1 h10
                    exact ⟨fun _ => ⟨10, by simp, hle10⟩, fun _ => rfl⟩
                  | some tx10 =>
                    obtain ⟨hlt10, _⟩ := List.getElem?_eq_some_iff.1 h10
                    refine ⟨fun h => Option.noConfusion h, ?_⟩
                    rintro ⟨i, hi, hle⟩
                    rw [List.mem_append] at hi
                    rcases hi with hi | hi
                    · exact absurd ⟨i, hi, hle⟩ hearly
                    · simp at hi; omega
                · simp only [c5, Bool.false_eq_true, if_false]
                  refine ⟨fun h => Option.noConfusion h, ?_⟩
                  rintro ⟨i, hi, hle⟩
                  rw [List.mem_append] at hi
                  rcases hi with hi | hi
                  · exact absurd ⟨i, hi, hle⟩ hearly
                  · simp at hi; omega

/-- C30 (the code at the failing input). A proof-of-stake block of ten transactions at a
valid, triggered superblock height with the ceiling respected and an invalid superblock: the
indices read are 1, 1 and 10, the last one is out of range and the function returns
nothing. -/
theorem IsBlockValueValid_reads_index_ten :
    IsBlockValueValid.vtxReads creationPoints
        (exEnv CTestNetParams 0 none true true true false 500)
        { vtx := List.replicate 10 { vout := [] }, IsProofOfStake := true }
        120 1000 1000 = [1, 1, 10]
      ∧ IsBlockValueValid creationPoints
        (exEnv CTestNetParams 0 none true true true false 500)
        { vtx := List.replicate 10 { vout := [] }, IsProofOfStake := true }
        120 1000 1000 "" = none := by
  decide

/-! ## Coinbase construction: index 1 and the masternode check -/

/-- C31. If the transaction has at least two outputs on entry, `FillBlockPayments` never reads
its output list out of range: it fails to return only when an override height finds no spork
address. The output it reduces at index 1 keeps the script of the original second output, and
the outputs appended after the original ones (override, masternode, superblock) are left as
they were appended. -/
theorem FillBlockPayments_index_one (table : GeneratedFunds) (env : Collaborators)
    (txNew : CTransaction) (nBlockHeight : Int) (expectedReward : CAmount)
    (voutMN voutSB : List CTxOut) (o1 : CTxOut)
    (h1 : txNew.vout[1]? = some o1) :
    (FillBlockPayments table env txNew nBlockHeight expectedReward voutMN voutSB = none
        ↔ isGenerationBlock table nBlockHeight = true ∧ env.Params.vSporkAddresses = [])
      ∧ (∀ (txRet : CTransaction) (mnRet sbRet : List CTxOut),
          FillBlockPayments table env txNew nBlockHeight expectedReward voutMN voutSB
              = some (txRet, mnRet, sbRet) →
            (∃ v : CAmount,
                txRet.vout[1]? = some { nValue := v, scriptPubKey := o1.scriptPubKey })
              ∧ txRet.vout.drop txNew.vout.length
                  = (if isGenerationBlock table nBlockHeight then
                      [{ nValue := getGenerationAmount table nBlockHeight,
                         scriptPubKey :=
                           env.GetScriptForAddress (env.Params.vSporkAddresses.headD "") }]
                    else [])
                    ++ mnRet ++ sbRet) := by
  obtain ⟨o0, rest, hvout⟩ := vout_decompose txNew.vout o1 h1
  have hnone : FillBlockPayments table env txNew nBlockHeight expectedReward voutMN voutSB
      = none ↔ isGenerationBlock table nBlockHeight = true ∧ env.Params.vSporkAddresses = [] := by
    constructor
    · intro hn
      by_contra hcon
      have haddr : isGenerationBlock table nBlockHeight = true →
          env.Params.vSporkAddresses ≠ [] := fun hg ha => hcon ⟨hg, ha⟩
      rw [FillBlockPayments_eq table env txNew nBlockHeight expectedReward voutMN voutSB
        o0 o1 rest hvout haddr] at hn
      exact Option.noConfusion hn
    · rintro ⟨hg, ha⟩
      unfold FillBlockPayments
      simp only [hg, if_true, ha, List.head?_nil]
  refine ⟨hnone, ?_⟩
  intro txRet mnRet sbRet hsome
  have haddr : isGenerationBlock table nBlockHeight = true →
      env.Params.vSporkAddresses ≠ [] := by
    intro hg ha
    rw [hnone.2 ⟨hg, ha⟩] at hsome
    exact Option.noConfusion hsome
  rw [FillBlockPayments_eq table env txNew nBlockHeight expectedReward voutMN voutSB
    o0 o1 rest hvout haddr] at hsome
  simp only [Option.some.injEq, Prod.mk.injEq] at hsome
  obtain ⟨htx, hmn, hsb⟩ := hsome
  rw [← htx, ← hmn, ← hsb, hvout]
  constructor
  · simp only [List.cons_append, List.getElem?_cons_succ, List.getElem?_cons_zero]
    exact ⟨_, rfl⟩
  · simp only [List.append_assoc]
    exact List.drop_left' rfl

/-- C31 (witness). Height 100 of the example table, a payee with a 750/250 split, a triggered
superblock and a transaction with three outputs: the call returns. -/
theorem FillBlockPayments_index_one_witness :
    ¬ (FillBlockPayments exTable
        (exEnv CMainParams 1000 (some (exMN 2500 exOperatorScript)) true true true true 0)
        { vout := [{ nValue := 0, scriptPubKey := [] },
                   { nValue := 5000, scriptPubKey := exOwnerScriptAlt },
                   { nValue := 7, scriptPubKey := [] }] } 100 5000 [] [] = none) :=
  fun hn =>
    absurd ((FillBlockPayments_index_one exTable
      (exEnv CMainParams 1000 (some (exMN 2500 exOperatorScript)) true true true true 0)
      { vout := [{ nValue := 0, scriptPubKey := [] },
                 { nValue := 5000, scriptPubKey := exOwnerScriptAlt },
                 { nValue := 7, scriptPubKey := [] }] } 100 5000 [] []
      { nValue := 5000, scriptPubKey := exOwnerScriptAlt } rfl).1.1 hn).2 (by decide)

/-- C32. For every height, expected reward and starting transaction with at least two outputs
(and a first spork address at an override height), `FillBlockPayments` produces a transaction
that `IsTransactionValid` accepts at the same height and expected reward, without reaching
the assertion: every scheduled masternode output is literally among its outputs. -/
theorem FillBlockPayments_then_IsTransactionValid (table : GeneratedFunds)
    (env : Collaborators) (txNew : CTransaction) (nBlockHeight : Int)
    (expectedReward : CAmount) (voutMN voutSB : List CTxOut)
    (hlen : 2 ≤ txNew.vout.length)
    (haddr : isGenerationBlock table nBlockHeight = true → env.Params.vSporkAddresses ≠ []) :
    ∃ (txRet : CTransaction) (mnRet sbRet : List CTxOut),
      FillBlockPayments table env txNew nBlockHeight expectedReward voutMN voutSB
          = some (txRet, mnRet, sbRet)
        ∧ (∀ e ∈ (GetBlockTxOuts env nBlockHeight expectedReward []).2, e ∈ txRet.vout)
        ∧ IsTransactionValid env txRet nBlockHeight expectedReward = some true := by
  obtain ⟨o0, o1, rest, hvout⟩ : ∃ o0 o1 rest, txNew.vout = o0 :: o1 :: rest := by
    match hv : txNew.vout with
    | [] => rw [hv] at hlen; simp at hlen
    | [_] => rw [hv] at hlen; simp at hlen
    | a :: b :: r => exact ⟨a, b, r, rfl⟩
  refine ⟨_, _, _, FillBlockPayments_eq table env txNew nBlockHeight expectedReward voutMN
    voutSB o0 o1 rest hvout haddr, ?_⟩
  have hsub : ∀ e ∈ (GetBlockTxOuts env nBlockHeight expectedReward []).2,
      e ∈ (o0 ::
          ({ nValue :=
              (GetMasternodeTxOuts env nBlockHeight expectedReward voutMN).2.foldl
                (fun acc txout => wrap64 (acc - txout.nValue)) o1.nValue,
             scriptPubKey := o1.scriptPubKey } : CTxOut) :: rest)
        ++ (if isGenerationBlock table nBlockHeight then
              [({ nValue := getGenerationAmount table nBlockHeight,
                  scriptPubKey :=
                    env.GetScriptForAddress (env.Params.vSporkAddresses.headD "") } : CTxOut)]
            else [])
        ++ (GetMasternodeTxOuts env nBlockHeight expectedReward voutMN).2
        ++ (if env.IsSporkActive SporkId.SPORK_9_SUPERBLOCKS_ENABLED
                && env.IsSuperblockTriggered nBlockHeight then
              (env.GetSuperblockPayments nBlockHeight voutSB).2
            else voutSB) := by
    intro e he
    rw [← GetMasternodeTxOuts_eq env nBlockHeight expectedReward voutMN] at he
    simp only [List.mem_append]
    exact Or.inl (Or.inr he)
  exact ⟨hsub, IsTransactionValid_of_outputs_present env _ nBlockHeight expectedReward hsub⟩

/-- C32 (witness). Mainnet height 300 with the shipped table and a payee with a 750/250
split. -/
theorem FillBlockPayments_then_IsTransactionValid_witness :
    ∃ (txRet : CTransaction) (mnRet sbRet : List CTxOut),
      FillBlockPayments creationPoints
          (exEnv CMainParams 1000 (some (exMN 2500 exOperatorScript)) true true true false 0)
          { vout := [{ nValue := 0, scriptPubKey := [] },
                     { nValue := 5000, scriptPubKey := exOwnerScriptAlt }] } 300 5000 [] []
          = some (txRet, mnRet, sbRet)
        ∧ (∀ e ∈ (GetBlockTxOuts
              (exEnv CMainParams 1000 (some (exMN 2500 exOperatorScript)) true true true false 0)
              300 5000 []).2, e ∈ txRet.vout)
        ∧ IsTransactionValid
            (exEnv CMainParams 1000 (some (exMN 2500 exOperatorScript)) true true true false 0)
            txRet 300 5000 = some true :=
  FillBlockPayments_then_IsTransactionValid creationPoints
    (exEnv CMainParams 1000 (some (exMN 2500 exOperatorScript)) true true true false 0)
    { vout := [{ nValue := 0, scriptPubKey := [] },
               { nValue := 5000, scriptPubKey := exOwnerScriptAlt }] } 300 5000 [] []
    (by decide) (fun h => absurd h (by decide))

/-! ## Transaction validity: monotonicity -/

/-- C35. `IsTransactionValid` is monotone in the outputs: if it accepts a transaction at a
height and reward, it accepts (without abort) every transaction whose output list contains
all outputs of that transaction. -/
theorem IsTransactionValid_monotone (env : Collaborators) (tx1 tx2 : CTransaction)
    (nBlockHeight : Int) (expectedReward : CAmount)
    (hacc : IsTransactionValid env tx1 nBlockHeight expectedReward = some true)
    (hsub : ∀ o ∈ tx1.vout, o ∈ tx2.vout) :
    IsTransactionValid env tx2 nBlockHeight expectedReward = some true := by
  unfold IsTransactionValid at hacc ⊢
  by_cases hh : nBlockHeight < env.Params.consensus.DIP0003Height
  · rw [if_pos hh]
  · rw [if_neg hh] at hacc ⊢
    cases hok : (GetBlockTxOuts env nBlockHeight expectedReward []).1
    · simp [hok]
    · simp only [hok, Bool.not_true, Bool.false_eq_true, if_false] at hacc ⊢
      rw [checkPayees_eq_true_iff] at hacc ⊢
      intro e he
      obtain ⟨o, ho, hd⟩ := hacc e he
      exact ⟨o, hsub o ho, hd⟩

/-- C35 (witness). A transaction that pays owner and operator stays accepted when an output
is put in front and one is appended. -/
theorem IsTransactionValid_monotone_witness :
    IsTransactionValid
        (exEnv CMainParams 1000 (some (exMN 2500 exOperatorScript)) false false false false 0)
        { vout := [{ nValue := 9, scriptPubKey := [] },
                   { nValue := 750, scriptPubKey := exOwnerScript },
                   { nValue := 250, scriptPubKey := exOperatorScript },
                   { nValue := 3, scriptPubKey := exProposalScript }] } 300 1000 = some true :=
  IsTransactionValid_monotone
    (exEnv CMainParams 1000 (some (exMN 2500 exOperatorScript)) false false false false 0)
    { vout := [{ nValue := 750, scriptPubKey := exOwnerScript },
               { nValue := 250, scriptPubKey := exOperatorScript }] }
    { vout := [{ nValue := 9, scriptPubKey := [] },
               { nValue := 750, scriptPubKey := exOwnerScript },
               { nValue := 250, scriptPubKey := exOperatorScript },
               { nValue := 3, scriptPubKey := exProposalScript }] } 300 1000
    (by decide) (by decide)

/-! ## Schedule lookahead: the height argument -/

/-- C36. The result of `IsScheduled` does not depend on `nNotBlockHeight`: for the same
masternode and collaborator answers any two values of the argument give the same result. -/
theorem IsScheduled_height_independent (env : Collaborators) (dmnIn : CDeterministicMN)
    (nNotBlockHeight otherHeight : Int) :
    IsScheduled env dmnIn nNotBlockHeight = IsScheduled env dmnIn otherHeight := by
  unfold IsScheduled
  rfl

/-! ## The payment schedule: sizes and bounds -/

theorem operatorAmount_bounds (mr : Int) (bps : Nat) (h0 : 0 ≤ mr) (hb : bps ≤ 10000) :
    0 ≤ (mr * (bps : Int)).tdiv 10000 ∧ (mr * (bps : Int)).tdiv 10000 ≤ mr := by
  have hp : 0 ≤ mr * (bps : Int) := Int.mul_nonneg h0 (Int.natCast_nonneg bps)
  rw [Int.tdiv_eq_ediv hp (by decide)]
  exact operatorShare_le mr bps h0 hb

theorem inInt64_of_product (mr : Int) (bps : Nat) (h0 : 0 ≤ mr) (hb : bps ≠ 0)
    (hprod : InInt64 (mr * (bps : Int))) : InInt64 mr := by
  have hb1 : (1 : Int) ≤ (bps : Int) := by
    have : 1 ≤ bps := Nat.one_le_iff_ne_zero.mpr hb
    exact_mod_cast this
  have hle : mr * 1 ≤ mr * (bps : Int) := Int.mul_le_mul_of_nonneg_left hb1 h0
  unfold InInt64 INT64_MIN INT64_MAX at *
  constructor <;> omega

theorem GetBlockTxOuts_success_shape (env : Collaborators) (nBlockHeight : Int)
    (expectedReward : CAmount) (vin : List CTxOut)
    (hok : (GetBlockTxOuts env nBlockHeight expectedReward vin).1 = true) :
    (GetBlockTxOuts env nBlockHeight expectedReward vin).2.length ≤ 2
      ∧ ∀ o ∈ (GetBlockTxOuts env nBlockHeight expectedReward vin).2, 0 < o.nValue := by
  unfold GetBlockTxOuts at hok ⊢
  cases hp : env.GetMNPayee nBlockHeight with
  | none => simp [hp] at hok
  | some dmn =>
    simp only [hp, vectorClear, List.nil_append, gt_iff_lt]
    split <;> split <;> split <;> simp_all

/-- C33. Every list `GetBlockTxOuts` returns on success has at most two outputs, each with a
strictly positive amount. Whenever the masternode reward is not negative, the operator reward
is at most 10000 basis points and their product fits a signed 64-bit integer, the operator
amount `op` the code computes satisfies `0 ≤ op ≤ masternodeReward`, the owner amount
`masternodeReward - op` is not negative, and these two amounts are the ones paid. -/
theorem GetBlockTxOuts_amount_invariants (env : Collaborators) (nBlockHeight : Int)
    (expectedReward : CAmount) (vin : List CTxOut) :
    ((GetBlockTxOuts env nBlockHeight expectedReward vin).1 = true →
        (GetBlockTxOuts env nBlockHeight expectedReward vin).2.length ≤ 2
          ∧ ∀ o ∈ (GetBlockTxOuts env nBlockHeight expectedReward vin).2, 0 < o.nValue)
      ∧ (∀ (dmn : CDeterministicMN) (op : Int),
          env.GetMNPayee nBlockHeight = some dmn →
          (0 : Int) ≤ env.GetMasternodePayment nBlockHeight expectedReward →
          dmn.nOperatorReward.val ≤ 10000 →
          InInt64 (env.GetMasternodePayment nBlockHeight expectedReward
            * (dmn.nOperatorReward.val : Int)) →
          op = (if dmn.nOperatorReward ≠ 0 ∧ dmn.pdmnState.scriptOperatorPayout ≠ [] then
                  (wrap64 (env.GetMasternodePayment nBlockHeight expectedReward
                    * (dmn.nOperatorReward.val : Int))).tdiv 10000
                else 0) →
          0 ≤ op ∧ op ≤ env.GetMasternodePayment nBlockHeight expectedReward
            ∧ 0 ≤ env.GetMasternodePayment nBlockHeight expectedReward - op
            ∧ GetBlockTxOuts env nBlockHeight expectedReward vin =
                (true,
                  (if 0 < env.GetMasternodePayment nBlockHeight expectedReward - op then
                      [{ nValue := env.GetMasternodePayment nBlockHeight expectedReward - op,
                         scriptPubKey := dmn.pdmnState.scriptPayout }]
                    else [])
                  ++ (if 0 < op then
                        [{ nValue := op,
                           scriptPubKey := dmn.pdmnState.scriptOperatorPayout }]
                      else []))) := by
  refine ⟨GetBlockTxOuts_success_shape env nBlockHeight expectedReward vin, ?_⟩
  intro dmn op hp h0 hb hprod hop
  generalize hmr : env.GetMasternodePayment nBlockHeight expectedReward = mr at h0 hprod hop ⊢
  rw [wrap64_of_inRange _ hprod] at hop
  have hbounds : 0 ≤ op ∧ op ≤ mr := by
    by_cases hc : dmn.nOperatorReward ≠ 0 ∧ dmn.pdmnState.scriptOperatorPayout ≠ []
    · rw [if_pos hc] at hop
      rw [hop]
      exact operatorAmount_bounds mr dmn.nOperatorReward.val h0 hb
    · rw [if_neg hc] at hop
      rw [hop]
      exact ⟨le_refl 0, h0⟩
  have harith : dmn.nOperatorReward ≠ 0 ∧ dmn.pdmnState.scriptOperatorPayout ≠ [] →
      InInt64 mr ∧ InInt64 (mr * (dmn.nOperatorReward.val : Int)) := by
    intro hc
    refine ⟨inInt64_of_product mr dmn.nOperatorReward.val h0 ?_ hprod, hprod⟩
    intro hz
    exact hc.1 (Fin.ext hz)
  refine ⟨hbounds.1, hbounds.2, sub_nonneg.mpr hbounds.2, ?_⟩
  exact GetBlockTxOuts_of_payee env nBlockHeight expectedReward vin dmn mr hmr hp harith op hop

/-- C33 (witness). A reward of 1000 with 2500 basis points: both outputs are positive, the
operator amount is 250 and the owner amount 750. -/
theorem GetBlockTxOuts_amount_invariants_witness :
    (0 : Int) ≤ 250 ∧ (250 : Int) ≤ 1000 ∧ (0 : Int) ≤ 1000 - 250
      ∧ GetBlockTxOuts
          (exEnv CMainParams 1000 (some (exMN 2500 exOperatorScript)) false false false false 0)
          300 5000 [] =
        (true, [{ nValue := 750, scriptPubKey := exOwnerScript },
                { nValue := 250, scriptPubKey := exOperatorScript }]) :=
  (GetBlockTxOuts_amount_invariants
    (exEnv CMainParams 1000 (some (exMN 2500 exOperatorScript)) false false false false 0)
    300 5000 []).2 (exMN 2500 exOperatorScript) 250 rfl (by decide) (by decide) (by decide)
    (by decide)

/-- C34. If a payee exists but the masternode reward is 0, `GetBlockTxOuts` returns true with
an empty list, and `IsTransactionValid` then returns true for every transaction at that height:
no payee is enforced. -/
theorem GetBlockTxOuts_zero_reward (env : Collaborators) (nBlockHeight : Int)
    (expectedReward : CAmount) (vin : List CTxOut) (dmn : CDeterministicMN)
    (hp : env.GetMNPayee nBlockHeight = some dmn)
    (hzero : env.GetMasternodePayment nBlockHeight expectedReward = 0) :
    GetBlockTxOuts env nBlockHeight expectedReward vin = (true, [])
      ∧ ∀ txNew : CTransaction,
          IsTransactionValid env txNew nBlockHeight expectedReward = some true := by
  have hlist : ∀ v : List CTxOut,
      GetBlockTxOuts env nBlockHeight expectedReward v = (true, []) := by
    intro v
    have h := GetBlockTxOuts_of_payee env nBlockHeight expectedReward v dmn 0 hzero hp
      (fun _ => ⟨by decide, by rw [Int.zero_mul]; decide⟩) 0
      (by rw [Int.zero_mul]; simp)
    rw [h]
    simp
  refine ⟨hlist vin, ?_⟩
  intro txNew
  apply IsTransactionValid_of_outputs_present
  intro e he
  rw [hlist []] at he
  simp at he

/-- C34 (witness). Mainnet height 300 with a payee and a masternode reward of 0: the
transaction without outputs is accepted. -/
theorem GetBlockTxOuts_zero_reward_witness :
    GetBlockTxOuts
        (exEnv CMainParams 0 (some (exMN 2500 exOperatorScript)) false false false false 0)
        300 5000 [{ nValue := 1, scriptPubKey := [] }] = (true, [])
      ∧ ∀ txNew : CTransaction,
          IsTransactionValid
            (exEnv CMainParams 0 (some (exMN 2500 exOperatorScript)) false false false false 0)
            txNew 300 5000 = some true :=
  GetBlockTxOuts_zero_reward
    (exEnv CMainParams 0 (some (exMN 2500 exOperatorScript)) false false false false 0)
    300 5000 [{ nValue := 1, scriptPubKey := [] }] (exMN 2500 exOperatorScript) rfl rfl

/-! ## Activation heights of the parameter sets -/

/-- C37. In the main, testnet and regtest parameter sets as constructed,
`nMasternodePaymentsStartBlock ≤ DIP0003Height` (201 ≤ 201, 50 ≤ 75, 240 ≤ 432), so on those
networks every height below the masternode-payments start is also below the threshold
`IsTransactionValid` tests, which then accepts; on mainnet the two heights are equal and both
are `nLastPoWBlock + 1`. -/
theorem nMasternodePaymentsStartBlock_le_DIP0003Height (nBlockHeight : Int) :
    (CMainParams.consensus.nMasternodePaymentsStartBlock = 201
        ∧ CMainParams.consensus.DIP0003Height = 201)
      ∧ (CTestNetParams.consensus.nMasternodePaymentsStartBlock = 50
        ∧ CTestNetParams.consensus.DIP0003Height = 75)
      ∧ (CRegTestParams.consensus.nMasternodePaymentsStartBlock = 240
        ∧ CRegTestParams.consensus.DIP0003Height = 432)
      ∧ (∀ p ∈ [CMainParams, CTestNetParams, CRegTestParams],
          p.consensus.nMasternodePaymentsStartBlock ≤ p.consensus.DIP0003Height
            ∧ (nBlockHeight < p.consensus.nMasternodePaymentsStartBlock →
                nBlockHeight < p.consensus.DIP0003Height
                  ∧ ∀ (env : Collaborators) (txNew : CTransaction) (expectedReward : CAmount),
                      env.Params = p →
                      IsTransactionValid env txNew nBlockHeight expectedReward = some true))
      ∧ CMainParams.consensus.nMasternodePaymentsStartBlock
          = CMainParams.consensus.DIP0003Height
      ∧ CMainParams.consensus.DIP0003Height = CMainParams.consensus.nLastPoWBlock + 1 := by
  refine ⟨⟨rfl, rfl⟩, ⟨rfl, rfl⟩, ⟨rfl, rfl⟩, ?_, rfl, rfl⟩
  intro p hp
  have hle : p.consensus.nMasternodePaymentsStartBlock ≤ p.consensus.DIP0003Height := by
    simp only [List.mem_cons, List.mem_singleton, List.not_mem_nil, or_false] at hp
    rcases hp with h | h | h <;> subst h <;> decide
  refine ⟨hle, ?_⟩
  intro hlt
  have hlt2 : nBlockHeight < p.consensus.DIP0003Height := lt_of_lt_of_le hlt hle
  refine ⟨hlt2, ?_⟩
  intro env txNew expectedReward hparams
  unfold IsTransactionValid
  rw [hparams, if_pos hlt2]

/-- C37 (witness). Testnet height 49 is below the payments start 50, hence below 75, and a
transaction that pays nobody is accepted there. -/
theorem nMasternodePaymentsStartBlock_le_DIP0003Height_witness :
    (49 : Int) < CTestNetParams.consensus.DIP0003Height
      ∧ IsTransactionValid
          (exEnv CTestNetParams 1000 (some (exMN 0 [])) false false false false 0)
          { vout := [] } 49 1000 = some true :=
  ⟨(((nMasternodePaymentsStartBlock_le_DIP0003Height 49).2.2.2.1 CTestNetParams
      (by simp)).2 (by decide)).1,
   (((nMasternodePaymentsStartBlock_le_DIP0003Height 49).2.2.2.1 CTestNetParams
      (by simp)).2 (by decide)).2
      (exEnv CTestNetParams 1000 (some (exMN 0 [])) false false false false 0)
      { vout := [] } 1000 rfl⟩

/-! ## Selection of the parameter set (`CreateChainParams`) -/

theorem map_ok_ne_error (o : Option CChainParams) (msg : String) :
    o.map Except.ok ≠ some (Except.error msg) := by
  cases o with
  | none => exact fun h => Option.noConfusion h
  | some p =>
    intro h
    simp only [Option.map_some', Option.some.injEq] at h
    exact Except.noConfusion h

/-- C38. `CreateChainParams` throws if and only if the chain name is none of the four base
chain names, and the message then names the chain. For pairwise different names, the names
of the main network (when the two assertions of its constructor hold), of testnet and of
regtest return the parameter set whose `strNetworkID` is `main`, `test` and `regtest`. The
devnet name does not return the `dev` set: the constructor aborts whenever the Merkle root of
the genesis block it builds is not the value it asserts, and whenever the devnet name is
empty. -/
theorem CreateChainParams_devnet_aborts (names : CBaseChainParams) (g : GenesisCollaborators)
    (chain : String) :
    ((∃ msg, CreateChainParams names g chain = some (Except.error msg))
        ↔ chain ≠ names.MAIN ∧ chain ≠ names.TESTNET ∧ chain ≠ names.DEVNET
            ∧ chain ≠ names.REGTEST)
      ∧ (∀ msg, CreateChainParams names g chain = some (Except.error msg) →
          msg = "CreateChainParams: Unknown chain " ++ chain ++ ".")
      ∧ ([names.MAIN, names.TESTNET, names.DEVNET, names.REGTEST].Nodup →
          (g.GetHash (CreateGenesisBlock g 1613019600 2024315 0x1e0ffff0 1
                (wrap64 (0 * g.COIN)) false)
              = 0x00000b49f79eaf2a0a99f3d85762a63b410711953933834c9afd5e96ce805a61 →
            (CreateGenesisBlock g 1613019600 2024315 0x1e0ffff0 1
                (wrap64 (0 * g.COIN)) false).hashMerkleRoot
              = 0xbafd9ea271b5fdc00fefe68e82c3baaa5b2b9f0770c93713506fb071fe4337fa →
            CreateChainParams names g names.MAIN = some (Except.ok CMainParams)
              ∧ CMainParams.strNetworkID = "main")
          ∧ (CreateChainParams names g names.TESTNET = some (Except.ok CTestNetParams)
            ∧ CTestNetParams.strNetworkID = "test")
          ∧ (CreateChainParams names g names.REGTEST = some (Except.ok CRegTestParams)
            ∧ CRegTestParams.strNetworkID = "regtest")
          ∧ ((CreateGenesisBlock g 1417713337 1096447 0x207fffff 1
                (wrap64 (50 * g.COIN)) false).hashMerkleRoot
              ≠ 0xe0028eb9648db56b1ac77cf090b99048a8007e2bb64b68f092c03c7f56a662c7 →
            CreateChainParams names g names.DEVNET = none)
          ∧ (g.GetDevNetName = "" → CreateChainParams names g names.DEVNET = none)
          ∧ (∀ p, CreateChainParams names g names.DEVNET = some (Except.ok p) →
              p = CDevNetParams ∧ p.strNetworkID = "dev")) := by
  refine ⟨?_, ?_, ?_⟩
  · unfold CreateChainParams
    by_cases h1 : chain = names.MAIN
    · rw [if_pos h1]
      exact ⟨fun ⟨m, h⟩ => absurd h (map_ok_ne_error _ m), fun h => absurd h1 h.1⟩
    · rw [if_neg h1]
      by_cases h2 : chain = names.TESTNET
      · rw [if_pos h2]
        exact ⟨fun ⟨m, h⟩ => absurd h (map_ok_ne_error _ m), fun h => absurd h2 h.2.1⟩
      · rw [if_neg h2]
        by_cases h3 : chain = names.DEVNET
        · rw [if_pos h3]
          exact ⟨fun ⟨m, h⟩ => absurd h (map_ok_ne_error _ m), fun h => absurd h3 h.2.2.1⟩
        · rw [if_neg h3]
          by_cases h4 : chain = names.REGTEST
          · rw [if_pos h4]
            exact ⟨fun ⟨m, h⟩ => absurd h (map_ok_ne_error _ m), fun h => absurd h4 h.2.2.2⟩
          · rw [if_neg h4]
            exact ⟨fun _ => ⟨h1, h2, h3, h4⟩, fun _ => ⟨_, rfl⟩⟩
  · intro msg hmsg
    unfold CreateChainParams at hmsg
    split at hmsg
    · exact absurd hmsg (map_ok_ne_error _ msg)
    · split at hmsg
      · exact absurd hmsg (map_ok_ne_error _ msg)
      · split at hmsg
        · exact absurd hmsg (map_ok_ne_error _ msg)
        · split at hmsg
          · exact absurd hmsg (map_ok_ne_error _ msg)
          · simp only [Option.some.injEq, Except.error.injEq] at hmsg
            rw [← hmsg]
            rfl
  · intro hnd
    simp only [List.nodup_cons, List.mem_cons, List.mem_singleton, List.not_mem_nil,
      not_or, not_false_eq_true, List.nodup_nil, and_true, or_false] at hnd
    obtain ⟨⟨h12, h13, h14⟩, ⟨h23, h24⟩, h34⟩ := hnd
    have hdev : CreateChainParams names g names.DEVNET = (newCDevNetParams g).map Except.ok := by
      unfold CreateChainParams
      rw [if_neg (Ne.symm h13), if_neg (Ne.symm h23), if_pos rfl]
    refine ⟨?_, ⟨?_, rfl⟩, ⟨?_, rfl⟩, ?_, ?_, ?_⟩
    · intro hhash hroot
      refine ⟨?_, rfl⟩
      unfold CreateChainParams newCMainParams
      rw [if_pos rfl]
      simp only [hhash, hroot, ne_eq, not_true_eq_false, if_false, Option.map_some']
    · unfold CreateChainParams newCTestNetParams
      rw [if_neg (Ne.symm h12), if_pos rfl]
      rfl
    · unfold CreateChainParams newCRegTestParams
      rw [if_neg (Ne.symm h14), if_neg (Ne.symm h24), if_neg (Ne.symm h34), if_pos rfl]
      rfl
    · intro hroot
      rw [hdev]
      unfold newCDevNetParams
      simp only [ne_eq, hroot, not_false_eq_true, if_true, ite_self, Option.map_none']
    · intro hname
      rw [hdev]
      unfold newCDevNetParams FindDevNetGenesisBlock
      simp only [hname, if_true]
      split
      · rfl
      · split <;> rfl
    · intro p hp
      rw [hdev] at hp
      unfold newCDevNetParams at hp
      have hp2 : p = CDevNetParams := by
        simp only at hp
        split at hp
        · exact Option.noConfusion hp
        · split at hp
          · exact Option.noConfusion hp
          · split at hp
            · exact Option.noConfusion hp
            · simp only [Option.map_some', Option.some.injEq, Except.ok.injEq] at hp
              exact hp.symm
      exact ⟨hp2, by rw [hp2]; rfl⟩

/-- C38 (witness). With the names `main`, `test`, `dev` and `regtest` and the genesis blocks
as shipped, the main network name returns its parameter set and the devnet name aborts. -/
theorem CreateChainParams_devnet_aborts_witness :
    (CreateChainParams baseChainNames exGenesis "main" = some (Except.ok CMainParams)
        ∧ CMainParams.strNetworkID = "main")
      ∧ CreateChainParams baseChainNames exGenesis "dev" = none :=
  ⟨(CreateChainParams_devnet_aborts baseChainNames exGenesis "dev").2.2 (by decide)
      |>.1 (by decide) (by decide),
   (CreateChainParams_devnet_aborts baseChainNames exGenesis "dev").2.2 (by decide)
      |>.2.2.2.1 (by decide)⟩

/-! ## Fee rates and proof of stake -/

/-- C39. `FallbackFee`, `MinTxFee` and `MinRelayFee` each return the same fee rate whether or
not proof of stake is in effect: for all values of `fPoSTrigger` and of `IsPoS()` the result
of each function is the same, and the three functions agree with one another. -/
theorem feeRates_independent_of_proof_of_stake (coinFraction : CAmount)
    (fPoSTrigger isPoS otherTrigger otherPoS : Bool) :
    FallbackFee coinFraction fPoSTrigger isPoS = FallbackFee coinFraction otherTrigger otherPoS
      ∧ MinTxFee coinFraction fPoSTrigger isPoS = MinTxFee coinFraction otherTrigger otherPoS
      ∧ MinRelayFee coinFraction fPoSTrigger isPoS
          = MinRelayFee coinFraction otherTrigger otherPoS
      ∧ FallbackFee coinFraction fPoSTrigger isPoS = MinTxFee coinFraction otherTrigger otherPoS
      ∧ MinTxFee coinFraction fPoSTrigger isPoS
          = MinRelayFee coinFraction otherTrigger otherPoS := by
  unfold FallbackFee MinTxFee MinRelayFee DEFAULT_FALLBACK_LEGACY DEFAULT_FALLBACK_FUTURE
    DEFAULT_TX_MINFEE_LEGACY DEFAULT_TX_MINFEE_FUTURE DEFAULT_MIN_RELAY_FEE_LEGACY
    DEFAULT_MIN_RELAY_FEE_FUTURE
  simp only [ite_self, and_self]

end LokalCoin
